import Mathlib

/-!
# Tapo camera client: session protocol and secure transport

A shallow embedding of `internal/crypto` (`aes.go`, `hash.go`) and `internal/tapo`
(`client.go`, `request.go`, `models.go`).  Go byte slices and strings are lists of bytes,
Go `int` is `Int` with explicit 64-bit wrap-around, and functions returning `(T, error)`
return `Except`.
-/

set_option maxRecDepth 100000
set_option linter.unusedVariables false
set_option linter.dupNamespace false

namespace Tapo

/-- A Go `byte`. -/
abbrev Byte := Fin 256

/-- A Go `[]byte`. -/
abbrev Bytes := List Byte

/-- A Go `string`: an immutable byte sequence. -/
abbrev Str := List Byte

/-- Bitwise exclusive or of two bytes (Go `a ^ b`). -/
def xorByte (a b : Byte) : Byte :=
  ⟨a.val ^^^ b.val, (Nat.xor_lt_two_pow a.isLt b.isLt : a.val ^^^ b.val < 2 ^ 8)⟩

/-- Bytewise exclusive or of two byte sequences, over their common length
(`subtle.XORBytes`). -/
def xorBytes (x y : Bytes) : Bytes := List.zipWith xorByte x y

/-! ## AES-128 (FIPS 197), as provided by Go's `crypto/aes` -/

namespace AES

/-- The AES S-box (FIPS 197, figure 7): row `x`, column `y` holds the value for byte `xy`. -/
def sboxTable : List (List Nat) :=
  [[0x63, 0x7c, 0x77, 0x7b, 0xf2, 0x6b, 0x6f, 0xc5, 0x30, 0x01, 0x67, 0x2b, 0xfe, 0xd7, 0xab, 0x76],
   [0xca, 0x82, 0xc9, 0x7d, 0xfa, 0x59, 0x47, 0xf0, 0xad, 0xd4, 0xa2, 0xaf, 0x9c, 0xa4, 0x72, 0xc0],
   [0xb7, 0xfd, 0x93, 0x26, 0x36, 0x3f, 0xf7, 0xcc, 0x34, 0xa5, 0xe5, 0xf1, 0x71, 0xd8, 0x31, 0x15],
   [0x04, 0xc7, 0x23, 0xc3, 0x18, 0x96, 0x05, 0x9a, 0x07, 0x12, 0x80, 0xe2, 0xeb, 0x27, 0xb2, 0x75],
   [0x09, 0x83, 0x2c, 0x1a, 0x1b, 0x6e, 0x5a, 0xa0, 0x52, 0x3b, 0xd6, 0xb3, 0x29, 0xe3, 0x2f, 0x84],
   [0x53, 0xd1, 0x00, 0xed, 0x20, 0xfc, 0xb1, 0x5b, 0x6a, 0xcb, 0xbe, 0x39, 0x4a, 0x4c, 0x58, 0xcf],
   [0xd0, 0xef, 0xaa, 0xfb, 0x43, 0x4d, 0x33, 0x85, 0x45, 0xf9, 0x02, 0x7f, 0x50, 0x3c, 0x9f, 0xa8],
   [0x51, 0xa3, 0x40, 0x8f, 0x92, 0x9d, 0x38, 0xf5, 0xbc, 0xb6, 0xda, 0x21, 0x10, 0xff, 0xf3, 0xd2],
   [0xcd, 0x0c, 0x13, 0xec, 0x5f, 0x97, 0x44, 0x17, 0xc4, 0xa7, 0x7e, 0x3d, 0x64, 0x5d, 0x19, 0x73],
   [0x60, 0x81, 0x4f, 0xdc, 0x22, 0x2a, 0x90, 0x88, 0x46, 0xee, 0xb8, 0x14, 0xde, 0x5e, 0x0b, 0xdb],
   [0xe0, 0x32, 0x3a, 0x0a, 0x49, 0x06, 0x24, 0x5c, 0xc2, 0xd3, 0xac, 0x62, 0x91, 0x95, 0xe4, 0x79],
   [0xe7, 0xc8, 0x37, 0x6d, 0x8d, 0xd5, 0x4e, 0xa9, 0x6c, 0x56, 0xf4, 0xea, 0x65, 0x7a, 0xae, 0x08],
   [0xba, 0x78, 0x25, 0x2e, 0x1c, 0xa6, 0xb4, 0xc6, 0xe8, 0xdd, 0x74, 0x1f, 0x4b, 0xbd, 0x8b, 0x8a],
   [0x70, 0x3e, 0xb5, 0x66, 0x48, 0x03, 0xf6, 0x0e, 0x61, 0x35, 0x57, 0xb9, 0x86, 0xc1, 0x1d, 0x9e],
   [0xe1, 0xf8, 0x98, 0x11, 0x69, 0xd9, 0x8e, 0x94, 0x9b, 0x1e, 0x87, 0xe9, 0xce, 0x55, 0x28, 0xdf],
   [0x8c, 0xa1, 0x89, 0x0d, 0xbf, 0xe6, 0x42, 0x68, 0x41, 0x99, 0x2d, 0x0f, 0xb0, 0x54, 0xbb, 0x16]]

/-- The inverse AES S-box (FIPS 197, figure 14), laid out like `sboxTable`. -/
def invSboxTable : List (List Nat) :=
  [[0x52, 0x09, 0x6a, 0xd5, 0x30, 0x36, 0xa5, 0x38, 0xbf, 0x40, 0xa3, 0x9e, 0x81, 0xf3, 0xd7, 0xfb],
   [0x7c, 0xe3, 0x39, 0x82, 0x9b, 0x2f, 0xff, 0x87, 0x34, 0x8e, 0x43, 0x44, 0xc4, 0xde, 0xe9, 0xcb],
   [0x54, 0x7b, 0x94, 0x32, 0xa6, 0xc2, 0x23, 0x3d, 0xee, 0x4c, 0x95, 0x0b, 0x42, 0xfa, 0xc3, 0x4e],
   [0x08, 0x2e, 0xa1, 0x66, 0x28, 0xd9, 0x24, 0xb2, 0x76, 0x5b, 0xa2, 0x49, 0x6d, 0x8b, 0xd1, 0x25],
   [0x72, 0xf8, 0xf6, 0x64, 0x86, 0x68, 0x98, 0x16, 0xd4, 0xa4, 0x5c, 0xcc, 0x5d, 0x65, 0xb6, 0x92],
   [0x6c, 0x70, 0x48, 0x50, 0xfd, 0xed, 0xb9, 0xda, 0x5e, 0x15, 0x46, 0x57, 0xa7, 0x8d, 0x9d, 0x84],
   [0x90, 0xd8, 0xab, 0x00, 0x8c, 0xbc, 0xd3, 0x0a, 0xf7, 0xe4, 0x58, 0x05, 0xb8, 0xb3, 0x45, 0x06],
   [0xd0, 0x2c, 0x1e, 0x8f, 0xca, 0x3f, 0x0f, 0x02, 0xc1, 0xaf, 0xbd, 0x03, 0x01, 0x13, 0x8a, 0x6b],
   [0x3a, 0x91, 0x11, 0x41, 0x4f, 0x67, 0xdc, 0xea, 0x97, 0xf2, 0xcf, 0xce, 0xf0, 0xb4, 0xe6, 0x73],
   [0x96, 0xac, 0x74, 0x22, 0xe7, 0xad, 0x35, 0x85, 0xe2, 0xf9, 0x37, 0xe8, 0x1c, 0x75, 0xdf, 0x6e],
   [0x47, 0xf1, 0x1a, 0x71, 0x1d, 0x29, 0xc5, 0x89, 0x6f, 0xb7, 0x62, 0x0e, 0xaa, 0x18, 0xbe, 0x1b],
   [0xfc, 0x56, 0x3e, 0x4b, 0xc6, 0xd2, 0x79, 0x20, 0x9a, 0xdb, 0xc0, 0xfe, 0x78, 0xcd, 0x5a, 0xf4],
   [0x1f, 0xdd, 0xa8, 0x33, 0x88, 0x07, 0xc7, 0x31, 0xb1, 0x12, 0x10, 0x59, 0x27, 0x80, 0xec, 0x5f],
   [0x60, 0x51, 0x7f, 0xa9, 0x19, 0xb5, 0x4a, 0x0d, 0x2d, 0xe5, 0x7a, 0x9f, 0x93, 0xc9, 0x9c, 0xef],
   [0xa0, 0xe0, 0x3b, 0x4d, 0xae, 0x2a, 0xf5, 0xb0, 0xc8, 0xeb, 0xbb, 0x3c, 0x83, 0x53, 0x99, 0x61],
   [0x17, 0x2b, 0x04, 0x7e, 0xba, 0x77, 0xd6, 0x26, 0xe1, 0x69, 0x14, 0x63, 0x55, 0x21, 0x0c, 0x7d]]

/-- Table lookup `SubBytes` on one byte. -/
def subByte (b : Byte) : Byte :=
  Fin.ofNat ((sboxTable.getD (b.val / 16) []).getD (b.val % 16) 0)

/-- Table lookup `InvSubBytes` on one byte. -/
def invSubByte (b : Byte) : Byte :=
  Fin.ofNat ((invSboxTable.getD (b.val / 16) []).getD (b.val % 16) 0)

/-- Multiplication by `x` in GF(2^8) modulo `x^8 + x^4 + x^3 + x + 1`. -/
def xtime (b : Byte) : Byte :=
  Fin.ofNat ((2 * b.val) ^^^ (if 128 ≤ b.val then 0x11b else 0))

def mul2 (b : Byte) : Byte := xtime b
def mul3 (b : Byte) : Byte := xorByte (xtime b) b
def mul9 (b : Byte) : Byte := xorByte (xtime (xtime (xtime b))) b
def mul11 (b : Byte) : Byte := xorByte (xorByte (xtime (xtime (xtime b))) (xtime b)) b
def mul13 (b : Byte) : Byte := xorByte (xorByte (xtime (xtime (xtime b))) (xtime (xtime b))) b
def mul14 (b : Byte) : Byte :=
  xorByte (xorByte (xtime (xtime (xtime b))) (xtime (xtime b))) (xtime b)

/-- One column of `MixColumns`: multiplication by the matrix `02 03 01 01 / ...`. -/
def mixColumn (a b c d : Byte) : Bytes :=
  [xorByte (xorByte (xorByte (mul2 a) (mul3 b)) c) d,
   xorByte (xorByte (xorByte a (mul2 b)) (mul3 c)) d,
   xorByte (xorByte (xorByte a b) (mul2 c)) (mul3 d),
   xorByte (xorByte (xorByte (mul3 a) b) c) (mul2 d)]

/-- One column of `InvMixColumns`: multiplication by the matrix `0e 0b 0d 09 / ...`. -/
def invMixColumn (a b c d : Byte) : Bytes :=
  [xorByte (xorByte (xorByte (mul14 a) (mul11 b)) (mul13 c)) (mul9 d),
   xorByte (xorByte (xorByte (mul9 a) (mul14 b)) (mul11 c)) (mul13 d),
   xorByte (xorByte (xorByte (mul13 a) (mul9 b)) (mul14 c)) (mul11 d),
   xorByte (xorByte (xorByte (mul11 a) (mul13 b)) (mul9 c)) (mul14 d)]

/-- The state is 16 bytes, column after column (byte `r + 4c` is row `r`, column `c`). -/
def subBytes (s : Bytes) : Bytes := s.map subByte

def invSubBytes (s : Bytes) : Bytes := s.map invSubByte

/-- The cyclic row shifts of `ShiftRows`: row `r` moves left by `r` columns. -/
def shiftRows : Bytes → Bytes
  | [s0, s1, s2, s3, s4, s5, s6, s7, s8, s9, s10, s11, s12, s13, s14, s15] =>
    [s0, s5, s10, s15, s4, s9, s14, s3, s8, s13, s2, s7, s12, s1, s6, s11]
  | s => s

/-- The row shifts of `InvShiftRows`: row `r` moves right by `r` columns. -/
def invShiftRows : Bytes → Bytes
  | [s0, s1, s2, s3, s4, s5, s6, s7, s8, s9, s10, s11, s12, s13, s14, s15] =>
    [s0, s13, s10, s7, s4, s1, s14, s11, s8, s5, s2, s15, s12, s9, s6, s3]
  | s => s

def mixColumns : Bytes → Bytes
  | a :: b :: c :: d :: rest => mixColumn a b c d ++ mixColumns rest
  | s => s

def invMixColumns : Bytes → Bytes
  | a :: b :: c :: d :: rest => invMixColumn a b c d ++ invMixColumns rest
  | s => s

def addRoundKey (s k : Bytes) : Bytes := xorBytes s k

/-- Go `InvMixColumns` after `MixColumns` on one column. -/
def mixThenInv (a b c d : Byte) : Bytes :=
  match mixColumn a b c d with
  | [m0, m1, m2, m3] => invMixColumn m0 m1 m2 m3
  | s => s

/-- The next round key from the previous one (`KeyExpansion` for `Nk = 4`), with `rc` the
first byte of the round constant. -/
def nextRoundKey (rc : Byte) : Bytes → Bytes
  | [k0, k1, k2, k3, k4, k5, k6, k7, k8, k9, k10, k11, k12, k13, k14, k15] =>
    let w0 := [xorByte k0 (xorByte (subByte k13) rc), xorByte k1 (subByte k14),
               xorByte k2 (subByte k15), xorByte k3 (subByte k12)]
    let w1 := xorBytes [k4, k5, k6, k7] w0
    let w2 := xorBytes [k8, k9, k10, k11] w1
    let w3 := xorBytes [k12, k13, k14, k15] w2
    w0 ++ w1 ++ w2 ++ w3
  | k => k

/-- The first bytes of the round constants `Rcon[1..10]`. -/
def rcon : List Byte := [0x01, 0x02, 0x04, 0x08, 0x10, 0x20, 0x40, 0x80, 0x1b, 0x36]

/-- The round keys following `k`, one per round constant. -/
def expandFrom (k : Bytes) : List Byte → List Bytes
  | [] => []
  | rc :: rcs => nextRoundKey rc k :: expandFrom (nextRoundKey rc k) rcs

/-- The eleven round keys of AES-128 (`aes.NewCipher`). -/
def keyExpansion (key : Bytes) : List Bytes := key :: expandFrom key rcon

/-- Rounds 1 to 10 of the cipher: the last round key closes with a round without
`MixColumns`. -/
def rounds (s : Bytes) : List Bytes → Bytes
  | [] => s
  | [k] => addRoundKey (shiftRows (subBytes s)) k
  | k :: ks => rounds (addRoundKey (mixColumns (shiftRows (subBytes s))) k) ks

/-- The inverse of `rounds`, undoing the last round first. -/
def invRounds (s : Bytes) : List Bytes → Bytes
  | [] => s
  | [k] => invSubBytes (invShiftRows (addRoundKey s k))
  | k :: ks => invSubBytes (invShiftRows (invMixColumns (addRoundKey (invRounds s ks) k)))

/-- Go `Cipher` of FIPS 197 on one 16-byte block (`Block.Encrypt`). -/
def encryptBlock (roundKeys : List Bytes) (block : Bytes) : Bytes :=
  match roundKeys with
  | [] => block
  | k0 :: ks => rounds (addRoundKey block k0) ks

/-- Go `InvCipher` of FIPS 197 on one 16-byte block (`Block.Decrypt`). -/
def decryptBlock (roundKeys : List Bytes) (block : Bytes) : Bytes :=
  match roundKeys with
  | [] => block
  | k0 :: ks => addRoundKey (invRounds block ks) k0

end AES

/-! ## `internal/crypto/aes.go` -/

/-- A Go `error`: a `*TapoError`, a message made by `errors.New` or by the standard library,
or another error wrapped by `fmt.Errorf("<context>: %w", cause)`. -/
inductive Error where
  | new (message : String)
  | wrap (context : String) (cause : Error)
  | tapo (code : Int) (message : String)
  deriving DecidableEq

deriving instance DecidableEq for Except

namespace Crypto

/-- The constant `aes.BlockSize`. -/
def blockSize : Nat := 16

/-- Go `aes.NewCipher(key)`: the expanded key of AES-128. Go also accepts 24 and 32 byte keys;
both callers have returned before the call unless the key has 16 bytes. -/
def newCipher (key : Bytes) : Except Error (List Bytes) :=
  if key.length = 16 then .ok (AES.keyExpansion key)
  else .error (.new "crypto/aes: invalid key size")

/-- Go `cipher.NewCBCEncrypter(block, iv).CryptBlocks(dst, src)` on `n` full blocks: each
plaintext block is xored with the previous ciphertext block (first the iv) and encrypted. -/
def cbcEncrypt (block : List Bytes) : Nat → Bytes → Bytes → Bytes
  | 0, _, _ => []
  | n + 1, iv, src =>
    let c := AES.encryptBlock block (xorBytes (src.take blockSize) iv)
    c ++ cbcEncrypt block n c (src.drop blockSize)

/-- Go `cipher.NewCBCDecrypter(block, iv).CryptBlocks(dst, src)` on `n` full blocks: each
ciphertext block is decrypted and xored with the previous ciphertext block (first the iv). -/
def cbcDecrypt (block : List Bytes) : Nat → Bytes → Bytes → Bytes
  | 0, _, _ => []
  | n + 1, iv, src =>
    let c := src.take blockSize
    xorBytes (AES.decryptBlock block c) iv ++ cbcDecrypt block n c (src.drop blockSize)

/-- Go `pkcs7Pad`: `padding` bytes of value `byte(padding)` are appended. -/
def pkcs7Pad (data : Bytes) (blockSize : Nat) : Bytes :=
  let padding := blockSize - data.length % blockSize
  let padText := List.replicate padding (Fin.ofNat padding : Byte)
  data ++ padText

/-- Go `pkcs7Unpad`: the last byte gives the padding length; the loop over the indices
`len(data)-padding .. len(data)-1` checks every padding byte. -/
def pkcs7Unpad (data : Bytes) : Except Error Bytes :=
  if data.length = 0 then .error (.new "data is empty")
  else
    let padding := (data.getD (data.length - 1) 0).val
    if padding > data.length ∨ padding = 0 then .error (.new "invalid padding")
    else if (List.range' (data.length - padding) padding).all
        (fun i => data.getD i 0 == (Fin.ofNat padding : Byte)) then
      .ok (data.take (data.length - padding))
    else .error (.new "invalid padding bytes")

/-- Go `AESEncrypt`: AES-128-CBC with PKCS7 padding. -/
def AESEncrypt (plaintext key iv : Bytes) : Except Error Bytes :=
  if key.length ≠ 16 then .error (.new "key must be 16 bytes for AES-128")
  else if iv.length ≠ 16 then .error (.new "iv must be 16 bytes")
  else
    match newCipher key with
    | .error err => .error err
    | .ok block =>
      let padded := pkcs7Pad plaintext blockSize
      .ok (cbcEncrypt block (padded.length / blockSize) iv padded)

/-- Go `AESDecrypt`: AES-128-CBC, then the PKCS7 padding is removed. -/
def AESDecrypt (ciphertext key iv : Bytes) : Except Error Bytes :=
  if key.length ≠ 16 then .error (.new "key must be 16 bytes for AES-128")
  else if iv.length ≠ 16 then .error (.new "iv must be 16 bytes")
  else if ciphertext.length % blockSize ≠ 0 then
    .error (.new "ciphertext is not a multiple of the block size")
  else
    match newCipher key with
    | .error err => .error err
    | .ok block =>
      let plaintext := cbcDecrypt block (ciphertext.length / blockSize) iv ciphertext
      match pkcs7Unpad plaintext with
      | .error err => .error err
      | .ok unpadded => .ok unpadded

end Crypto

/-! ## Hash functions of Go's standard library, and `internal/crypto/hash.go` -/

/-- A string literal of the source as a Go string (all literals of the source are ASCII). -/
def str (s : String) : Str := s.toList.map (fun c => Fin.ofNat c.toNat)

/-- A 32-bit word as four bytes, most significant first. -/
def bigEndian32 (w : Nat) : Bytes :=
  [Fin.ofNat (w / 16777216), Fin.ofNat (w / 65536), Fin.ofNat (w / 256), Fin.ofNat w]

/-- A 32-bit word as four bytes, least significant first. -/
def littleEndian32 (w : Nat) : Bytes :=
  [Fin.ofNat w, Fin.ofNat (w / 256), Fin.ofNat (w / 65536), Fin.ofNat (w / 16777216)]

/-- A 64-bit count as eight bytes, most significant first. -/
def bigEndian64 (n : Nat) : Bytes := bigEndian32 (n / 4294967296) ++ bigEndian32 n

/-- A 64-bit count as eight bytes, least significant first. -/
def littleEndian64 (n : Nat) : Bytes := littleEndian32 n ++ littleEndian32 (n / 4294967296)

/-- The words of a byte sequence, four bytes each, most significant byte first. -/
def wordsBE : Bytes → List Nat
  | a :: b :: c :: d :: rest =>
    (a.val * 16777216 + b.val * 65536 + c.val * 256 + d.val) :: wordsBE rest
  | _ => []

/-- The words of a byte sequence, four bytes each, least significant byte first. -/
def wordsLE : Bytes → List Nat
  | a :: b :: c :: d :: rest =>
    (a.val + b.val * 256 + c.val * 65536 + d.val * 16777216) :: wordsLE rest
  | _ => []

/-- Rotation of a 32-bit word to the left (`bits.RotateLeft32`). -/
def rotl32 (x n : Nat) : Nat := ((x <<< n) ||| (x >>> (32 - n))) % 4294967296

/-- Rotation of a 32-bit word to the right. -/
def rotr32 (x n : Nat) : Nat := ((x >>> n) ||| (x <<< (32 - n))) % 4294967296

/-- Bitwise complement of a 32-bit word. -/
def not32 (x : Nat) : Nat := 4294967295 ^^^ x

/-- The padding of MD5 and SHA-256: a byte `0x80`, zero bytes up to 56 modulo 64, and then
the length field `len` of eight bytes. -/
def mdPad (msg : Bytes) (len : Bytes) : Bytes :=
  msg ++ [(0x80 : Byte)] ++ List.replicate ((119 - msg.length % 64) % 64) (0 : Byte) ++ len

namespace SHA256

/-- The round constants `K` of SHA-256 (FIPS 180-4, section 4.2.2). -/
def K : List Nat :=
  [0x428a2f98, 0x71374491, 0xb5c0fbcf, 0xe9b5dba5, 0x3956c25b, 0x59f111f1, 0x923f82a4, 0xab1c5ed5,
   0xd807aa98, 0x12835b01, 0x243185be, 0x550c7dc3, 0x72be5d74, 0x80deb1fe, 0x9bdc06a7, 0xc19bf174,
   0xe49b69c1, 0xefbe4786, 0x0fc19dc6, 0x240ca1cc, 0x2de92c6f, 0x4a7484aa, 0x5cb0a9dc, 0x76f988da,
   0x983e5152, 0xa831c66d, 0xb00327c8, 0xbf597fc7, 0xc6e00bf3, 0xd5a79147, 0x06ca6351, 0x14292967,
   0x27b70a85, 0x2e1b2138, 0x4d2c6dfc, 0x53380d13, 0x650a7354, 0x766a0abb, 0x81c2c92e, 0x92722c85,
   0xa2bfe8a1, 0xa81a664b, 0xc24b8b70, 0xc76c51a3, 0xd192e819, 0xd6990624, 0xf40e3585, 0x106aa070,
   0x19a4c116, 0x1e376c08, 0x2748774c, 0x34b0bcb5, 0x391c0cb3, 0x4ed8aa4a, 0x5b9cca4f, 0x682e6ff3,
   0x748f82ee, 0x78a5636f, 0x84c87814, 0x8cc70208, 0x90befffa, 0xa4506ceb, 0xbef9a3f7, 0xc67178f2]

/-- The hash value: eight 32-bit words. -/
structure State where
  a : Nat
  b : Nat
  c : Nat
  d : Nat
  e : Nat
  f : Nat
  g : Nat
  h : Nat
  deriving DecidableEq

/-- The initial hash value (FIPS 180-4, section 5.3.3). -/
def init : State :=
  ⟨0x6a09e667, 0xbb67ae85, 0x3c6ef372, 0xa54ff53a, 0x510e527f, 0x9b05688c, 0x1f83d9ab,
    0x5be0cd19⟩

def bigSigma0 (x : Nat) : Nat := rotr32 x 2 ^^^ rotr32 x 13 ^^^ rotr32 x 22
def bigSigma1 (x : Nat) : Nat := rotr32 x 6 ^^^ rotr32 x 11 ^^^ rotr32 x 25
def smallSigma0 (x : Nat) : Nat := rotr32 x 7 ^^^ rotr32 x 18 ^^^ (x >>> 3)
def smallSigma1 (x : Nat) : Nat := rotr32 x 17 ^^^ rotr32 x 19 ^^^ (x >>> 10)
def ch (x y z : Nat) : Nat := (x &&& y) ^^^ (not32 x &&& z)
def maj (x y z : Nat) : Nat := (x &&& y) ^^^ (x &&& z) ^^^ (y &&& z)

/-- One round with round constant `k` and schedule word `w`. -/
def round (s : State) (k w : Nat) : State :=
  let t1 := (s.h + bigSigma1 s.e + ch s.e s.f s.g + k + w) % 4294967296
  let t2 := (bigSigma0 s.a + maj s.a s.b s.c) % 4294967296
  ⟨(t1 + t2) % 4294967296, s.a, s.b, s.c, (s.d + t1) % 4294967296, s.e, s.f, s.g⟩

/-- The rounds for the remaining constants `ks`; `w` holds the next sixteen words of the
message schedule, which is extended by one word per round. -/
def rounds (s : State) : List Nat → List Nat → State
  | k :: ks, [w0, w1, w2, w3, w4, w5, w6, w7, w8, w9, w10, w11, w12, w13, w14, w15] =>
    let w16 := (smallSigma1 w14 + w9 + smallSigma0 w1 + w0) % 4294967296
    rounds (round s k w0) ks [w1, w2, w3, w4, w5, w6, w7, w8, w9, w10, w11, w12, w13, w14, w15, w16]
  | _, _ => s

/-- The compression function on one 64-byte block. -/
def compress (s : State) (block : Bytes) : State :=
  let t := rounds s K (wordsBE block)
  ⟨(s.a + t.a) % 4294967296, (s.b + t.b) % 4294967296, (s.c + t.c) % 4294967296,
    (s.d + t.d) % 4294967296, (s.e + t.e) % 4294967296, (s.f + t.f) % 4294967296,
    (s.g + t.g) % 4294967296, (s.h + t.h) % 4294967296⟩

/-- The compression function over `n` consecutive 64-byte blocks. -/
def blocks (s : State) : Nat → Bytes → State
  | 0, _ => s
  | n + 1, data => blocks (compress s (data.take 64)) n (data.drop 64)

/-- Go `sha256.Sum256`: the 32-byte SHA-256 digest (FIPS 180-4). -/
def sum256 (data : Bytes) : Bytes :=
  let padded := mdPad data (bigEndian64 (8 * data.length))
  let s := blocks init (padded.length / 64) padded
  bigEndian32 s.a ++ bigEndian32 s.b ++ bigEndian32 s.c ++ bigEndian32 s.d ++
    bigEndian32 s.e ++ bigEndian32 s.f ++ bigEndian32 s.g ++ bigEndian32 s.h

end SHA256

namespace MD5

/-- The sine-derived constants of MD5 (RFC 1321, section 3.4). -/
def T : List Nat :=
  [0xd76aa478, 0xe8c7b756, 0x242070db, 0xc1bdceee, 0xf57c0faf, 0x4787c62a, 0xa8304613, 0xfd469501,
   0x698098d8, 0x8b44f7af, 0xffff5bb1, 0x895cd7be, 0x6b901122, 0xfd987193, 0xa679438e, 0x49b40821,
   0xf61e2562, 0xc040b340, 0x265e5a51, 0xe9b6c7aa, 0xd62f105d, 0x02441453, 0xd8a1e681, 0xe7d3fbc8,
   0x21e1cde6, 0xc33707d6, 0xf4d50d87, 0x455a14ed, 0xa9e3e905, 0xfcefa3f8, 0x676f02d9, 0x8d2a4c8a,
   0xfffa3942, 0x8771f681, 0x6d9d6122, 0xfde5380c, 0xa4beea44, 0x4bdecfa9, 0xf6bb4b60, 0xbebfbc70,
   0x289b7ec6, 0xeaa127fa, 0xd4ef3085, 0x04881d05, 0xd9d4d039, 0xe6db99e5, 0x1fa27cf8, 0xc4ac5665,
   0xf4292244, 0x432aff97, 0xab9423a7, 0xfc93a039, 0x655b59c3, 0x8f0ccc92, 0xffeff47d, 0x85845dd1,
   0x6fa87e4f, 0xfe2ce6e0, 0xa3014314, 0x4e0811a1, 0xf7537e82, 0xbd3af235, 0x2ad7d2bb, 0xeb86d391]

/-- The per-round shift amounts. -/
def shifts : List Nat :=
  [7, 12, 17, 22, 7, 12, 17, 22, 7, 12, 17, 22, 7, 12, 17, 22,
   5, 9, 14, 20, 5, 9, 14, 20, 5, 9, 14, 20, 5, 9, 14, 20,
   4, 11, 16, 23, 4, 11, 16, 23, 4, 11, 16, 23, 4, 11, 16, 23,
   6, 10, 15, 21, 6, 10, 15, 21, 6, 10, 15, 21, 6, 10, 15, 21]

/-- The chaining value: four 32-bit words. -/
structure State where
  a : Nat
  b : Nat
  c : Nat
  d : Nat
  deriving DecidableEq

def init : State := ⟨0x67452301, 0xefcdab89, 0x98badcfe, 0x10325476⟩

/-- The auxiliary function of step `i`. -/
def aux (i b c d : Nat) : Nat :=
  if i < 16 then (b &&& c) ||| (not32 b &&& d)
  else if i < 32 then (d &&& b) ||| (not32 d &&& c)
  else if i < 48 then b ^^^ c ^^^ d
  else c ^^^ (b ||| not32 d)

/-- The index of the message word used in step `i`. -/
def wordIndex (i : Nat) : Nat :=
  if i < 16 then i
  else if i < 32 then (5 * i + 1) % 16
  else if i < 48 then (3 * i + 5) % 16
  else (7 * i) % 16

/-- Step `i` on the chaining value, for the message words `m`. -/
def step (m : List Nat) (s : State) (i : Nat) : State :=
  let f := (aux i s.b s.c s.d + s.a + T.getD i 0 + m.getD (wordIndex i) 0) % 4294967296
  ⟨s.d, (s.b + rotl32 f (shifts.getD i 0)) % 4294967296, s.b, s.c⟩

/-- The compression function on one 64-byte block. -/
def compress (s : State) (block : Bytes) : State :=
  let t := (List.range 64).foldl (step (wordsLE block)) s
  ⟨(s.a + t.a) % 4294967296, (s.b + t.b) % 4294967296, (s.c + t.c) % 4294967296,
    (s.d + t.d) % 4294967296⟩

/-- The compression function over `n` consecutive 64-byte blocks. -/
def blocks (s : State) : Nat → Bytes → State
  | 0, _ => s
  | n + 1, data => blocks (compress s (data.take 64)) n (data.drop 64)

/-- Go `md5.Sum`: the 16-byte MD5 digest (RFC 1321). -/
def sum (data : Bytes) : Bytes :=
  let padded := mdPad data (littleEndian64 (8 * data.length))
  let s := blocks init (padded.length / 64) padded
  littleEndian32 s.a ++ littleEndian32 s.b ++ littleEndian32 s.c ++ littleEndian32 s.d

end MD5

namespace Crypto

/-- One hexadecimal digit in lower case. -/
def hexDigit (n : Nat) : Byte := if n < 10 then Fin.ofNat (48 + n) else Fin.ofNat (87 + n)

/-- Go `hex.EncodeToString`: two lower-case hexadecimal digits per byte. -/
def hexEncodeToString : Bytes → Str
  | [] => []
  | b :: rest => hexDigit (b.val / 16) :: hexDigit (b.val % 16) :: hexEncodeToString rest

/-- Go `strings.ToUpper` on ASCII text (it is only applied to hexadecimal digits). -/
def toUpper (s : Str) : Str :=
  s.map (fun c => if 97 ≤ c.val ∧ c.val ≤ 122 then Fin.ofNat (c.val - 32) else c)

/-- Go `MD5Hash`: the upper-case hexadecimal MD5 digest of a string. -/
def MD5Hash (data : Str) : Str :=
  let hash := MD5.sum data
  toUpper (hexEncodeToString hash)

/-- Go `SHA256Hash`: the upper-case hexadecimal SHA-256 digest of a string. -/
def SHA256Hash (data : Str) : Str :=
  let hash := SHA256.sum256 data
  toUpper (hexEncodeToString hash)

/-- Go `SHA256HashBytes`: the raw SHA-256 digest of a string. -/
def SHA256HashBytes (data : Str) : Bytes :=
  let hash := SHA256.sum256 data
  hash

end Crypto

/-! ## `internal/tapo/models.go` -/

/-- Go's `int` (64 bits): the representative of an integer in `[-2^63, 2^63)`. -/
def wrapInt (x : Int) : Int :=
  (x + 9223372036854775808) % 18446744073709551616 - 9223372036854775808

/-- Go's `+` on `int`. -/
def intAdd (a b : Int) : Int := wrapInt (a + b)

/-- Client represents a Tapo camera client. `Timeout` is a `time.Duration` in nanoseconds;
a nil slice is the empty list. -/
structure Client where
  Host : Str
  Username : Str
  Password : Str
  stok : Str
  seq : Int
  lsk : Bytes
  ivb : Bytes
  cnonce : Str
  nonce : Str
  hashedPass : Str
  isSecure : Bool
  Timeout : Int
  deriving DecidableEq

structure LoginParams where
  Cnonce : Str := []
  EncryptType : Str := []
  Username : Str := []
  DigestPasswd : Str := []
  Hashed : Bool := false
  Password : Str := []
  deriving DecidableEq

structure LoginRequest where
  Method : Str
  Params : LoginParams
  deriving DecidableEq

structure LoginData where
  EncryptType : List Str := []
  Nonce : Str := []
  DeviceConfirm : Str := []
  deriving DecidableEq

structure LoginResult where
  Data : Option LoginData := none
  Stok : Str := []
  StartSeq : Int := 0
  UserGroup : Str := []
  deriving DecidableEq

structure LoginResponse where
  ErrorCode : Int := 0
  Result : LoginResult := {}
  deriving DecidableEq

/-- A value of static type `interface{}` supplied by a caller (`params`, `payload`). The
client never inspects it, it only serialises it: the value is either the nil interface or is
represented by what `json.Marshal` returns for it. -/
inductive Value where
  | nil
  | json (marshalled : Except Error Bytes)

structure SingleRequest where
  Method : Str
  Params : Value

structure MultipleReqParams where
  Requests : List SingleRequest

structure MultipleRequest where
  Method : Str
  Params : MultipleReqParams

structure SecureParams where
  Request : Str
  deriving DecidableEq

structure SecureRequest where
  Method : Str
  Params : SecureParams
  deriving DecidableEq

/-- A decoded `map[string]interface{}`: the members with their JSON text, `none` for the
nil map. -/
abbrev ResultMap := Option (List (Str × Bytes))

structure APIResponse where
  ErrorCode : Int := 0
  Result : ResultMap := none
  deriving DecidableEq

structure SecureResult where
  Response : Str := []
  deriving DecidableEq

structure SecureResponse where
  ErrorCode : Int := 0
  Result : SecureResult := {}
  deriving DecidableEq

def ErrorCodeSuccess : Int := 0
def ErrorCodeInvalidToken : Int := -40401
def ErrorCodeRateLimited : Int := -40404
def ErrorCodeInvalidAuth : Int := -40411
def ErrorCodeLoginRequired : Int := -40413
def ErrorCodeCruiseInProgress : Int := -64303
def ErrorCodeGeneral : Int := -1

/-- Go `NewTapoError`. -/
def NewTapoError (code : Int) (message : String) : Error := .tapo code message

/-- The method `Error()` of a Go `error`: the message of a `TapoError` or of a plain error,
and `"<context>: <cause>"` for an error wrapped by `fmt.Errorf("<context>: %w", cause)`. -/
def Error.Error : Error → String
  | .new message => message
  | .wrap context cause => context ++ ": " ++ cause.Error
  | .tapo _ message => message

/-- Go `ErrorMessage`: the `switch` over the known codes. -/
def ErrorMessage (code : Int) : String :=
  if code = ErrorCodeSuccess then "Success"
  else if code = ErrorCodeInvalidToken then "Invalid or expired token"
  else if code = ErrorCodeRateLimited then "Rate limited - temporary suspension"
  else if code = ErrorCodeInvalidAuth then "Invalid authentication data"
  else if code = ErrorCodeLoginRequired then "Login required"
  else if code = ErrorCodeCruiseInProgress then "Cruise in progress - stop cruise first"
  else if code = ErrorCodeGeneral then "General error"
  else "Unknown error"

/-! ## The standard library and the device, as seen by the client -/

/-- The calls into `encoding/json` and `net/http` whose results the client only passes on.
`unmarshalLogin body v` is `json.Unmarshal(body, &v)` for a `LoginResponse` variable holding
`v`: members absent from the body keep the value they have in `v`. The other two decoders
always fill a fresh variable. `newRequest url` is `http.NewRequest("POST", url, body)`. -/
structure GoLib where
  marshalLogin : LoginRequest → Except Error Bytes
  marshalMultiple : MultipleRequest → Except Error Bytes
  marshalSecure : SecureRequest → Except Error Bytes
  unmarshalLogin : Bytes → LoginResponse → Except Error LoginResponse
  unmarshalAPI : Bytes → Except Error APIResponse
  unmarshalSecure : Bytes → Except Error SecureResponse
  newRequest : Str → Except Error Unit

/-- A request handed to `http.Client.Do`: always a POST. Header names are kept as written
in the source (their canonical forms are pairwise distinct as well). -/
structure Request where
  url : Str
  headers : List (String × Str)
  body : Bytes
  deriving DecidableEq

/-- What comes back for one request: `client.Do` fails, reading the body fails, or the body
is read. The status line is never looked at. -/
inductive Reply where
  | doError (err : Error)
  | readError (err : Error)
  | body (data : Bytes)
  deriving DecidableEq

/-- The world outside the client: what the entropy source delivers to the coming `rand.Read`
calls on a 4-byte buffer (`none`: the source fails), the device's coming replies, and the
requests sent so far, oldest first. A source that has run dry fails. -/
structure World where
  entropy : List (Option (Byte × Byte × Byte × Byte))
  replies : List Reply
  sent : List Request
  deriving DecidableEq

/-- Go `rand.Read` on a 4-byte buffer where it reports a failure of the entropy source by
returning an error (`none`), as it does up to Go 1.23. From Go 1.24 on the failure aborts the
program instead: `World.randReadRun`. -/
def World.randRead (w : World) : Option (Byte × Byte × Byte × Byte) × World :=
  match w.entropy with
  | [] => (none, w)
  | r :: rest => (r, { w with entropy := rest })

/-- Go `client.Do(req)` followed by `io.ReadAll(resp.Body)`: the request is recorded and the
next reply consumed. -/
def World.send (w : World) (req : Request) : Reply × World :=
  match w.replies with
  | [] => (.doError (.new "connection refused"), { w with sent := w.sent ++ [req] })
  | r :: rest => (r, { w with replies := rest, sent := w.sent ++ [req] })

/-- Go `http.Header.Set`. -/
def setHeader (headers : List (String × Str)) (key : String) (value : Str) :
    List (String × Str) :=
  headers.filter (fun kv => kv.1 ≠ key) ++ [(key, value)]

/-- Go `http.Header.Get`. -/
def getHeader (headers : List (String × Str)) (key : String) : Option Str :=
  headers.lookup key

/-- The decimal digits of a natural number, most significant first. -/
def decimalDigits : Nat → Nat → Str → Str
  | 0, _, acc => acc
  | fuel + 1, n, acc =>
    if n < 10 then (Fin.ofNat (48 + n) : Byte) :: acc
    else decimalDigits fuel (n / 10) ((Fin.ofNat (48 + n % 10) : Byte) :: acc)

/-- Go `strconv.Itoa`. -/
def Itoa (i : Int) : Str :=
  if i < 0 then (45 : Byte) :: decimalDigits (i.natAbs + 1) i.natAbs []
  else decimalDigits (i.natAbs + 1) i.natAbs []

/-- The alphabet of `base64.StdEncoding`. -/
def base64Alphabet : Str :=
  str "ABCDEFGHIJKLMNOPQRSTUVWXYZabcdefghijklmnopqrstuvwxyz0123456789+/"

/-- The character of a 6-bit value. -/
def base64Char (n : Nat) : Byte := base64Alphabet.getD n 0

/-- Go `base64.StdEncoding.EncodeToString` (RFC 4648, with `=` padding). -/
def base64Encode : Bytes → Str
  | a :: b :: c :: rest =>
    base64Char (a.val / 4) :: base64Char (a.val % 4 * 16 + b.val / 16) ::
      base64Char (b.val % 16 * 4 + c.val / 64) :: base64Char (c.val % 64) :: base64Encode rest
  | [a, b] =>
    [base64Char (a.val / 4), base64Char (a.val % 4 * 16 + b.val / 16),
      base64Char (b.val % 16 * 4), 61]
  | [a] => [base64Char (a.val / 4), base64Char (a.val % 4 * 16), 61, 61]
  | [] => []

/-- The 6-bit value of a character of the alphabet (the decode map of `StdEncoding`). -/
def base64Value (c : Byte) : Option Nat :=
  if 65 ≤ c.val ∧ c.val ≤ 90 then some (c.val - 65)
  else if 97 ≤ c.val ∧ c.val ≤ 122 then some (c.val - 71)
  else if 48 ≤ c.val ∧ c.val ≤ 57 then some (c.val + 4)
  else if c.val = 43 then some 62
  else if c.val = 47 then some 63
  else none

/-- Decoding of the quanta of four characters; `=` may only close the last quantum. -/
def base64DecodeQuanta : Str → Option Bytes
  | [] => some []
  | c0 :: c1 :: c2 :: c3 :: rest =>
    match base64Value c0, base64Value c1 with
    | some v0, some v1 =>
      if c2 = 61 ∧ c3 = 61 ∧ rest = [] then some [Fin.ofNat (v0 * 4 + v1 / 16)]
      else
        match base64Value c2 with
        | some v2 =>
          if c3 = 61 ∧ rest = [] then
            some [Fin.ofNat (v0 * 4 + v1 / 16), Fin.ofNat (v1 % 16 * 16 + v2 / 4)]
          else
            match base64Value c3, base64DecodeQuanta rest with
            | some v3, some tail =>
              some (Fin.ofNat (v0 * 4 + v1 / 16) :: Fin.ofNat (v1 % 16 * 16 + v2 / 4) ::
                Fin.ofNat (v2 % 4 * 64 + v3) :: tail)
            | _, _ => none
        | none => none
    | _, _ => none
  | _ => none

/-- Go `base64.StdEncoding.DecodeString`: line breaks are skipped, padding is required. -/
def base64Decode (s : Str) : Except Error Bytes :=
  match base64DecodeQuanta (s.filter (fun c => c ≠ 10 ∧ c ≠ 13)) with
  | some data => .ok data
  | none => .error (.new "illegal base64 data")

namespace Crypto

/-- Go `GenerateCnonce` over `World.randRead`: four random bytes in upper-case hexadecimal,
or the fixed fallback when `rand.Read` returns an error. With the `rand.Read` of Go 1.24 and
later no error is returned and a failing source aborts the program: `GenerateCnonceRun`,
which agrees with this function on every draw that is delivered. -/
def GenerateCnonce (w : World) : Str × World :=
  match w.randRead with
  | (none, w1) => (str "ABCD1234", w1)
  | (some (b0, b1, b2, b3), w1) => (toUpper (hexEncodeToString [b0, b1, b2, b3]), w1)

end Crypto

/-! ## `internal/tapo/client.go` -/

/-- Go `NewClient`. -/
def NewClient (host username password : Str) : Client :=
  { Host := host, Username := username, Password := password, stok := [], seq := 0, lsk := [],
    ivb := [], cnonce := [], nonce := [], hashedPass := [], isSecure := false,
    Timeout := 10 * 1000000000 }

/-- Go `getBaseURL`. -/
def getBaseURL (c : Client) : Str := str "https://" ++ c.Host ++ str ":443"

/-- Go `getRequestURL`. -/
def getRequestURL (c : Client) : Str := getBaseURL c ++ str "/stok=" ++ c.stok ++ str "/ds"

/-- Go `IsAuthenticated`. -/
def IsAuthenticated (c : Client) : Bool := c.stok != []

/-- Go `GetSessionToken`. -/
def GetSessionToken (c : Client) : Str := c.stok

/-- Go `defaultHeaders`. -/
def defaultHeaders (c : Client) : List (String × Str) :=
  [("Host", c.Host ++ str ":443"),
   ("Referer", str "https://" ++ c.Host),
   ("Accept", str "application/json"),
   ("Accept-Encoding", str "gzip, deflate"),
   ("User-Agent", str "Tapo CameraClient Android"),
   ("Connection", str "close"),
   ("requestByApp", str "true"),
   ("Content-Type", str "application/json; charset=UTF-8")]

/-- The request with the default headers that `makeRawRequest`, `executePlain` and
`executeSecure` build with `http.NewRequest` and `req.Header.Set`. -/
def newPost (c : Client) (url : Str) (body : Bytes) : Request :=
  { url := url,
    headers := (defaultHeaders c).foldl (fun h kv => setHeader h kv.1 kv.2) [],
    body := body }

/-- Go `makeRawRequest`: a POST of the marshalled login request to the base URL. The client
is not changed. -/
def makeRawRequest (L : GoLib) (c : Client) (w : World) (payload : LoginRequest) :
    Except Error Bytes × World :=
  match L.marshalLogin payload with
  | .error err => (.error (.wrap "failed to marshal request" err), w)
  | .ok jsonData =>
    match L.newRequest (getBaseURL c) with
    | .error err => (.error (.wrap "failed to create request" err), w)
    | .ok _ =>
      match w.send (newPost c (getBaseURL c) jsonData) with
      | (.doError err, w1) => (.error (.wrap "request failed" err), w1)
      | (.readError err, w1) => (.error (.wrap "failed to read response" err), w1)
      | (.body body, w1) => (.ok body, w1)

/-- The request of `detectConnectionType`. -/
def detectRequest (c : Client) : LoginRequest :=
  { Method := str "login", Params := { EncryptType := str "3", Username := c.Username } }

/-- Go `detectConnectionType`: does the camera support secure authentication? The client is
not changed. -/
def detectConnectionType (L : GoLib) (c : Client) (w : World) : Except Error Bool × World :=
  match makeRawRequest L c w (detectRequest c) with
  | (.error err, w1) => (.error err, w1)
  | (.ok resp, w1) =>
    match L.unmarshalLogin resp {} with
    | .error err => (.error (.wrap "failed to parse response" err), w1)
    | .ok loginResp =>
      if loginResp.ErrorCode = ErrorCodeLoginRequired then
        match loginResp.Result.Data with
        | some data =>
          if data.EncryptType.length > 0 ∧ data.EncryptType.any (fun t => t == str "3") then
            (.ok true, w1)
          else (.ok false, w1)
        | none => (.ok false, w1)
      else (.ok false, w1)

/-- Go `validateDeviceConfirm`. The client is not changed. -/
def validateDeviceConfirm (c : Client) (hashedPass deviceConfirm : Str) : Bool :=
  let expected := Crypto.SHA256Hash (c.cnonce ++ hashedPass ++ c.nonce) ++ c.nonce ++ c.cnonce
  deviceConfirm == expected

/-- Go `generateEncryptionKeys`: sets `lsk` and `ivb`. -/
def generateEncryptionKeys (c : Client) : Client :=
  let hashedKey := Crypto.SHA256Hash (c.cnonce ++ c.hashedPass ++ c.nonce)
  let lskFull := Crypto.SHA256HashBytes (str "lsk" ++ c.cnonce ++ c.nonce ++ hashedKey)
  let c1 := { c with lsk := lskFull.take 16 }
  let ivbFull := Crypto.SHA256HashBytes (str "ivb" ++ c1.cnonce ++ c1.nonce ++ hashedKey)
  { c1 with ivb := ivbFull.take 16 }

/-- The phase 1 request of `secureAuthenticate`. -/
def phase1Request (c : Client) : LoginRequest :=
  { Method := str "login",
    Params := { Cnonce := c.cnonce, EncryptType := str "3", Username := c.Username } }

/-- The phase 3 request of `secureAuthenticate`. -/
def phase3Request (c : Client) (hashedPass : Str) : LoginRequest :=
  let digestPasswd := Crypto.SHA256Hash (hashedPass ++ c.cnonce ++ c.nonce)
  { Method := str "login",
    Params := { Cnonce := c.cnonce, EncryptType := str "3",
                DigestPasswd := digestPasswd ++ c.cnonce ++ c.nonce, Username := c.Username } }

/-- Phase 3 of `secureAuthenticate`: the login is completed; the response is decoded into
the variable `loginResp` that still holds the phase 1 response. -/
def securePhase3 (L : GoLib) (c : Client) (w : World) (hashedPass : Str)
    (loginResp : LoginResponse) : Option Error × Client × World :=
  match makeRawRequest L c w (phase3Request c hashedPass) with
  | (.error err, w1) => (some (.wrap "phase 3 failed" err), c, w1)
  | (.ok resp, w1) =>
    match L.unmarshalLogin resp loginResp with
    | .error err => (some (.wrap "failed to parse phase 3 response" err), c, w1)
    | .ok loginResp =>
      if loginResp.ErrorCode ≠ 0 then
        (some (NewTapoError loginResp.ErrorCode (ErrorMessage loginResp.ErrorCode)), c, w1)
      else
        let c1 := { c with stok := loginResp.Result.Stok }
        let c2 := { c1 with seq := loginResp.Result.StartSeq }
        (none, c2, w1)

/-- Phase 2 of `secureAuthenticate`: the device is validated with the SHA256 hash of the
password, then with its MD5 hash, and the keys are generated. -/
def securePhase2 (L : GoLib) (c : Client) (w : World) (loginResp : LoginResponse)
    (deviceConfirm : Str) : Option Error × Client × World :=
  let hashedPassSHA := Crypto.SHA256Hash c.Password
  let hashedPassMD5 := Crypto.MD5Hash c.Password
  if validateDeviceConfirm c hashedPassSHA deviceConfirm then
    let c1 := { c with hashedPass := hashedPassSHA }
    securePhase3 L (generateEncryptionKeys c1) w hashedPassSHA loginResp
  else if validateDeviceConfirm c hashedPassMD5 deviceConfirm then
    let c1 := { c with hashedPass := hashedPassMD5 }
    securePhase3 L (generateEncryptionKeys c1) w hashedPassMD5 loginResp
  else
    (some (NewTapoError ErrorCodeInvalidAuth "device validation failed - check password"), c, w)

/-- Go `secureAuthenticate`: the 3-phase secure authentication. -/
def secureAuthenticate (L : GoLib) (c : Client) (w : World) : Option Error × Client × World :=
  match Crypto.GenerateCnonce w with
  | (cnonce, w0) =>
    let c0 := { c with cnonce := cnonce }
    match makeRawRequest L c0 w0 (phase1Request c0) with
    | (.error err, w1) => (some (.wrap "phase 1 failed" err), c0, w1)
    | (.ok resp, w1) =>
      match L.unmarshalLogin resp {} with
      | .error err => (some (.wrap "failed to parse phase 1 response" err), c0, w1)
      | .ok loginResp =>
        match loginResp.Result.Data with
        | none => (some (NewTapoError loginResp.ErrorCode "failed to get server nonce"), c0, w1)
        | some data =>
          if loginResp.ErrorCode ≠ 0 then
            (some (NewTapoError loginResp.ErrorCode "failed to get server nonce"), c0, w1)
          else
            let c1 := { c0 with nonce := data.Nonce }
            securePhase2 L c1 w1 loginResp data.DeviceConfirm

/-- The request of `legacyAuthenticate`. -/
def legacyRequest (c : Client) (hashedPass : Str) : LoginRequest :=
  { Method := str "login",
    Params := { Hashed := true, Password := hashedPass, Username := c.Username } }

/-- Go `legacyAuthenticate`: the legacy MD5-based authentication. -/
def legacyAuthenticate (L : GoLib) (c : Client) (w : World) : Option Error × Client × World :=
  let hashedPass := Crypto.MD5Hash c.Password
  match makeRawRequest L c w (legacyRequest c hashedPass) with
  | (.error err, w1) => (some (.wrap "legacy auth failed" err), c, w1)
  | (.ok resp, w1) =>
    match L.unmarshalLogin resp {} with
    | .error err => (some (.wrap "failed to parse response" err), c, w1)
    | .ok loginResp =>
      if loginResp.ErrorCode ≠ 0 then
        (some (NewTapoError loginResp.ErrorCode (ErrorMessage loginResp.ErrorCode)), c, w1)
      else
        let c1 := { c with stok := loginResp.Result.Stok }
        let c2 := { c1 with hashedPass := hashedPass }
        (none, c2, w1)

/-- Go `Authenticate`: the full authentication flow. -/
def Authenticate (L : GoLib) (c : Client) (w : World) : Option Error × Client × World :=
  match detectConnectionType L c w with
  | (.error err, w1) => (some (.wrap "failed to detect connection type" err), c, w1)
  | (.ok isSecure, w1) =>
    let c1 := { c with isSecure := isSecure }
    if isSecure then secureAuthenticate L c1 w1
    else legacyAuthenticate L c1 w1

/-! ## `internal/tapo/request.go` -/

/-- A value handed to `Execute`'s dispatchers: the batch envelope built by `Execute`, or
whatever the caller gave to `ExecuteDirect`. -/
inductive Payload where
  | multipleRequest (r : MultipleRequest)
  | value (v : Value)

/-- Go `json.Marshal(payload)`. -/
def jsonMarshal (L : GoLib) : Payload → Except Error Bytes
  | .multipleRequest r => L.marshalMultiple r
  | .value .nil => .ok (str "null")
  | .value (.json marshalled) => marshalled

/-- Go `calculateTag`: the value of the `Tapo_tag` header. -/
def calculateTag (c : Client) (requestJSON : Str) : Str :=
  let tag1 := Crypto.SHA256Hash (c.hashedPass ++ c.cnonce)
  let tag := Crypto.SHA256Hash (tag1 ++ requestJSON ++ Itoa c.seq)
  tag

/-- Go `executePlain`: an unencrypted request. -/
def executePlain (L : GoLib) (c : Client) (w : World) (payload : Payload) :
    Except Error ResultMap × Client × World :=
  match jsonMarshal L payload with
  | .error err => (.error (.wrap "failed to marshal request" err), c, w)
  | .ok jsonData =>
    match L.newRequest (getRequestURL c) with
    | .error err => (.error (.wrap "failed to create request" err), c, w)
    | .ok _ =>
      match w.send (newPost c (getRequestURL c) jsonData) with
      | (.doError err, w1) => (.error (.wrap "request failed" err), c, w1)
      | (.readError err, w1) => (.error (.wrap "failed to read response" err), c, w1)
      | (.body body, w1) =>
        match L.unmarshalAPI body with
        | .error err => (.error (.wrap "failed to parse response" err), c, w1)
        | .ok apiResp =>
          if apiResp.ErrorCode ≠ 0 then
            if apiResp.ErrorCode = ErrorCodeInvalidToken then
              (.error (NewTapoError apiResp.ErrorCode "session expired - please re-authenticate"),
                { c with stok := [] }, w1)
            else
              (.error (NewTapoError apiResp.ErrorCode (ErrorMessage apiResp.ErrorCode)), c, w1)
          else (.ok apiResp.Result, c, w1)

/-- The part of `executeSecure` after the response body has been read. -/
def executeSecureResponse (L : GoLib) (c : Client) (w : World) (body : Bytes) :
    Except Error ResultMap × Client × World :=
  match L.unmarshalSecure body with
  | .error err => (.error (.wrap "failed to parse secure response" err), c, w)
  | .ok secureResp =>
    if secureResp.ErrorCode ≠ 0 then
      if secureResp.ErrorCode = ErrorCodeInvalidToken then
        (.error (NewTapoError secureResp.ErrorCode "session expired - please re-authenticate"),
          { c with stok := [] }, w)
      else
        (.error (NewTapoError secureResp.ErrorCode (ErrorMessage secureResp.ErrorCode)), c, w)
    else
      match base64Decode secureResp.Result.Response with
      | .error err => (.error (.wrap "failed to decode response" err), c, w)
      | .ok encryptedResp =>
        match Crypto.AESDecrypt encryptedResp c.lsk c.ivb with
        | .error err => (.error (.wrap "failed to decrypt response" err), c, w)
        | .ok decrypted =>
          match L.unmarshalAPI decrypted with
          | .error err => (.error (.wrap "failed to parse decrypted response" err), c, w)
          | .ok apiResp =>
            if apiResp.ErrorCode ≠ 0 then
              (.error (NewTapoError apiResp.ErrorCode (ErrorMessage apiResp.ErrorCode)), c, w)
            else (.ok apiResp.Result, c, w)

/-- The envelope `executeSecure` wraps an encrypted payload in. -/
def secureEnvelope (encrypted : Bytes) : SecureRequest :=
  { Method := str "securePassthrough", Params := { Request := base64Encode encrypted } }

/-- The request `executeSecure` sends for the envelope text `secureJSON`: the default
headers, then `Seq` and `Tapo_tag`, both computed from the current `seq`. -/
def securePost (c : Client) (secureJSON : Bytes) : Request :=
  let req := newPost c (getRequestURL c) secureJSON
  let req := { req with headers := setHeader req.headers "Seq" (Itoa c.seq) }
  { req with headers := setHeader req.headers "Tapo_tag" (calculateTag c secureJSON) }

/-- Go `executeSecure`: an encrypted request. -/
def executeSecure (L : GoLib) (c : Client) (w : World) (payload : Payload) :
    Except Error ResultMap × Client × World :=
  match jsonMarshal L payload with
  | .error err => (.error (.wrap "failed to marshal request" err), c, w)
  | .ok jsonData =>
    match Crypto.AESEncrypt jsonData c.lsk c.ivb with
    | .error err => (.error (.wrap "failed to encrypt request" err), c, w)
    | .ok encrypted =>
      match L.marshalSecure (secureEnvelope encrypted) with
      | .error err => (.error (.wrap "failed to marshal secure request" err), c, w)
      | .ok secureJSON =>
        match L.newRequest (getRequestURL c) with
        | .error err => (.error (.wrap "failed to create request" err), c, w)
        | .ok _ =>
          let req := securePost c secureJSON
          let c1 := { c with seq := intAdd c.seq 1 }
          match w.send req with
          | (.doError err, w1) => (.error (.wrap "request failed" err), c1, w1)
          | (.readError err, w1) => (.error (.wrap "failed to read response" err), c1, w1)
          | (.body body, w1) => executeSecureResponse L c1 w1 body

/-- The batch envelope `Execute` wraps a single request in. -/
def multipleRequest (method : Str) (params : Value) : MultipleRequest :=
  { Method := str "multipleRequest",
    Params := { Requests := [{ Method := method, Params := params }] } }

/-- The guard that opens `Execute` and `ExecuteDirect`: an unauthenticated client
authenticates first. -/
def ensureAuthenticated (L : GoLib) (c : Client) (w : World) : Option Error × Client × World :=
  if ¬ IsAuthenticated c then
    match Authenticate L c w with
    | (some err, c1, w1) => (some (.wrap "authentication failed" err), c1, w1)
    | (none, c1, w1) => (none, c1, w1)
  else (none, c, w)

/-- Go `Execute`: sends a command to the camera. -/
def Execute (L : GoLib) (c : Client) (w : World) (method : Str) (params : Value) :
    Except Error ResultMap × Client × World :=
  match ensureAuthenticated L c w with
  | (some err, c1, w1) => (.error err, c1, w1)
  | (none, c1, w1) =>
    let multiReq := multipleRequest method params
    if c1.isSecure then executeSecure L c1 w1 (.multipleRequest multiReq)
    else executePlain L c1 w1 (.multipleRequest multiReq)

/-- Go `ExecuteDirect`: sends a direct command without the `multipleRequest` wrapper. -/
def ExecuteDirect (L : GoLib) (c : Client) (w : World) (payload : Payload) :
    Except Error ResultMap × Client × World :=
  match ensureAuthenticated L c w with
  | (some err, c1, w1) => (.error err, c1, w1)
  | (none, c1, w1) =>
    if c1.isSecure then executeSecure L c1 w1 payload
    else executePlain L c1 w1 payload

/-! ## A table-driven stand-in for `encoding/json`, for the worked examples -/

/-- A JSON string literal for text that needs no escaping. -/
def jsonQuote (s : Str) : Bytes := (34 : Byte) :: s ++ [(34 : Byte)]

/-- A member `"name":"value"` of a JSON object, preceded by a comma; left out when
`omitempty` is set and the value is empty. -/
def jsonMember (name : String) (value : Str) (omitempty : Bool) : Bytes :=
  if omitempty ∧ value = [] then []
  else str "," ++ jsonQuote (str name) ++ str ":" ++ jsonQuote value

/-- The JSON text of a `LoginRequest`, following the field tags of `LoginParams`. -/
def renderLogin (r : LoginRequest) : Bytes :=
  str "\x7b\"method\":" ++ jsonQuote r.Method ++ str ",\"params\":\x7b" ++
    (jsonMember "cnonce" r.Params.Cnonce true ++
      jsonMember "encrypt_type" r.Params.EncryptType true ++
      jsonMember "username" r.Params.Username false ++
      jsonMember "digest_passwd" r.Params.DigestPasswd true ++
      (if r.Params.Hashed then str ",\"hashed\":true" else []) ++
      jsonMember "password" r.Params.Password true).drop 1 ++ str "\x7d\x7d"

/-- The JSON text of a single request of a batch. -/
def renderSingle (r : SingleRequest) : Except Error Bytes :=
  match r.Params with
  | .nil => .ok (str "\x7b\"method\":" ++ jsonQuote r.Method ++ str "\x7d")
  | .json (.ok params) =>
    .ok (str "\x7b\"method\":" ++ jsonQuote r.Method ++ str ",\"params\":" ++ params ++ str "\x7d")
  | .json (.error err) => .error err

/-- The JSON text of a `MultipleRequest` holding one request. -/
def renderMultiple (r : MultipleRequest) : Except Error Bytes :=
  match r.Params.Requests with
  | [single] =>
    match renderSingle single with
    | .ok text =>
      .ok (str "\x7b\"method\":" ++ jsonQuote r.Method ++ str ",\"params\":\x7b\"requests\":[" ++
        text ++ str "]\x7d\x7d")
    | .error err => .error err
  | _ => .error (.new "not rendered")

/-- The JSON text of a `SecureRequest`. -/
def renderSecure (r : SecureRequest) : Bytes :=
  str "\x7b\"method\":" ++ jsonQuote r.Method ++ str ",\"params\":\x7b\"request\":" ++
    jsonQuote r.Params.Request ++ str "\x7d\x7d"

/-- The entry of a decoding table for a response body. -/
def decodeWith {α : Type} (table : List (Str × α)) (body : Bytes) : Except Error α :=
  match table.lookup body with
  | some v => .ok v
  | none => .error (.new "invalid character looking for beginning of value")

/-- A `GoLib` that renders the request structs as Go does for text without escapes, accepts
every URL, and decodes exactly the response bodies listed in its tables; a login entry gives
the effect of the body on the variable decoded into. -/
def tableLib (logins : List (Str × (LoginResponse → LoginResponse)))
    (apis : List (Str × APIResponse)) (secures : List (Str × SecureResponse)) : GoLib :=
  { marshalLogin := fun r => .ok (renderLogin r),
    marshalMultiple := renderMultiple,
    marshalSecure := fun r => .ok (renderSecure r),
    unmarshalLogin := fun body v =>
      match decodeWith logins body with
      | .ok f => .ok (f v)
      | .error err => .error err,
    unmarshalAPI := decodeWith apis,
    unmarshalSecure := decodeWith secures,
    newRequest := fun _ => .ok () }

/-! ## Worked example: one camera, its responses, and the library decoding them -/

/-- The client of the unit tests. -/
def exampleClient : Client := NewClient (str "192.168.1.100") (str "admin") (str "password")

/-- A detection response offering secure mode:
`{"error_code":-40413,"result":{"data":{"encrypt_type":["3"]}}}`. -/
def detectSecureBody : Bytes :=
  str "\x7b\"error_code\":-40413,\"result\":\x7b\"data\":\x7b\"encrypt_type\":[\"3\"]\x7d\x7d\x7d"

/-- A detection response of a camera without secure mode: `{"error_code":-40401}`. -/
def invalidTokenBody : Bytes := str "\x7b\"error_code\":-40401\x7d"

/-- The `device_confirm` value for the password `"password"` hashed with SHA256, client
nonce `"ABCD1234"` and server nonce `"server_nonce"`. -/
def exampleConfirm : Str :=
  str "3EE3E6ACBA8C42BD8B284A4605DB5D65486434FC4898C25DB987C52220F422B9server_nonceABCD1234"

/-- A phase 1 response:
`{"error_code":0,"result":{"data":{"nonce":"server_nonce","device_confirm":"3EE3...1234"}}}`. -/
def phase1Body : Bytes :=
  str "\x7b\"error_code\":0,\"result\":\x7b\"data\":\x7b\"nonce\":\"server_nonce\",\"device_confirm\":\"" ++
    exampleConfirm ++ str "\"\x7d\x7d\x7d"

/-- A phase 1 response with a `device_confirm` that matches no hash of the password:
`{"error_code":0,"result":{"data":{"nonce":"server_nonce","device_confirm":"wrong_confirm"}}}`. -/
def phase1WrongBody : Bytes :=
  str "\x7b\"error_code\":0,\"result\":\x7b\"data\":\x7b\"nonce\":\"server_nonce\",\"device_confirm\":\"wrong_confirm\"\x7d\x7d\x7d"

/-- A response reporting a rate limit: `{"error_code":-40404}`. -/
def rateLimitedBody : Bytes := str "\x7b\"error_code\":-40404\x7d"

/-- A successful login response:
`{"error_code":0,"result":{"stok":"abc123","start_seq":100,"user_group":"root"}}`. -/
def loginOkBody : Bytes :=
  str "\x7b\"error_code\":0,\"result\":\x7b\"stok\":\"abc123\",\"start_seq\":100,\"user_group\":\"root\"\x7d\x7d"

/-- A successful command response: `{"error_code":0,"result":{}}`. -/
def commandOkBody : Bytes := str "\x7b\"error_code\":0,\"result\":\x7b\x7d\x7d"

/-- The `device_confirm` value for the password `"password"` hashed with SHA256, client
nonce `"ABCD1234"` and an empty server nonce:
`SHA256Hash("ABCD1234" + SHA256Hash("password") + "") + "" + "ABCD1234"`. -/
def exampleConfirmNoNonce : Str :=
  str "452BA8E8825C68E3521BF49A84CFC3A6E48EBFDD9163B4087DEFBC61C56FE3ABABCD1234"

/-- A phase 1 response whose data object has a `device_confirm` but no nonce:
`{"error_code":0,"result":{"data":{"device_confirm":"452B...E3ABABCD1234"}}}`. -/
def phase1NoNonceBody : Bytes :=
  str "\x7b\"error_code\":0,\"result\":\x7b\"data\":\x7b\"device_confirm\":\"" ++
    exampleConfirmNoNonce ++ str "\"\x7d\x7d\x7d"

/-- A phase 1 response without a data object: `{"error_code":0,"result":{}}` read as a login
response. -/
def phase1NoDataBody : Bytes := str "\x7b\"error_code\":0,\"result\":\x7b\x7d\x7d"

/-- A secure response with outer status 0 whose `response` is the base64 text of
`commandOkBody` encrypted under the keys of the example session:
`{"error_code":0,"result":{"response":"8aLN...Q+w="}}`. -/
def secureOkBody : Bytes :=
  str "\x7b\"error_code\":0,\"result\":\x7b\"response\":\"8aLNJ82fD7NETzqL1ZJqteZXt+Gbl+9o/Cs8fhC0Q+w=\"\x7d\x7d"

/-- A secure response with outer status 0 whose `response` is the base64 text of
`invalidTokenBody` encrypted under the keys of the example session:
`{"error_code":0,"result":{"response":"lBNB...dmQ="}}`. -/
def secureInnerExpiredBody : Bytes :=
  str "\x7b\"error_code\":0,\"result\":\x7b\"response\":\"lBNBQC+yPm6+5VYE+YG+xWdhqq6AWfqPo4mL6L30dmQ=\"\x7d\x7d"

/-- The library restricted to the bodies above, each decoded as `json.Unmarshal` decodes it
into the three response types. -/
def exampleLib : GoLib :=
  tableLib
    [(detectSecureBody, fun v =>
        { v with ErrorCode := -40413,
                 Result := { v.Result with Data := some { EncryptType := [str "3"] } } }),
     (invalidTokenBody, fun v => { v with ErrorCode := -40401 }),
     (phase1Body, fun v =>
        { v with ErrorCode := 0,
                 Result := { v.Result with
                   Data := some { Nonce := str "server_nonce", DeviceConfirm := exampleConfirm } } }),
     (phase1WrongBody, fun v =>
        { v with ErrorCode := 0,
                 Result := { v.Result with
                   Data := some { Nonce := str "server_nonce",
                                  DeviceConfirm := str "wrong_confirm" } } }),
     (rateLimitedBody, fun v => { v with ErrorCode := -40404 }),
     (loginOkBody, fun v =>
        { v with ErrorCode := 0,
                 Result := { v.Result with Stok := str "abc123", StartSeq := 100,
                                           UserGroup := str "root" } }),
     (phase1NoNonceBody, fun v =>
        { v with ErrorCode := 0,
                 Result := { v.Result with
                   Data := some { DeviceConfirm := exampleConfirmNoNonce } } }),
     (phase1NoDataBody, fun v => { v with ErrorCode := 0 })]
    [(invalidTokenBody, { ErrorCode := -40401 }),
     (rateLimitedBody, { ErrorCode := -40404 }),
     (commandOkBody, { ErrorCode := 0, Result := some [] })]
    [(invalidTokenBody, { ErrorCode := -40401 }),
     (rateLimitedBody, { ErrorCode := -40404 }),
     (secureOkBody,
       { ErrorCode := 0,
         Result := { Response := str "8aLNJ82fD7NETzqL1ZJqteZXt+Gbl+9o/Cs8fhC0Q+w=" } }),
     (secureInnerExpiredBody,
       { ErrorCode := 0,
         Result := { Response := str "lBNBQC+yPm6+5VYE+YG+xWdhqq6AWfqPo4mL6L30dmQ=" } })]

/-! ## Sessions -/

/-- The client states a caller can reach: a client made by `NewClient`, followed by any
number of `Authenticate`, `Execute` and `ExecuteDirect` calls against any world. -/
inductive Reachable (L : GoLib) : Client → Prop where
  | newClient (host username password : Str) : Reachable L (NewClient host username password)
  | authenticate (c : Client) (w : World) :
    Reachable L c → Reachable L (Authenticate L c w).2.1
  | execute (c : Client) (w : World) (method : Str) (params : Value) :
    Reachable L c → Reachable L (Execute L c w method params).2.1
  | executeDirect (c : Client) (w : World) (payload : Payload) :
    Reachable L c → Reachable L (ExecuteDirect L c w payload).2.1

/-- The parameters of a `getDeviceInfo` request:
`{"device_info":{"name":["basic_info"]}}`. -/
def exampleParams : Value :=
  .json (.ok (str "\x7b\"device_info\":\x7b\"name\":[\"basic_info\"]\x7d\x7d"))

/-- The keys are either both absent or both exactly 16 bytes long. -/
def KeysAbsentOrFull (c : Client) : Prop :=
  (c.lsk = [] ∧ c.ivb = []) ∨ (c.lsk.length = 16 ∧ c.ivb.length = 16)

/-- The example session after its secure handshake: client nonce `"ABCD1234"`, server nonce
`"server_nonce"`, the SHA256 hash of the password, the keys derived from them, and the token
and sequence number of `loginOkBody`. -/
def exampleSecureClient : Client :=
  { exampleClient with
    stok := str "abc123",
    seq := 100,
    lsk := [175, 128, 151, 77, 208, 178, 113, 88, 237, 161, 77, 87, 235, 1, 154, 246],
    ivb := [132, 163, 167, 193, 134, 105, 34, 64, 109, 61, 136, 105, 231, 4, 65, 74],
    cnonce := str "ABCD1234",
    nonce := str "server_nonce",
    hashedPass := str "5E884898DA28047151D0E56F8DC6292773603D0D6AABBDD62A11EF721D1542D8",
    isSecure := true }

/-- The envelope text the example session sends for `exampleParams`: the request member is
the base64 text of the AES-128-CBC ciphertext under the session keys. -/
def exampleSecureJSON : Bytes :=
  str "\x7b\"method\":\"securePassthrough\",\"params\":\x7b\"request\":\"fEXZ9o8Wai/MjHRtxSYGXgQLHqMRiZy0LDEgtFFJurtS+gmesOr/pwO+mv4taQDO\"\x7d\x7d"

/-- The world `w1` is the world `w` after some requests, all of them posted to `url`. -/
def SentTo (url : Str) (w w1 : World) : Prop :=
  ∃ reqs : List Request, w1.sent = w.sent ++ reqs ∧ ∀ r ∈ reqs, r.url = url

/-- The batch envelope in the words of the specification:
`{method: "multipleRequest", params: {requests: [{method, params}]}}`, holding exactly the
one request. -/
def batchEnvelope (method : Str) (params : Value) : MultipleRequest :=
  { Method := str "multipleRequest",
    Params := { Requests := [{ Method := method, Params := params }] } }

/-- The test of `TestGenerateCnonce` for one character:
`(c >= '0' && c <= '9') || (c >= 'A' && c <= 'F')`. -/
def isUpperHex (c : Byte) : Bool :=
  (decide (48 ≤ c.val) && decide (c.val ≤ 57)) || (decide (65 ≤ c.val) && decide (c.val ≤ 70))

/-- The value of an upper-case hexadecimal digit. -/
def hexValue (c : Byte) : Nat := if c.val ≤ 57 then c.val - 48 else c.val - 55

/-! ## `internal/handlers/ptz.go` and `internal/handlers/detection.go` -/

/-- Go `byte(x)` for an `int` `x`: the low 8 bits. -/
def byteOfInt (x : Int) : Byte := Fin.ofNat (x % 256).toNat

/-- Go `string(rune(x))` for an `int` `x`: `x` is cut to 32 bits, and the text is the UTF-8
encoding of that code point, or of U+FFFD when it is none. -/
def runeString (x : Int) : Str :=
  let r := (x + 2147483648) % 4294967296 - 2147483648
  if r < 0 ∨ r > 1114111 ∨ (55296 ≤ r ∧ r ≤ 57343) then [239, 191, 189]
  else if r < 128 then [byteOfInt r]
  else if r < 2048 then [byteOfInt (192 + r / 64), byteOfInt (128 + r % 64)]
  else if r < 65536 then
    [byteOfInt (224 + r / 4096), byteOfInt (128 + r / 64 % 64), byteOfInt (128 + r % 64)]
  else
    [byteOfInt (240 + r / 262144), byteOfInt (128 + r / 4096 % 64),
      byteOfInt (128 + r / 64 % 64), byteOfInt (128 + r % 64)]

/-- Go `formatDirection`: three bytes; `/` and `%` of Go truncate towards zero. -/
def formatDirection (d : Int) : Str :=
  [byteOfInt (48 + d.tdiv 100), byteOfInt (48 + (d.tmod 100).tdiv 10), byteOfInt (48 + d.tmod 10)]

/-- Go `formatNumber`: three bytes, as `formatDirection`. -/
def formatNumber (n : Int) : Str :=
  [byteOfInt (48 + n.tdiv 100), byteOfInt (48 + (n.tmod 100).tdiv 10), byteOfInt (48 + n.tmod 10)]

structure StepRequest where
  Direction : Int := 0
  deriving DecidableEq

structure SetMotionDetectionRequest where
  Enabled : Bool := false
  Sensitivity : Int := 0
  deriving DecidableEq

structure SetPersonDetectionRequest where
  Enabled : Bool := false
  Sensitivity : Int := 0
  deriving DecidableEq

/-- The answer of a handler: `c.Status(status).JSON(...)` with the members `error` and
`message`, or `c.JSON(...)`, of status 200, with `success: true` and the result. -/
inductive HandlerResponse where
  | failure (status : Nat) (error message : String)
  | success (result : ResultMap)
  deriving DecidableEq

/-- What `json.Marshal` returns for the payload of `Step`, the nested maps
`{"method":"do","motor":{"movestep":{"direction":direction}}}`; `marshalString` is
`json.Marshal` on a Go string. -/
def stepPayload (marshalString : Str → Bytes) (direction : Str) : Value :=
  .json (.ok (str "\x7b\"method\":\"do\",\"motor\":\x7b\"movestep\":\x7b\"direction\":" ++
    marshalString direction ++ str "\x7d\x7d\x7d"))

/-- Go `PTZHandler.Step`, from the parsed body on: `body` is what `c.BodyParser(&req)` gives,
`cameraIP` is `c.Params("ip")` and `username`, `password` come from `GetTapoCredentials`.
The second component is the client the handler has created, if any. The map literal first
holds a direction built with `string(rune(...))`; the next statement replaces it with
`formatDirection(req.Direction)`. -/
def PTZHandler.Step (L : GoLib) (marshalString : Str → Bytes) (w : World)
    (cameraIP username password : Str) (body : Except Error StepRequest) :
    HandlerResponse × Option Client × World :=
  match body with
  | .error _ => (.failure 400 "invalid_request" "Invalid request body", none, w)
  | .ok req =>
    if req.Direction < 0 ∨ req.Direction > 359 then
      (.failure 400 "invalid_direction" "Direction must be between 0 and 359", none, w)
    else
      let client := NewClient cameraIP username password
      let direction := runeString (48 + req.Direction.tdiv 100) ++
        runeString (48 + (req.Direction.tmod 100).tdiv 10) ++
        runeString (48 + req.Direction.tmod 10)
      let direction := formatDirection req.Direction
      match ExecuteDirect L client w (.value (stepPayload marshalString direction)) with
      | (.error err, client, w1) =>
        (.failure 500 "execution_failed" err.Error, some client, w1)
      | (.ok result, client, w1) => (.success result, some client, w1)

/-- What `json.Marshal` returns for the params of `SetMotionDetection`, the nested maps
`{"motion_detection":{"motion_det":{"enabled":enabled}}}` with the member
`digital_sensitivity` when it has been added; the keys of a map are rendered in sorted
order. -/
def motionDetectionParams (marshalString : Str → Bytes) (enabled : Str)
    (digitalSensitivity : Option Str) : Value :=
  .json (.ok (str "\x7b\"motion_detection\":\x7b\"motion_det\":\x7b" ++
    (match digitalSensitivity with
      | some s => str "\"digital_sensitivity\":" ++ marshalString s ++ str ","
      | none => []) ++
    str "\"enabled\":" ++ marshalString enabled ++ str "\x7d\x7d\x7d"))

/-- Go `DetectionHandler.SetMotionDetection`, from the parsed body on. -/
def DetectionHandler.SetMotionDetection (L : GoLib) (marshalString : Str → Bytes) (w : World)
    (cameraIP username password : Str) (body : Except Error SetMotionDetectionRequest) :
    HandlerResponse × Option Client × World :=
  match body with
  | .error _ => (.failure 400 "invalid_request" "Invalid request body", none, w)
  | .ok req =>
    let enabled := if req.Enabled then str "on" else str "off"
    let sensitivity := if req.Sensitivity > 0 then some (formatNumber req.Sensitivity) else none
    let client := NewClient cameraIP username password
    match Execute L client w (str "setDetectionConfig")
        (motionDetectionParams marshalString enabled sensitivity) with
    | (.error err, client, w1) => (.failure 500 "execution_failed" err.Error, some client, w1)
    | (.ok result, client, w1) => (.success result, some client, w1)

/-- What `json.Marshal` returns for the params of `SetPersonDetection`, the nested maps
`{"people_detection":{"detection":{"enabled":enabled}}}` with the member `sensitivity` when
it has been added. -/
def personDetectionParams (marshalString : Str → Bytes) (enabled : Str)
    (sensitivity : Option Str) : Value :=
  .json (.ok (str "\x7b\"people_detection\":\x7b\"detection\":\x7b\"enabled\":" ++
    marshalString enabled ++
    (match sensitivity with
      | some s => str ",\"sensitivity\":" ++ marshalString s
      | none => []) ++
    str "\x7d\x7d\x7d"))

/-- Go `DetectionHandler.SetPersonDetection`, from the parsed body on. -/
def DetectionHandler.SetPersonDetection (L : GoLib) (marshalString : Str → Bytes) (w : World)
    (cameraIP username password : Str) (body : Except Error SetPersonDetectionRequest) :
    HandlerResponse × Option Client × World :=
  match body with
  | .error _ => (.failure 400 "invalid_request" "Invalid request body", none, w)
  | .ok req =>
    let enabled := if req.Enabled then str "on" else str "off"
    let sensitivity := if req.Sensitivity > 0 then some (formatNumber req.Sensitivity) else none
    let client := NewClient cameraIP username password
    match Execute L client w (str "setPersonDetectionConfig")
        (personDetectionParams marshalString enabled sensitivity) with
    | (.error err, client, w1) => (.failure 500 "execution_failed" err.Error, some client, w1)
    | (.ok result, client, w1) => (.success result, some client, w1)

/-! ## Runs that may stop the program -/

/-- The outcome of running Go code that may not return: the value returned, a run-time panic,
a fatal error that aborts the process, or a loop cut off by the fuel of its embedding. -/
inductive Outcome (α : Type) where
  | value (a : α)
  | panic (message : String)
  | fatal (message : String)
  | outOfFuel
  deriving DecidableEq

/-- Sequencing: what follows runs only when the first part has returned. -/
def Outcome.bind {α β : Type} : Outcome α → (α → Outcome β) → Outcome β
  | .value a, f => f a
  | .panic message, _ => .panic message
  | .fatal message, _ => .fatal message
  | .outOfFuel, _ => .outOfFuel

/-- Go `data[i]` on a byte slice: a run-time panic unless `0 <= i < len(data)`. -/
def indexByte (data : Bytes) (i : Int) : Outcome Byte :=
  if 0 ≤ i ∧ i < (data.length : Int) then
    match data.get? i.toNat with
    | some b => .value b
    | none => .panic "index out of range"
  else .panic "index out of range"

/-- Go `data[:high]` on a byte slice: a run-time panic unless `0 <= high <= cap(data)`; the
capacity is taken to be the length, the least it can be. -/
def sliceTo (data : Bytes) (high : Int) : Outcome Bytes :=
  if 0 ≤ high ∧ high ≤ (data.length : Int) then .value (data.take high.toNat)
  else .panic "slice bounds out of range"

namespace Crypto

/-- The loop `for i := ...; i < len(data); i++` of `pkcs7Unpad` from the index `i` on, with
every `data[i]` checked: `some err` is the error returned from inside the loop, `none` is the
loop running to its end. -/
def pkcs7UnpadLoop (data : Bytes) (padding : Int) : Nat → Int → Outcome (Option Error)
  | 0, _ => .outOfFuel
  | fuel + 1, i =>
    if i < (data.length : Int) then
      (indexByte data i).bind fun b =>
        if b ≠ byteOfInt padding then .value (some (.new "invalid padding bytes"))
        else pkcs7UnpadLoop data padding fuel (i + 1)
    else .value none

/-- Go `pkcs7Unpad` with the bounds checks of Go on every index and slice expression, and
`int` indices: the loop starts at `len(data) - padding` and gets `len(data) + 1` units of
fuel. -/
def pkcs7UnpadRun (data : Bytes) : Outcome (Except Error Bytes) :=
  if data.length = 0 then .value (.error (.new "data is empty"))
  else
    (indexByte data ((data.length : Int) - 1)).bind fun last =>
      let padding : Int := (last.val : Int)
      if padding > (data.length : Int) ∨ padding = 0 then
        .value (.error (.new "invalid padding"))
      else
        (pkcs7UnpadLoop data padding (data.length + 1) ((data.length : Int) - padding)).bind
          fun r =>
            match r with
            | some err => .value (.error err)
            | none =>
              (sliceTo data ((data.length : Int) - padding)).bind fun out => .value (.ok out)

end Crypto

/-- Go `rand.Read` on a 4-byte buffer as of Go 1.24: it never returns an error (the first
component, `err`, is always nil) and always fills the buffer; when the entropy source fails,
the program is aborted with a fatal error. -/
def World.randReadRun (w : World) :
    Outcome (Option Error × (Byte × Byte × Byte × Byte) × World) :=
  match w.randRead with
  | (some b, w1) => .value (none, b, w1)
  | (none, _) => .fatal "crypto/rand: failed to read random data"

/-- Go `GenerateCnonce` over the `rand.Read` of Go 1.24 and later. -/
def Crypto.GenerateCnonceRun (w : World) : Outcome (Str × World) :=
  w.randReadRun.bind fun r =>
    match r with
    | (some _, _, w1) => .value (str "ABCD1234", w1)
    | (none, (b0, b1, b2, b3), w1) =>
      .value (Crypto.toUpper (Crypto.hexEncodeToString [b0, b1, b2, b3]), w1)

/-! # Properties -/

/-! ## Bytes -/

theorem xorByte_val (a b : Byte) : (xorByte a b).val = a.val ^^^ b.val := rfl

theorem xorByte_comm (a b : Byte) : xorByte a b = xorByte b a :=
  Fin.ext (Nat.xor_comm _ _)

theorem xorByte_assoc (a b c : Byte) : xorByte (xorByte a b) c = xorByte a (xorByte b c) :=
  Fin.ext (Nat.xor_assoc _ _ _)

theorem xorByte_self (a : Byte) : xorByte a a = 0 :=
  Fin.ext (Nat.xor_self _)

theorem xorByte_zero (a : Byte) : xorByte a 0 = a :=
  Fin.ext (Nat.xor_zero _)

theorem zero_xorByte (a : Byte) : xorByte 0 a = a :=
  Fin.ext (Nat.zero_xor _)

theorem xorByte_cancel_right (a b : Byte) : xorByte (xorByte a b) b = a := by
  rw [xorByte_assoc, xorByte_self, xorByte_zero]

instance : Std.Associative xorByte := ⟨xorByte_assoc⟩

instance : Std.Commutative xorByte := ⟨xorByte_comm⟩

theorem xorBytes_length (x y : Bytes) : (xorBytes x y).length = min x.length y.length := by
  simp [xorBytes]

theorem xorBytes_cancel_right : ∀ (x y : Bytes), x.length ≤ y.length →
    xorBytes (xorBytes x y) y = x
  | [], _, _ => by simp [xorBytes]
  | a :: x, [], h => by simp at h
  | a :: x, b :: y, h => by
    have ih := xorBytes_cancel_right x y (by simpa using h)
    simp only [xorBytes, List.zipWith_cons_cons, xorByte_cancel_right] at ih ⊢
    rw [ih]

namespace AES

/-! ## AES-128 is a permutation of blocks -/

theorem invSubByte_subByte (b : Byte) : invSubByte (subByte b) = b := by
  have h : ∀ n (h : n < 256), invSubByte (subByte ⟨n, h⟩) = ⟨n, h⟩ := by decide!
  exact h b.val b.isLt

/-- The `xtime` map written with shifts and masks only. -/
theorem xtime_val (b : Byte) :
    (xtime b).val = ((b.val <<< 1) &&& 255) ^^^
      ((b.val >>> 7) ^^^ ((b.val >>> 7) <<< 1) ^^^ ((b.val >>> 7) <<< 3) ^^^ ((b.val >>> 7) <<< 4)) := by
  have h : ∀ n (h : n < 256), (xtime ⟨n, h⟩).val = ((n <<< 1) &&& 255) ^^^
      ((n >>> 7) ^^^ ((n >>> 7) <<< 1) ^^^ ((n >>> 7) <<< 3) ^^^ ((n >>> 7) <<< 4)) := by decide!
  exact h b.val b.isLt

theorem shiftLeft_xor (a b k : Nat) : (a ^^^ b) <<< k = (a <<< k) ^^^ (b <<< k) := by
  apply Nat.eq_of_testBit_eq
  intro i
  simp only [Nat.testBit_shiftLeft, Nat.testBit_xor]
  cases decide (i ≥ k) <;> simp

theorem shiftRight_xor (a b k : Nat) : (a ^^^ b) >>> k = (a >>> k) ^^^ (b >>> k) := by
  apply Nat.eq_of_testBit_eq
  intro i
  simp only [Nat.testBit_shiftRight, Nat.testBit_xor]

theorem xtime_xor (a b : Byte) : xtime (xorByte a b) = xorByte (xtime a) (xtime b) := by
  apply Fin.ext
  simp only [xtime_val, xorByte_val, shiftLeft_xor, shiftRight_xor, Nat.and_xor_distrib_right]
  ac_rfl

theorem mul2_xor (a b : Byte) : mul2 (xorByte a b) = xorByte (mul2 a) (mul2 b) :=
  xtime_xor a b

theorem mul3_xor (a b : Byte) : mul3 (xorByte a b) = xorByte (mul3 a) (mul3 b) := by
  simp only [mul3, xtime_xor]
  ac_rfl

theorem mul9_xor (a b : Byte) : mul9 (xorByte a b) = xorByte (mul9 a) (mul9 b) := by
  simp only [mul9, xtime_xor]
  ac_rfl

theorem mul11_xor (a b : Byte) : mul11 (xorByte a b) = xorByte (mul11 a) (mul11 b) := by
  simp only [mul11, xtime_xor]
  ac_rfl

theorem mul13_xor (a b : Byte) : mul13 (xorByte a b) = xorByte (mul13 a) (mul13 b) := by
  simp only [mul13, xtime_xor]
  ac_rfl

theorem mul14_xor (a b : Byte) : mul14 (xorByte a b) = xorByte (mul14 a) (mul14 b) := by
  simp only [mul14, xtime_xor]
  ac_rfl

theorem mixColumn_xor (a b c d a' b' c' d' : Byte) :
    mixColumn (xorByte a a') (xorByte b b') (xorByte c c') (xorByte d d') =
      xorBytes (mixColumn a b c d) (mixColumn a' b' c' d') := by
  simp only [mixColumn, xorBytes, List.zipWith_cons_cons, List.zipWith_nil_left, mul2_xor,
    mul3_xor, List.cons.injEq, and_true]
  refine ⟨?_, ?_, ?_, ?_⟩ <;> ac_rfl

theorem invMixColumn_xor (a b c d a' b' c' d' : Byte) :
    invMixColumn (xorByte a a') (xorByte b b') (xorByte c c') (xorByte d d') =
      xorBytes (invMixColumn a b c d) (invMixColumn a' b' c' d') := by
  simp only [invMixColumn, xorBytes, List.zipWith_cons_cons, List.zipWith_nil_left, mul9_xor,
    mul11_xor, mul13_xor, mul14_xor, List.cons.injEq, and_true]
  refine ⟨?_, ?_, ?_, ?_⟩ <;> ac_rfl

theorem mixThenInv_xor (a b c d a' b' c' d' : Byte) :
    mixThenInv (xorByte a a') (xorByte b b') (xorByte c c') (xorByte d d') =
      xorBytes (mixThenInv a b c d) (mixThenInv a' b' c' d') := by
  simp only [mixThenInv, mixColumn_xor]
  simp only [mixColumn, xorBytes, List.zipWith_cons_cons, List.zipWith_nil_left]
  exact invMixColumn_xor _ _ _ _ _ _ _ _

theorem mixThenInv_first (a : Byte) : mixThenInv a 0 0 0 = [a, 0, 0, 0] := by
  have h : ∀ n (h : n < 256), mixThenInv ⟨n, h⟩ 0 0 0 = [⟨n, h⟩, 0, 0, 0] := by decide!
  exact h a.val a.isLt

theorem mixThenInv_second (a : Byte) : mixThenInv 0 a 0 0 = [0, a, 0, 0] := by
  have h : ∀ n (h : n < 256), mixThenInv 0 ⟨n, h⟩ 0 0 = [0, ⟨n, h⟩, 0, 0] := by decide!
  exact h a.val a.isLt

theorem mixThenInv_third (a : Byte) : mixThenInv 0 0 a 0 = [0, 0, a, 0] := by
  have h : ∀ n (h : n < 256), mixThenInv 0 0 ⟨n, h⟩ 0 = [0, 0, ⟨n, h⟩, 0] := by decide!
  exact h a.val a.isLt

theorem mixThenInv_fourth (a : Byte) : mixThenInv 0 0 0 a = [0, 0, 0, a] := by
  have h : ∀ n (h : n < 256), mixThenInv 0 0 0 ⟨n, h⟩ = [0, 0, 0, ⟨n, h⟩] := by decide!
  exact h a.val a.isLt

theorem mixThenInv_eq (a b c d : Byte) : mixThenInv a b c d = [a, b, c, d] := by
  have split : mixThenInv a b c d =
      mixThenInv (xorByte (xorByte a 0) (xorByte 0 0)) (xorByte (xorByte 0 b) (xorByte 0 0))
        (xorByte (xorByte 0 0) (xorByte c 0)) (xorByte (xorByte 0 0) (xorByte 0 d)) := by
    simp only [xorByte_zero, zero_xorByte]
  rw [split, mixThenInv_xor, mixThenInv_xor, mixThenInv_xor, mixThenInv_first,
    mixThenInv_second, mixThenInv_third, mixThenInv_fourth]
  simp only [xorBytes, List.zipWith_cons_cons, List.zipWith_nil_left, xorByte_zero, zero_xorByte]

theorem invMixColumns_mixColumns : ∀ s : Bytes, invMixColumns (mixColumns s) = s
  | [] => rfl
  | [_] => rfl
  | [_, _] => rfl
  | [_, _, _] => rfl
  | a :: b :: c :: d :: rest => by
    have h := mixThenInv_eq a b c d
    simp only [mixThenInv, mixColumn] at h
    simp only [mixColumns, mixColumn, List.cons_append, List.nil_append, invMixColumns, h,
      List.append_eq, invMixColumns_mixColumns rest]

theorem mixColumns_length : ∀ s : Bytes, (mixColumns s).length = s.length
  | [] => rfl
  | [_] => rfl
  | [_, _] => rfl
  | [_, _, _] => rfl
  | a :: b :: c :: d :: rest => by
    simp [mixColumns, mixColumn, mixColumns_length rest]

theorem invSubBytes_subBytes (s : Bytes) : invSubBytes (subBytes s) = s := by
  simp [invSubBytes, subBytes, Function.comp_def, invSubByte_subByte]

/-- A list of sixteen elements, spelled out. -/
theorem exists_sixteen {α : Type} (s : List α) (h : s.length = 16) :
    ∃ a0 a1 a2 a3 a4 a5 a6 a7 a8 a9 a10 a11 a12 a13 a14 a15,
      s = [a0, a1, a2, a3, a4, a5, a6, a7, a8, a9, a10, a11, a12, a13, a14, a15] := by
  match s, h with
  | [a0, a1, a2, a3, a4, a5, a6, a7, a8, a9, a10, a11, a12, a13, a14, a15], _ =>
    exact ⟨a0, a1, a2, a3, a4, a5, a6, a7, a8, a9, a10, a11, a12, a13, a14, a15, rfl⟩

theorem invShiftRows_shiftRows (s : Bytes) (h : s.length = 16) :
    invShiftRows (shiftRows s) = s := by
  obtain ⟨a0, a1, a2, a3, a4, a5, a6, a7, a8, a9, a10, a11, a12, a13, a14, a15, rfl⟩ :=
    exists_sixteen s h
  rfl

theorem shiftRows_length (s : Bytes) (h : s.length = 16) : (shiftRows s).length = 16 := by
  obtain ⟨a0, a1, a2, a3, a4, a5, a6, a7, a8, a9, a10, a11, a12, a13, a14, a15, rfl⟩ :=
    exists_sixteen s h
  rfl

theorem nextRoundKey_length (rc : Byte) (k : Bytes) (h : k.length = 16) :
    (nextRoundKey rc k).length = 16 := by
  obtain ⟨a0, a1, a2, a3, a4, a5, a6, a7, a8, a9, a10, a11, a12, a13, a14, a15, rfl⟩ :=
    exists_sixteen k h
  rfl

theorem expandFrom_length (k : Bytes) (h : k.length = 16) (rcs : List Byte) :
    ∀ r ∈ expandFrom k rcs, r.length = 16 := by
  induction rcs generalizing k with
  | nil => simp [expandFrom]
  | cons rc rcs ih =>
    intro r hr
    simp only [expandFrom, List.mem_cons] at hr
    rcases hr with rfl | hr
    · exact nextRoundKey_length rc k h
    · exact ih _ (nextRoundKey_length rc k h) r hr

theorem keyExpansion_length (key : Bytes) (h : key.length = 16) :
    ∀ r ∈ keyExpansion key, r.length = 16 := by
  intro r hr
  simp only [keyExpansion, List.mem_cons] at hr
  rcases hr with rfl | hr
  · exact h
  · exact expandFrom_length key h rcon r hr

theorem addRoundKey_length (s k : Bytes) (hs : s.length = 16) (hk : k.length = 16) :
    (addRoundKey s k).length = 16 := by
  simp [addRoundKey, xorBytes_length, hs, hk]

theorem addRoundKey_cancel (s k : Bytes) (hs : s.length = 16) (hk : k.length = 16) :
    addRoundKey (addRoundKey s k) k = s :=
  xorBytes_cancel_right s k (by omega)

theorem subBytes_length (s : Bytes) : (subBytes s).length = s.length := by
  simp [subBytes]

theorem rounds_length : ∀ (ks : List Bytes) (s : Bytes), s.length = 16 →
    (∀ k ∈ ks, k.length = 16) → (rounds s ks).length = 16
  | [], s, hs, _ => hs
  | [k], s, hs, hk => by
    simp only [rounds]
    exact addRoundKey_length _ _ (shiftRows_length _ (by simpa [subBytes_length] using hs))
      (hk k (by simp))
  | k :: k' :: ks, s, hs, hk => by
    simp only [rounds]
    apply rounds_length (k' :: ks)
    · apply addRoundKey_length _ _ _ (hk k (by simp))
      rw [mixColumns_length]
      exact shiftRows_length _ (by simpa [subBytes_length] using hs)
    · intro r hr
      exact hk r (List.mem_cons_of_mem _ hr)

theorem invRounds_rounds : ∀ (ks : List Bytes) (s : Bytes), s.length = 16 →
    (∀ k ∈ ks, k.length = 16) → invRounds (rounds s ks) ks = s
  | [], s, _, _ => rfl
  | [k], s, hs, hk => by
    have h1 : (subBytes s).length = 16 := by simpa [subBytes_length] using hs
    simp only [rounds, invRounds]
    rw [addRoundKey_cancel _ _ (shiftRows_length _ h1) (hk k (by simp)),
      invShiftRows_shiftRows _ h1, invSubBytes_subBytes]
  | k :: k' :: ks, s, hs, hk => by
    have h1 : (subBytes s).length = 16 := by simpa [subBytes_length] using hs
    have h2 : (mixColumns (shiftRows (subBytes s))).length = 16 := by
      rw [mixColumns_length]
      exact shiftRows_length _ h1
    simp only [rounds, invRounds]
    rw [invRounds_rounds (k' :: ks) _ (addRoundKey_length _ _ h2 (hk k (by simp)))
      (fun r hr => hk r (List.mem_cons_of_mem _ hr)),
      addRoundKey_cancel _ _ h2 (hk k (by simp)), invMixColumns_mixColumns,
      invShiftRows_shiftRows _ h1, invSubBytes_subBytes]

theorem encryptBlock_length (key block : Bytes) (hk : key.length = 16)
    (hb : block.length = 16) : (encryptBlock (keyExpansion key) block).length = 16 := by
  have hks := keyExpansion_length key hk
  simp only [keyExpansion] at hks ⊢
  simp only [encryptBlock]
  exact rounds_length _ _ (addRoundKey_length _ _ hb hk)
    (fun r hr => hks r (List.mem_cons_of_mem _ hr))

/-- The function `InvCipher` undoes `Cipher` under the same 16-byte key. -/
theorem decryptBlock_encryptBlock (key block : Bytes) (hk : key.length = 16)
    (hb : block.length = 16) :
    decryptBlock (keyExpansion key) (encryptBlock (keyExpansion key) block) = block := by
  have hks := keyExpansion_length key hk
  simp only [keyExpansion] at hks ⊢
  simp only [encryptBlock, decryptBlock]
  rw [invRounds_rounds _ _ (addRoundKey_length _ _ hb hk)
    (fun r hr => hks r (List.mem_cons_of_mem _ hr)), addRoundKey_cancel _ _ hb hk]

/-- FIPS 197, appendix C.1: the AES-128 example vector. -/
theorem encryptBlock_fips197 :
    encryptBlock (keyExpansion [0x00, 0x01, 0x02, 0x03, 0x04, 0x05, 0x06, 0x07,
        0x08, 0x09, 0x0a, 0x0b, 0x0c, 0x0d, 0x0e, 0x0f])
      [0x00, 0x11, 0x22, 0x33, 0x44, 0x55, 0x66, 0x77,
        0x88, 0x99, 0xaa, 0xbb, 0xcc, 0xdd, 0xee, 0xff] =
      [0x69, 0xc4, 0xe0, 0xd8, 0x6a, 0x7b, 0x04, 0x30,
        0xd8, 0xcd, 0xb7, 0x80, 0x70, 0xb4, 0xc5, 0x5a] := by
  decide!

end AES

namespace Crypto

/-! ## `aes.go`: padding and the CBC round trip -/

theorem take_append_of_length {α : Type} (c rest : List α) (n : Nat) (h : c.length = n) :
    (c ++ rest).take n = c := by
  subst h
  simp

theorem drop_append_of_length {α : Type} (c rest : List α) (n : Nat) (h : c.length = n) :
    (c ++ rest).drop n = rest := by
  subst h
  simp

theorem cbcEncrypt_length (key : Bytes) (hk : key.length = 16) :
    ∀ (n : Nat) (iv src : Bytes), iv.length = 16 → src.length = 16 * n →
      (cbcEncrypt (AES.keyExpansion key) n iv src).length = 16 * n
  | 0, _, _, _, _ => rfl
  | n + 1, iv, src, hiv, hsrc => by
    have ht : (src.take 16).length = 16 := by
      rw [List.length_take]; omega
    have hd : (src.drop 16).length = 16 * n := by
      rw [List.length_drop]; omega
    have hx : (xorBytes (src.take 16) iv).length = 16 := by
      rw [xorBytes_length, ht, hiv]; rfl
    have hc := AES.encryptBlock_length key _ hk hx
    simp only [cbcEncrypt, blockSize, List.length_append, hc]
    rw [cbcEncrypt_length key hk n _ _ hc hd]
    omega

theorem cbcDecrypt_cbcEncrypt (key : Bytes) (hk : key.length = 16) :
    ∀ (n : Nat) (iv src : Bytes), iv.length = 16 → src.length = 16 * n →
      cbcDecrypt (AES.keyExpansion key) n iv (cbcEncrypt (AES.keyExpansion key) n iv src) = src
  | 0, _, src, _, hsrc => by
    simp only [cbcEncrypt, cbcDecrypt]
    exact (List.length_eq_zero.mp (by simpa using hsrc)).symm
  | n + 1, iv, src, hiv, hsrc => by
    have ht : (src.take 16).length = 16 := by
      rw [List.length_take]; omega
    have hd : (src.drop 16).length = 16 * n := by
      rw [List.length_drop]; omega
    have hx : (xorBytes (src.take 16) iv).length = 16 := by
      rw [xorBytes_length, ht, hiv]; rfl
    have hc := AES.encryptBlock_length key _ hk hx
    simp only [cbcEncrypt, cbcDecrypt, blockSize]
    rw [take_append_of_length _ _ 16 hc, drop_append_of_length _ _ 16 hc,
      AES.decryptBlock_encryptBlock key _ hk hx, xorBytes_cancel_right _ _ (by omega),
      cbcDecrypt_cbcEncrypt key hk n _ _ hc hd]
    exact List.take_append_drop _ _

theorem pkcs7Pad_length (data : Bytes) :
    (pkcs7Pad data 16).length = 16 * (data.length / 16 + 1) := by
  simp only [pkcs7Pad, List.length_append, List.length_replicate]
  omega

theorem getD_append_replicate (data : Bytes) (p i : Nat) (b : Byte)
    (h1 : data.length ≤ i) (h2 : i < data.length + p) :
    (data ++ List.replicate p b).getD i 0 = b := by
  rw [List.getD_eq_getElem?_getD, List.getElem?_append_right h1, List.getElem?_replicate,
    if_pos (by omega)]
  rfl

theorem pkcs7Unpad_pkcs7Pad (data : Bytes) : pkcs7Unpad (pkcs7Pad data 16) = .ok data := by
  have hp1 : 1 ≤ 16 - data.length % 16 := by omega
  have hp2 : 16 - data.length % 16 ≤ 16 := by omega
  generalize hp : 16 - data.length % 16 = p at hp1 hp2
  have hval : ((Fin.ofNat p : Byte)).val = p := by
    show p % 256 = p
    omega
  have hlen : (data ++ List.replicate p (Fin.ofNat p : Byte)).length = data.length + p := by
    simp
  have hlast : (data ++ List.replicate p (Fin.ofNat p : Byte)).getD (data.length + p - 1) 0 =
      (Fin.ofNat p : Byte) :=
    getD_append_replicate data p _ _ (by omega) (by omega)
  simp only [pkcs7Unpad, pkcs7Pad, hp, hlen, hlast, hval]
  rw [if_neg (by omega), if_neg (by omega), if_pos]
  · simp
  · rw [List.all_eq_true]
    intro i hi
    rw [List.mem_range'_1] at hi
    rw [getD_append_replicate data p _ _ (by omega) (by omega)]
    simp

end Crypto

/-- Encryption succeeds under a 16-byte key and iv, and decryption undoes it. -/
theorem Crypto.AESDecrypt_AESEncrypt (pt key iv : Bytes) (hk : key.length = 16)
    (hiv : iv.length = 16) :
    ∃ ct, Crypto.AESEncrypt pt key iv = .ok ct ∧ Crypto.AESDecrypt ct key iv = .ok pt := by
  have hpad := Crypto.pkcs7Pad_length pt
  have hn : (Crypto.pkcs7Pad pt 16).length / 16 = pt.length / 16 + 1 := by omega
  have hct := Crypto.cbcEncrypt_length key hk (pt.length / 16 + 1) iv _ hiv hpad
  refine ⟨Crypto.cbcEncrypt (AES.keyExpansion key) (pt.length / 16 + 1) iv
    (Crypto.pkcs7Pad pt 16), ?_, ?_⟩
  · simp [Crypto.AESEncrypt, Crypto.newCipher, Crypto.blockSize, hk, hiv, hn]
  · have hdiv : 16 * (pt.length / 16 + 1) / 16 = pt.length / 16 + 1 := by omega
    simp [Crypto.AESDecrypt, Crypto.newCipher, Crypto.blockSize, hk, hiv, hct, hdiv,
      Crypto.cbcDecrypt_cbcEncrypt key hk _ iv _ hiv hpad, Crypto.pkcs7Unpad_pkcs7Pad]

/-- Claim C1: for every byte sequence `pt` (empty and block-aligned ones included) and every
16-byte `key` and `iv`, `AESEncrypt` succeeds with some ciphertext `ct`, and `AESDecrypt` of
`ct` under the same key and iv succeeds and returns exactly `pt`. -/
theorem C1_AESDecrypt_AESEncrypt (pt key iv : Bytes) (hk : key.length = 16)
    (hiv : iv.length = 16) :
    ∃ ct, Crypto.AESEncrypt pt key iv = .ok ct ∧ Crypto.AESDecrypt ct key iv = .ok pt :=
  Crypto.AESDecrypt_AESEncrypt pt key iv hk hiv

/-- The ciphertext of `TestAESEncryptDecrypt`, as OpenSSL computes it for the same key and
iv. -/
theorem Crypto.AESEncrypt_test_vector :
    Crypto.AESEncrypt (str "Hello, Tapo Camera!") (str "1234567890123456")
        (str "abcdefghijklmnop") =
      .ok [107, 244, 78, 128, 191, 222, 61, 24, 252, 230, 230, 113, 228, 112, 45, 87,
        146, 215, 156, 66, 80, 65, 52, 169, 76, 144, 139, 98, 252, 73, 251, 44] := by
  decide!

/-- Instance of C1: the 19-byte plaintext, key and iv of `TestAESEncryptDecrypt`. -/
theorem C1_AESDecrypt_AESEncrypt_witness :
    ∃ ct, Crypto.AESEncrypt
        [72, 101, 108, 108, 111, 44, 32, 84, 97, 112, 111, 32, 67, 97, 109, 101, 114, 97, 33]
        [49, 50, 51, 52, 53, 54, 55, 56, 57, 48, 49, 50, 51, 52, 53, 54]
        [97, 98, 99, 100, 101, 102, 103, 104, 105, 106, 107, 108, 109, 110, 111, 112] = .ok ct ∧
      Crypto.AESDecrypt ct
        [49, 50, 51, 52, 53, 54, 55, 56, 57, 48, 49, 50, 51, 52, 53, 54]
        [97, 98, 99, 100, 101, 102, 103, 104, 105, 106, 107, 108, 109, 110, 111, 112] =
        .ok [72, 101, 108, 108, 111, 44, 32, 84, 97, 112, 111, 32, 67, 97, 109, 101, 114, 97, 33] :=
  C1_AESDecrypt_AESEncrypt _ _ _ rfl rfl

/-! ## `hash.go` -/

theorem SHA256.sum256_length (data : Bytes) : (SHA256.sum256 data).length = 32 := rfl

theorem Crypto.SHA256HashBytes_length (data : Str) : (Crypto.SHA256HashBytes data).length = 32 :=
  rfl

/-- FIPS 180-4 example: the SHA-256 digest of `"abc"`. -/
theorem Crypto.SHA256Hash_abc :
    Crypto.SHA256Hash (str "abc") =
      str "BA7816BF8F01CFEA414140DE5DAE2223B00361A396177A9CB410FF61F20015AD" := by
  decide!

/-- RFC 1321 example: the MD5 digest of `"abc"`. -/
theorem Crypto.MD5Hash_abc :
    Crypto.MD5Hash (str "abc") = str "900150983CD24FB0D6963F7D28E17F72" := by
  decide!

/-! ## `client.go`: device validation and key derivation -/

/-- Claim C2: `validateDeviceConfirm(hashedPass, confirm)` is true exactly when `confirm` is
`SHA256Hash(cnonce + hashedPass + nonce) + nonce + cnonce` for the client's current `cnonce`
and `nonce`. The method assigns no field: it yields the answer only. -/
theorem C2_validateDeviceConfirm_iff (c : Client) (hashedPass confirm : Str) :
    validateDeviceConfirm c hashedPass confirm = true ↔
      confirm = Crypto.SHA256Hash (c.cnonce ++ hashedPass ++ c.nonce) ++ c.nonce ++ c.cnonce := by
  simp [validateDeviceConfirm]

/-- Claim C3: `generateEncryptionKeys` sets `lsk` and `ivb` to the first 16 bytes of
`SHA256HashBytes("lsk" + cnonce + nonce + hashedKey)` and
`SHA256HashBytes("ivb" + cnonce + nonce + hashedKey)` with
`hashedKey = SHA256Hash(cnonce + hashedPass + nonce)`; both are exactly 16 bytes long, every
other field keeps its value, and two clients that agree on `cnonce`, `nonce` and `hashedPass`
get the same keys. -/
theorem C3_generateEncryptionKeys (c : Client) :
    (generateEncryptionKeys c).lsk =
        (Crypto.SHA256HashBytes (str "lsk" ++ c.cnonce ++ c.nonce ++
          Crypto.SHA256Hash (c.cnonce ++ c.hashedPass ++ c.nonce))).take 16 ∧
      (generateEncryptionKeys c).ivb =
        (Crypto.SHA256HashBytes (str "ivb" ++ c.cnonce ++ c.nonce ++
          Crypto.SHA256Hash (c.cnonce ++ c.hashedPass ++ c.nonce))).take 16 ∧
      (generateEncryptionKeys c).lsk.length = 16 ∧
      (generateEncryptionKeys c).ivb.length = 16 ∧
      generateEncryptionKeys c =
        { c with lsk := (generateEncryptionKeys c).lsk, ivb := (generateEncryptionKeys c).ivb } ∧
      ∀ c2 : Client, c2.cnonce = c.cnonce → c2.nonce = c.nonce → c2.hashedPass = c.hashedPass →
        (generateEncryptionKeys c2).lsk = (generateEncryptionKeys c).lsk ∧
          (generateEncryptionKeys c2).ivb = (generateEncryptionKeys c).ivb := by
  refine ⟨rfl, rfl, ?_, ?_, rfl, ?_⟩
  · simp [generateEncryptionKeys, Crypto.SHA256HashBytes_length]
  · simp [generateEncryptionKeys, Crypto.SHA256HashBytes_length]
  · intro c2 h1 h2 h3
    simp [generateEncryptionKeys, h1, h2, h3]

/-- Instance of C3: the client of `TestClient_generateEncryptionKeys` and a client for another
host with the same nonces and password hash derive the same keys. -/
theorem C3_generateEncryptionKeys_witness :
    (generateEncryptionKeys
        { NewClient (str "10.0.0.7") (str "root") (str "secret") with
          cnonce := str "ABCD1234", nonce := str "server_nonce",
          hashedPass := Crypto.SHA256Hash (str "password") }).lsk =
      (generateEncryptionKeys
        { NewClient (str "192.168.1.100") (str "admin") (str "password") with
          cnonce := str "ABCD1234", nonce := str "server_nonce",
          hashedPass := Crypto.SHA256Hash (str "password") }).lsk ∧
    (generateEncryptionKeys
        { NewClient (str "10.0.0.7") (str "root") (str "secret") with
          cnonce := str "ABCD1234", nonce := str "server_nonce",
          hashedPass := Crypto.SHA256Hash (str "password") }).ivb =
      (generateEncryptionKeys
        { NewClient (str "192.168.1.100") (str "admin") (str "password") with
          cnonce := str "ABCD1234", nonce := str "server_nonce",
          hashedPass := Crypto.SHA256Hash (str "password") }).ivb :=
  (C3_generateEncryptionKeys _).2.2.2.2.2 _ rfl rfl rfl

/-! ## `client.go`: the secure handshake -/

/-- Phase 3 touches the token and the sequence counter only. -/
theorem securePhase3_client (L : GoLib) (c : Client) (w : World) (hashedPass : Str)
    (loginResp : LoginResponse) :
    ∃ stok seq, (securePhase3 L c w hashedPass loginResp).2.1 = { c with stok := stok, seq := seq } := by
  unfold securePhase3
  split
  · exact ⟨c.stok, c.seq, rfl⟩
  · split
    · exact ⟨c.stok, c.seq, rfl⟩
    · split
      · exact ⟨c.stok, c.seq, rfl⟩
      · exact ⟨_, _, rfl⟩

theorem securePhase3_hashedPass (L : GoLib) (c : Client) (w : World) (hashedPass : Str)
    (loginResp : LoginResponse) :
    (securePhase3 L c w hashedPass loginResp).2.1.hashedPass = c.hashedPass := by
  obtain ⟨stok, seq, h⟩ := securePhase3_client L c w hashedPass loginResp
  rw [h]

theorem makeRawRequest_sent (L : GoLib) (c : Client) (w w1 : World) (req : LoginRequest)
    (resp : Bytes) (h : makeRawRequest L c w req = (.ok resp, w1)) :
    ∃ body, L.marshalLogin req = .ok body ∧
      w1.sent = w.sent ++ [newPost c (getBaseURL c) body] := by
  unfold makeRawRequest at h
  split at h
  · simp at h
  · rename_i jsonData hm
    split at h
    · simp at h
    · split at h
      · simp at h
      · simp at h
      · rename_i body w2 hs
        refine ⟨jsonData, hm, ?_⟩
        simp only [Prod.mk.injEq] at h
        obtain ⟨-, rfl⟩ := h
        unfold World.send at hs
        split at hs
        · simp at hs
        · simp only [Prod.mk.injEq] at hs
          rw [← hs.2]

theorem GenerateCnonce_sent (w : World) : (Crypto.GenerateCnonce w).2.sent = w.sent := by
  unfold Crypto.GenerateCnonce World.randRead
  cases w.entropy with
  | nil => rfl
  | cons r rest => cases r with
    | none => rfl
    | some b => rfl

/-- Claim C4: in `secureAuthenticate`, after a successful phase 1 with `device_confirm` value
`dc`, the password hashes are tried in the order SHA256, MD5 against
`validateDeviceConfirm(., dc)`: `hashedPass` becomes the SHA256 hash when that one matches
(whether or not MD5 matches too), the MD5 hash when only that one matches, and when neither
matches the call fails with the `TapoError` of code -40411 and message "device validation
failed - check password", only the phase 1 request has been sent, and the token, the keys and
`hashedPass` are as before the call. -/
theorem C4_secure_phase2_order (L : GoLib) (c : Client) (w w0 w1 : World) (cnonce : Str)
    (resp : Bytes) (loginResp : LoginResponse) (data : LoginData)
    (hcn : Crypto.GenerateCnonce w = (cnonce, w0))
    (hraw : makeRawRequest L { c with cnonce := cnonce } w0
      (phase1Request { c with cnonce := cnonce }) = (.ok resp, w1))
    (hparse : L.unmarshalLogin resp {} = .ok loginResp)
    (hcode : loginResp.ErrorCode = 0) (hdata : loginResp.Result.Data = some data) :
    (validateDeviceConfirm { c with cnonce := cnonce, nonce := data.Nonce }
        (Crypto.SHA256Hash c.Password) data.DeviceConfirm = true →
      (secureAuthenticate L c w).2.1.hashedPass = Crypto.SHA256Hash c.Password) ∧
    (validateDeviceConfirm { c with cnonce := cnonce, nonce := data.Nonce }
        (Crypto.SHA256Hash c.Password) data.DeviceConfirm = false →
      validateDeviceConfirm { c with cnonce := cnonce, nonce := data.Nonce }
        (Crypto.MD5Hash c.Password) data.DeviceConfirm = true →
      (secureAuthenticate L c w).2.1.hashedPass = Crypto.MD5Hash c.Password) ∧
    (validateDeviceConfirm { c with cnonce := cnonce, nonce := data.Nonce }
        (Crypto.SHA256Hash c.Password) data.DeviceConfirm = false →
      validateDeviceConfirm { c with cnonce := cnonce, nonce := data.Nonce }
        (Crypto.MD5Hash c.Password) data.DeviceConfirm = false →
      secureAuthenticate L c w =
          (some (.tapo (-40411) "device validation failed - check password"),
            { c with cnonce := cnonce, nonce := data.Nonce }, w1) ∧
        ∃ body, L.marshalLogin (phase1Request { c with cnonce := cnonce }) = .ok body ∧
          w1.sent = w.sent ++ [newPost c (getBaseURL c) body]) := by
  have hauth : secureAuthenticate L c w =
      securePhase2 L { c with cnonce := cnonce, nonce := data.Nonce } w1 loginResp
        data.DeviceConfirm := by
    simp only [secureAuthenticate, hcn, hraw, hparse, hdata, hcode, ne_eq, not_true_eq_false,
      if_false]
  refine ⟨?_, ?_, ?_⟩
  · intro hsha
    rw [hauth]
    simp only [securePhase2, hsha, if_true]
    rw [securePhase3_hashedPass]
    rfl
  · intro hsha hmd5
    rw [hauth]
    simp only [securePhase2, hsha, hmd5, if_true, Bool.false_eq_true, if_false]
    rw [securePhase3_hashedPass]
    rfl
  · intro hsha hmd5
    refine ⟨?_, ?_⟩
    · rw [hauth]
      simp only [securePhase2, hsha, hmd5, Bool.false_eq_true, if_false]
      rfl
    · obtain ⟨body, hb, hs⟩ := makeRawRequest_sent L _ w0 w1 _ resp hraw
      refine ⟨body, hb, ?_⟩
      have h0 : w0.sent = w.sent := by
        have := GenerateCnonce_sent w
        rw [hcn] at this
        exact this
      rw [hs, h0]
      rfl

/-- Instance of C4: the example camera confirms the SHA256 hash of the password. -/
theorem C4_secure_phase2_order_witness :
    (secureAuthenticate exampleLib exampleClient
        { entropy := [some (0xAB, 0xCD, 0x12, 0x34)], replies := [.body phase1Body, .body loginOkBody],
          sent := [] }).2.1.hashedPass = Crypto.SHA256Hash (str "password") :=
  (C4_secure_phase2_order exampleLib exampleClient
    { entropy := [some (0xAB, 0xCD, 0x12, 0x34)], replies := [.body phase1Body, .body loginOkBody],
      sent := [] }
    { entropy := [], replies := [.body phase1Body, .body loginOkBody], sent := [] }
    { entropy := [], replies := [.body loginOkBody],
      sent := [newPost exampleClient (getBaseURL exampleClient)
        (renderLogin (phase1Request { exampleClient with cnonce := str "ABCD1234" }))] }
    (str "ABCD1234") phase1Body
    { ErrorCode := 0,
      Result := { Data := some { Nonce := str "server_nonce", DeviceConfirm := exampleConfirm } } }
    { Nonce := str "server_nonce", DeviceConfirm := exampleConfirm }
    (by decide!) (by decide!) (by decide!) rfl rfl).1 (by decide!)

/-! ## `client.go`: what each step may change -/

theorem generateEncryptionKeys_lengths (c : Client) :
    (generateEncryptionKeys c).lsk.length = 16 ∧ (generateEncryptionKeys c).ivb.length = 16 := by
  simp [generateEncryptionKeys, Crypto.SHA256HashBytes_length]

/-- A failing phase 3 changes nothing; a successful one stores the token and the sequence
number of the response. -/
theorem securePhase3_cases (L : GoLib) (c : Client) (w : World) (hashedPass : Str)
    (loginResp : LoginResponse) :
    (∃ err, (securePhase3 L c w hashedPass loginResp).1 = some err ∧
        (securePhase3 L c w hashedPass loginResp).2.1 = c) ∨
      (∃ stok seq, (securePhase3 L c w hashedPass loginResp).1 = none ∧
        (securePhase3 L c w hashedPass loginResp).2.1 = { c with stok := stok, seq := seq }) := by
  unfold securePhase3
  split
  · exact Or.inl ⟨_, rfl, rfl⟩
  · split
    · exact Or.inl ⟨_, rfl, rfl⟩
    · split
      · exact Or.inl ⟨_, rfl, rfl⟩
      · exact Or.inr ⟨_, _, rfl, rfl⟩

/-- Phase 2 either fails the validation and changes nothing, or fixes `hashedPass`, derives
the keys and runs phase 3. -/
theorem securePhase2_cases (L : GoLib) (c : Client) (w : World) (loginResp : LoginResponse)
    (deviceConfirm : Str) :
    ((securePhase2 L c w loginResp deviceConfirm).1 =
          some (.tapo (-40411) "device validation failed - check password") ∧
        (securePhase2 L c w loginResp deviceConfirm).2.1 = c) ∨
      (∃ hashedPass, securePhase2 L c w loginResp deviceConfirm =
        securePhase3 L (generateEncryptionKeys { c with hashedPass := hashedPass }) w hashedPass
          loginResp) := by
  simp only [securePhase2]
  split
  · exact Or.inr ⟨_, rfl⟩
  · split
    · exact Or.inr ⟨_, rfl⟩
    · exact Or.inl ⟨rfl, rfl⟩

/-- The outcome of `secureAuthenticate`: the generated client nonce always stays; a failure
up to the validation changes nothing else but the server nonce; past the validation the keys
are 16 bytes long, and only a success stores a token and a sequence number. -/
theorem secureAuthenticate_cases (L : GoLib) (c : Client) (w : World) :
    (∃ err nonce, (secureAuthenticate L c w).1 = some err ∧
        (secureAuthenticate L c w).2.1 =
          { c with cnonce := (Crypto.GenerateCnonce w).1, nonce := nonce }) ∨
      (∃ err nonce hashedPass lsk ivb, (secureAuthenticate L c w).1 = some err ∧
        lsk.length = 16 ∧ ivb.length = 16 ∧
        (secureAuthenticate L c w).2.1 =
          { c with cnonce := (Crypto.GenerateCnonce w).1, nonce := nonce,
                   hashedPass := hashedPass, lsk := lsk, ivb := ivb }) ∨
      (∃ nonce hashedPass lsk ivb stok seq, (secureAuthenticate L c w).1 = none ∧
        lsk.length = 16 ∧ ivb.length = 16 ∧
        (secureAuthenticate L c w).2.1 =
          { c with cnonce := (Crypto.GenerateCnonce w).1, nonce := nonce,
                   hashedPass := hashedPass, lsk := lsk, ivb := ivb, stok := stok,
                   seq := seq }) := by
  rcases hcn : Crypto.GenerateCnonce w with ⟨cnonce, w0⟩
  rcases hraw : makeRawRequest L { c with cnonce := cnonce } w0
    (phase1Request { c with cnonce := cnonce }) with ⟨r, w1⟩
  cases r with
  | error err =>
    simp only [secureAuthenticate, hcn, hraw]
    exact Or.inl ⟨_, c.nonce, rfl, rfl⟩
  | ok resp =>
    cases hparse : L.unmarshalLogin resp {} with
    | error err =>
      simp only [secureAuthenticate, hcn, hraw, hparse]
      exact Or.inl ⟨_, c.nonce, rfl, rfl⟩
    | ok loginResp =>
      cases hdata : loginResp.Result.Data with
      | none =>
        simp only [secureAuthenticate, hcn, hraw, hparse, hdata]
        exact Or.inl ⟨_, c.nonce, rfl, rfl⟩
      | some data =>
        by_cases hcode : loginResp.ErrorCode = 0
        · have hauth : secureAuthenticate L c w =
              securePhase2 L { c with cnonce := cnonce, nonce := data.Nonce } w1 loginResp
                data.DeviceConfirm := by
            simp only [secureAuthenticate, hcn, hraw, hparse, hdata, hcode, ne_eq,
              not_true_eq_false, if_false]
          rw [hauth]
          rcases securePhase2_cases L { c with cnonce := cnonce, nonce := data.Nonce } w1
            loginResp data.DeviceConfirm with ⟨h1, h2⟩ | ⟨hashedPass, h⟩
          · exact Or.inl ⟨_, data.Nonce, h1, h2⟩
          · rw [h]
            have hk := generateEncryptionKeys_lengths
              { c with cnonce := cnonce, nonce := data.Nonce, hashedPass := hashedPass }
            rcases securePhase3_cases L
              (generateEncryptionKeys
                { c with cnonce := cnonce, nonce := data.Nonce, hashedPass := hashedPass })
              w1 hashedPass loginResp with ⟨err, h1, h2⟩ | ⟨stok, seq, h1, h2⟩
            · exact Or.inr (Or.inl ⟨err, data.Nonce, hashedPass, _, _, h1, hk.1, hk.2,
                by rw [h2]; rfl⟩)
            · exact Or.inr (Or.inr ⟨data.Nonce, hashedPass, _, _, stok, seq, h1, hk.1,
                hk.2, by rw [h2]; rfl⟩)
        · simp only [secureAuthenticate, hcn, hraw, hparse, hdata, ne_eq, hcode,
            not_false_eq_true, if_true]
          exact Or.inl ⟨_, c.nonce, rfl, rfl⟩

/-- A failing `legacyAuthenticate` changes nothing; a successful one stores the token and
the MD5 hash of the password. -/
theorem legacyAuthenticate_cases (L : GoLib) (c : Client) (w : World) :
    (∃ err, (legacyAuthenticate L c w).1 = some err ∧ (legacyAuthenticate L c w).2.1 = c) ∨
      (∃ stok, (legacyAuthenticate L c w).1 = none ∧
        (legacyAuthenticate L c w).2.1 =
          { c with stok := stok, hashedPass := Crypto.MD5Hash c.Password }) := by
  simp only [legacyAuthenticate]
  split
  · exact Or.inl ⟨_, rfl, rfl⟩
  · split
    · exact Or.inl ⟨_, rfl, rfl⟩
    · split
      · exact Or.inl ⟨_, rfl, rfl⟩
      · exact Or.inr ⟨_, rfl, rfl⟩

theorem secureAuthenticate_isSecure (L : GoLib) (c : Client) (w : World) :
    (secureAuthenticate L c w).2.1.isSecure = c.isSecure := by
  rcases secureAuthenticate_cases L c w with ⟨_, _, _, h⟩ | ⟨_, _, _, _, _, _, _, _, h⟩ |
    ⟨_, _, _, _, _, _, _, _, _, h⟩ <;> rw [h]

theorem legacyAuthenticate_isSecure (L : GoLib) (c : Client) (w : World) :
    (legacyAuthenticate L c w).2.1.isSecure = c.isSecure := by
  rcases legacyAuthenticate_cases L c w with ⟨_, _, h⟩ | ⟨_, _, h⟩ <;> rw [h]

/-- Claim C5: for every detection response that is received and parsed, `detectConnectionType`
answers true exactly when the response's `error_code` is -40413 and its `result.data` is
present with an `encrypt_type` list containing `"3"`, and false otherwise; `Authenticate`
stores this answer in `isSecure`, then runs `secureAuthenticate` when it is true and
`legacyAuthenticate` when it is false, and `isSecure` still holds the answer when it returns. -/
theorem C5_detectConnectionType (L : GoLib) (c : Client) (w w1 : World) (resp : Bytes)
    (loginResp : LoginResponse)
    (hraw : makeRawRequest L c w (detectRequest c) = (.ok resp, w1))
    (hparse : L.unmarshalLogin resp {} = .ok loginResp) :
    ∃ isSecure : Bool, detectConnectionType L c w = (.ok isSecure, w1) ∧
      (isSecure = true ↔ loginResp.ErrorCode = -40413 ∧
        ∃ data, loginResp.Result.Data = some data ∧ str "3" ∈ data.EncryptType) ∧
      Authenticate L c w =
        (if isSecure = true then secureAuthenticate L { c with isSecure := isSecure } w1
         else legacyAuthenticate L { c with isSecure := isSecure } w1) ∧
      (Authenticate L c w).2.1.isSecure = isSecure := by
  have key : ∃ isSecure : Bool, detectConnectionType L c w = (.ok isSecure, w1) ∧
      (isSecure = true ↔ loginResp.ErrorCode = -40413 ∧
        ∃ data, loginResp.Result.Data = some data ∧ str "3" ∈ data.EncryptType) := by
    simp only [detectConnectionType, hraw, hparse, ErrorCodeLoginRequired]
    by_cases hcode : loginResp.ErrorCode = -40413
    · simp only [hcode, if_true, true_and]
      cases hdata : loginResp.Result.Data with
      | none => exact ⟨false, rfl, by simp⟩
      | some data =>
        by_cases h3 : str "3" ∈ data.EncryptType
        · have hpos : data.EncryptType.length > 0 := List.length_pos_of_mem h3
          have hany : data.EncryptType.any (fun t => t == str "3") = true := by
            rw [List.any_eq_true]
            exact ⟨_, h3, by simp⟩
          refine ⟨true, ?_, by simp [h3]⟩
          simp [hpos, hany]
        · have hany : data.EncryptType.any (fun t => t == str "3") = false := by
            rw [Bool.eq_false_iff]
            intro h
            rw [List.any_eq_true] at h
            obtain ⟨t, ht, heq⟩ := h
            have : t = str "3" := by simpa using heq
            exact h3 (this ▸ ht)
          refine ⟨false, ?_, by simp [h3]⟩
          simp [hany]
    · exact ⟨false, by simp [hcode], by simp [hcode]⟩
  obtain ⟨isSecure, hdet, hiff⟩ := key
  refine ⟨isSecure, hdet, hiff, ?_, ?_⟩
  · simp only [Authenticate, hdet]
  · simp only [Authenticate, hdet]
    split
    · rw [secureAuthenticate_isSecure]
    · rw [legacyAuthenticate_isSecure]

/-- Instance of C5: the example camera offers encryption type 3 and is handled in secure
mode. -/
theorem C5_detectConnectionType_witness :
    ∃ isSecure : Bool,
      detectConnectionType exampleLib exampleClient ⟨[], [.body detectSecureBody], []⟩ =
        (.ok isSecure, ⟨[], [], [newPost exampleClient (getBaseURL exampleClient)
          (renderLogin (detectRequest exampleClient))]⟩) ∧
      (isSecure = true ↔ (-40413 : Int) = -40413 ∧
        ∃ data, some ({ EncryptType := [str "3"] } : LoginData) = some data ∧
          str "3" ∈ data.EncryptType) ∧
      Authenticate exampleLib exampleClient ⟨[], [.body detectSecureBody], []⟩ =
        (if isSecure = true then
          secureAuthenticate exampleLib { exampleClient with isSecure := isSecure }
            ⟨[], [], [newPost exampleClient (getBaseURL exampleClient)
              (renderLogin (detectRequest exampleClient))]⟩
         else
          legacyAuthenticate exampleLib { exampleClient with isSecure := isSecure }
            ⟨[], [], [newPost exampleClient (getBaseURL exampleClient)
              (renderLogin (detectRequest exampleClient))]⟩) ∧
      (Authenticate exampleLib exampleClient ⟨[], [.body detectSecureBody], []⟩).2.1.isSecure =
        isSecure :=
  C5_detectConnectionType exampleLib exampleClient ⟨[], [.body detectSecureBody], []⟩
    ⟨[], [], [newPost exampleClient (getBaseURL exampleClient)
      (renderLogin (detectRequest exampleClient))]⟩
    detectSecureBody
    { ErrorCode := -40413, Result := { Data := some { EncryptType := [str "3"] } } }
    (by decide!) (by decide!)

/-! ## `Authenticate`: what a failure leaves behind -/

/-- Counterexample to C6 as stated: a session holding the token `"abc123"` calls
`Authenticate`; the camera offers secure mode and then answers phase 1 with the rate-limit
status. The call fails, the session is still authenticated, and `cnonce` holds the nonce of
the failed attempt instead of its previous (empty) value. -/
theorem C6_counterexample :
    (Authenticate exampleLib { exampleClient with stok := str "abc123" }
        ⟨[some (0xAB, 0xCD, 0x12, 0x34)], [.body detectSecureBody, .body rateLimitedBody], []⟩).1 =
      some (.tapo (-40404) "failed to get server nonce") ∧
    IsAuthenticated (Authenticate exampleLib { exampleClient with stok := str "abc123" }
        ⟨[some (0xAB, 0xCD, 0x12, 0x34)], [.body detectSecureBody, .body rateLimitedBody], []⟩).2.1 =
      true ∧
    (Authenticate exampleLib { exampleClient with stok := str "abc123" }
        ⟨[some (0xAB, 0xCD, 0x12, 0x34)], [.body detectSecureBody, .body rateLimitedBody], []⟩).2.1.cnonce =
      str "ABCD1234" ∧
    ({ exampleClient with stok := str "abc123" } : Client).cnonce = [] := by
  decide!

/-- Claim C6 (amended): if `Authenticate` returns an error, the token and `seq` are exactly as
before the call, so a session that was unauthenticated is unauthenticated afterwards; when
the failure lies in the detection or in the legacy login, `cnonce`, `nonce`, `hashedPass`,
`lsk` and `ivb` hold their previous values; when it lies in the secure handshake, `cnonce`
holds the nonce generated for the failed attempt. -/
theorem C6_Authenticate_error (L : GoLib) (c : Client) (w : World) (err : Error)
    (h : (Authenticate L c w).1 = some err) :
    (Authenticate L c w).2.1.stok = c.stok ∧
    (Authenticate L c w).2.1.seq = c.seq ∧
    (IsAuthenticated c = false → IsAuthenticated (Authenticate L c w).2.1 = false) ∧
    ((detectConnectionType L c w).1 ≠ .ok true →
      (Authenticate L c w).2.1.cnonce = c.cnonce ∧ (Authenticate L c w).2.1.nonce = c.nonce ∧
        (Authenticate L c w).2.1.hashedPass = c.hashedPass ∧
        (Authenticate L c w).2.1.lsk = c.lsk ∧ (Authenticate L c w).2.1.ivb = c.ivb) ∧
    ((detectConnectionType L c w).1 = .ok true →
      (Authenticate L c w).2.1.cnonce =
        (Crypto.GenerateCnonce (detectConnectionType L c w).2).1) := by
  have key : (Authenticate L c w).2.1.stok = c.stok ∧ (Authenticate L c w).2.1.seq = c.seq ∧
      ((detectConnectionType L c w).1 ≠ .ok true →
        (Authenticate L c w).2.1.cnonce = c.cnonce ∧ (Authenticate L c w).2.1.nonce = c.nonce ∧
          (Authenticate L c w).2.1.hashedPass = c.hashedPass ∧
          (Authenticate L c w).2.1.lsk = c.lsk ∧ (Authenticate L c w).2.1.ivb = c.ivb) ∧
      ((detectConnectionType L c w).1 = .ok true →
        (Authenticate L c w).2.1.cnonce =
          (Crypto.GenerateCnonce (detectConnectionType L c w).2).1) := by
    rcases hdet : detectConnectionType L c w with ⟨r, w1⟩
    cases r with
    | error e =>
      simp only [Authenticate, hdet]
      simp
    | ok isSecure =>
      cases isSecure with
      | true =>
        have hA : Authenticate L c w = secureAuthenticate L { c with isSecure := true } w1 := by
          simp only [Authenticate, hdet, if_true]
        rw [hA] at h ⊢
        rcases secureAuthenticate_cases L { c with isSecure := true } w1 with
          ⟨_, _, _, h2⟩ | ⟨_, _, _, _, _, _, _, _, h2⟩ | ⟨_, _, _, _, _, _, h1, _⟩
        · rw [h2]; simp
        · rw [h2]; simp
        · rw [h1] at h
          exact absurd h (by simp)
      | false =>
        have hA : Authenticate L c w = legacyAuthenticate L { c with isSecure := false } w1 := by
          simp only [Authenticate, hdet, Bool.false_eq_true, if_false]
        rw [hA] at h ⊢
        rcases legacyAuthenticate_cases L { c with isSecure := false } w1 with
          ⟨_, _, h2⟩ | ⟨_, h1, _⟩
        · rw [h2]; simp
        · rw [h1] at h
          exact absurd h (by simp)
  refine ⟨key.1, key.2.1, ?_, key.2.2.1, key.2.2.2⟩
  intro hun
  simp only [IsAuthenticated] at hun ⊢
  rw [key.1]
  exact hun

/-- Instance of C6: the failed secure handshake of the example leaves the token `"abc123"` in
place and the generated nonce in `cnonce`. -/
theorem C6_Authenticate_error_witness :
    (Authenticate exampleLib { exampleClient with stok := str "abc123" }
        ⟨[some (0xAB, 0xCD, 0x12, 0x34)], [.body detectSecureBody, .body rateLimitedBody], []⟩).2.1.stok =
      str "abc123" :=
  (C6_Authenticate_error exampleLib { exampleClient with stok := str "abc123" }
    ⟨[some (0xAB, 0xCD, 0x12, 0x34)], [.body detectSecureBody, .body rateLimitedBody], []⟩
    (.tapo (-40404) "failed to get server nonce") (by decide!)).1

/-! ## `request.go`: what a dispatch may change -/

/-- The function `executePlain` leaves the client alone or clears its token. -/
theorem executePlain_client (L : GoLib) (c : Client) (w : World) (payload : Payload) :
    (executePlain L c w payload).2.1 = c ∨
      (executePlain L c w payload).2.1 = { c with stok := [] } := by
  simp only [executePlain]
  split
  · exact Or.inl rfl
  · split
    · exact Or.inl rfl
    · split
      · exact Or.inl rfl
      · exact Or.inl rfl
      · split
        · exact Or.inl rfl
        · split
          · split
            · exact Or.inr rfl
            · exact Or.inl rfl
          · exact Or.inl rfl

/-- The response handling of `executeSecure` leaves the client alone or clears its token. -/
theorem executeSecureResponse_client (L : GoLib) (c : Client) (w : World) (body : Bytes) :
    (executeSecureResponse L c w body).2.1 = c ∨
      (executeSecureResponse L c w body).2.1 = { c with stok := [] } := by
  simp only [executeSecureResponse]
  split
  · exact Or.inl rfl
  · split
    · split
      · exact Or.inr rfl
      · exact Or.inl rfl
    · split
      · exact Or.inl rfl
      · split
        · exact Or.inl rfl
        · split
          · exact Or.inl rfl
          · split
            · exact Or.inl rfl
            · exact Or.inl rfl

theorem executeSecureResponse_world (L : GoLib) (c : Client) (w : World) (body : Bytes) :
    (executeSecureResponse L c w body).2.2 = w := by
  simp only [executeSecureResponse]
  repeat' split
  all_goals rfl

/-- The function `executeSecure` once the request has been sent and a response body read. -/
theorem executeSecure_body (L : GoLib) (c : Client) (w w1 : World) (payload : Payload)
    (jsonData encrypted secureJSON body : Bytes) (u : Unit)
    (hm : jsonMarshal L payload = .ok jsonData)
    (he : Crypto.AESEncrypt jsonData c.lsk c.ivb = .ok encrypted)
    (hs : L.marshalSecure (secureEnvelope encrypted) = .ok secureJSON)
    (hn : L.newRequest (getRequestURL c) = .ok u)
    (hsend : w.send (securePost c secureJSON) = (.body body, w1)) :
    executeSecure L c w payload =
      executeSecureResponse L { c with seq := intAdd c.seq 1 } w1 body := by
  simp only [executeSecure, hm, he, hs, hn, hsend]

/-- The function `executeSecure` either returns before sending, with client and world untouched, or
sends exactly one request and advances `seq`, after which at most the token is cleared. -/
theorem executeSecure_cases (L : GoLib) (c : Client) (w : World) (payload : Payload) :
    ((executeSecure L c w payload).2.1 = c ∧ (executeSecure L c w payload).2.2 = w ∧
        ∃ err, (executeSecure L c w payload).1 = .error err) ∨
      (∃ jsonData encrypted secureJSON reply,
        jsonMarshal L payload = .ok jsonData ∧
        Crypto.AESEncrypt jsonData c.lsk c.ivb = .ok encrypted ∧
        L.marshalSecure (secureEnvelope encrypted) = .ok secureJSON ∧
        L.newRequest (getRequestURL c) = .ok () ∧
        w.send (securePost c secureJSON) = (reply, (executeSecure L c w payload).2.2) ∧
        ((executeSecure L c w payload).2.1 = { c with seq := intAdd c.seq 1 } ∨
          (executeSecure L c w payload).2.1 = { c with seq := intAdd c.seq 1, stok := [] })) := by
  cases hm : jsonMarshal L payload with
  | error e =>
    have hE : executeSecure L c w payload =
        (.error (.wrap "failed to marshal request" e), c, w) := by
      simp only [executeSecure, hm]
    rw [hE]
    exact Or.inl ⟨rfl, rfl, _, rfl⟩
  | ok jsonData =>
    cases he : Crypto.AESEncrypt jsonData c.lsk c.ivb with
    | error e =>
      have hE : executeSecure L c w payload =
          (.error (.wrap "failed to encrypt request" e), c, w) := by
        simp only [executeSecure, hm, he]
      rw [hE]
      exact Or.inl ⟨rfl, rfl, _, rfl⟩
    | ok encrypted =>
      cases hs : L.marshalSecure (secureEnvelope encrypted) with
      | error e =>
        have hE : executeSecure L c w payload =
            (.error (.wrap "failed to marshal secure request" e), c, w) := by
          simp only [executeSecure, hm, he, hs]
        rw [hE]
        exact Or.inl ⟨rfl, rfl, _, rfl⟩
      | ok secureJSON =>
        cases hn : L.newRequest (getRequestURL c) with
        | error e =>
          have hE : executeSecure L c w payload =
              (.error (.wrap "failed to create request" e), c, w) := by
            simp only [executeSecure, hm, he, hs, hn]
          rw [hE]
          exact Or.inl ⟨rfl, rfl, _, rfl⟩
        | ok u =>
          right
          refine ⟨jsonData, encrypted, secureJSON, ?_⟩
          rcases hsend : w.send (securePost c secureJSON) with ⟨reply, w1⟩
          refine ⟨reply, rfl, he, hs, rfl, ?_⟩
          cases reply with
          | doError e =>
            have hE : executeSecure L c w payload =
                (.error (.wrap "request failed" e), { c with seq := intAdd c.seq 1 }, w1) := by
              simp only [executeSecure, hm, he, hs, hn, hsend]
            rw [hE]
            exact ⟨rfl, Or.inl rfl⟩
          | readError e =>
            have hE : executeSecure L c w payload =
                (.error (.wrap "failed to read response" e), { c with seq := intAdd c.seq 1 },
                  w1) := by
              simp only [executeSecure, hm, he, hs, hn, hsend]
            rw [hE]
            exact ⟨rfl, Or.inl rfl⟩
          | body respBody =>
            rw [executeSecure_body L c w w1 payload jsonData encrypted secureJSON respBody u
              hm he hs hn hsend]
            constructor
            · rw [executeSecureResponse_world]
            · exact executeSecureResponse_client L { c with seq := intAdd c.seq 1 } w1 respBody

/-! ## Sessions: the keys across calls -/

/-- The function `Authenticate` fails in the detection and changes nothing, or runs one of the two logins
on the client with `isSecure` set. -/
theorem Authenticate_cases (L : GoLib) (c : Client) (w : World) :
    (∃ err, (Authenticate L c w).1 = some err ∧ (Authenticate L c w).2.1 = c) ∨
      (∃ w1, detectConnectionType L c w = (.ok true, w1) ∧
        Authenticate L c w = secureAuthenticate L { c with isSecure := true } w1) ∨
      (∃ w1, detectConnectionType L c w = (.ok false, w1) ∧
        Authenticate L c w = legacyAuthenticate L { c with isSecure := false } w1) := by
  rcases hdet : detectConnectionType L c w with ⟨r, w1⟩
  cases r with
  | error e =>
    left
    have hA : Authenticate L c w =
        (some (.wrap "failed to detect connection type" e), c, w1) := by
      simp only [Authenticate, hdet]
    rw [hA]
    exact ⟨_, rfl, rfl⟩
  | ok isSecure =>
    cases isSecure with
    | true =>
      right; left
      refine ⟨w1, rfl, ?_⟩
      simp only [Authenticate, hdet, if_true]
    | false =>
      right; right
      refine ⟨w1, rfl, ?_⟩
      simp only [Authenticate, hdet, Bool.false_eq_true, if_false]

theorem Authenticate_keys (L : GoLib) (c : Client) (w : World) (h : KeysAbsentOrFull c) :
    KeysAbsentOrFull (Authenticate L c w).2.1 := by
  rcases Authenticate_cases L c w with ⟨_, _, h2⟩ | ⟨w1, _, hA⟩ | ⟨w1, _, hA⟩
  · rw [h2]; exact h
  · rw [hA]
    rcases secureAuthenticate_cases L { c with isSecure := true } w1 with
      ⟨_, _, _, h2⟩ | ⟨_, _, _, lsk, ivb, _, hl, hi, h2⟩ | ⟨_, _, lsk, ivb, _, _, _, hl, hi, h2⟩
    · rw [h2]; exact h
    · rw [h2]; exact Or.inr ⟨hl, hi⟩
    · rw [h2]; exact Or.inr ⟨hl, hi⟩
  · rw [hA]
    rcases legacyAuthenticate_cases L { c with isSecure := false } w1 with
      ⟨_, _, h2⟩ | ⟨_, _, h2⟩
    · rw [h2]; exact h
    · rw [h2]; exact h

/-- After a successful `Authenticate` in secure mode both keys are 16 bytes long. -/
theorem Authenticate_secure_keys (L : GoLib) (c : Client) (w : World)
    (hok : (Authenticate L c w).1 = none) (hsec : (Authenticate L c w).2.1.isSecure = true) :
    (Authenticate L c w).2.1.lsk.length = 16 ∧ (Authenticate L c w).2.1.ivb.length = 16 := by
  rcases Authenticate_cases L c w with ⟨_, h1, _⟩ | ⟨w1, _, hA⟩ | ⟨w1, _, hA⟩
  · rw [h1] at hok
    exact absurd hok (by simp)
  · rw [hA] at hok ⊢
    rcases secureAuthenticate_cases L { c with isSecure := true } w1 with
      ⟨_, _, h1, _⟩ | ⟨_, _, _, _, _, h1, _⟩ | ⟨_, _, lsk, ivb, _, _, _, hl, hi, h2⟩
    · rw [h1] at hok
      exact absurd hok (by simp)
    · rw [h1] at hok
      exact absurd hok (by simp)
    · rw [h2]; exact ⟨hl, hi⟩
  · rw [hA] at hsec
    rw [legacyAuthenticate_isSecure] at hsec
    exact absurd hsec (by simp)

theorem executePlain_keys (L : GoLib) (c : Client) (w : World) (payload : Payload)
    (h : KeysAbsentOrFull c) : KeysAbsentOrFull (executePlain L c w payload).2.1 := by
  rcases executePlain_client L c w payload with h2 | h2 <;> rw [h2] <;> exact h

theorem executeSecure_keys (L : GoLib) (c : Client) (w : World) (payload : Payload)
    (h : KeysAbsentOrFull c) : KeysAbsentOrFull (executeSecure L c w payload).2.1 := by
  rcases executeSecure_cases L c w payload with ⟨h2, _⟩ | ⟨_, _, _, _, _, _, _, _, _, h2 | h2⟩ <;>
    rw [h2] <;> exact h

theorem ensureAuthenticated_client (L : GoLib) (c : Client) (w : World) :
    (ensureAuthenticated L c w).2.1 = c ∨
      (ensureAuthenticated L c w).2.1 = (Authenticate L c w).2.1 := by
  simp only [ensureAuthenticated]
  split
  · split
    · rename_i h; right; rw [h]
    · rename_i h; right; rw [h]
  · exact Or.inl rfl

theorem ensureAuthenticated_keys (L : GoLib) (c : Client) (w : World)
    (h : KeysAbsentOrFull c) : KeysAbsentOrFull (ensureAuthenticated L c w).2.1 := by
  rcases ensureAuthenticated_client L c w with h2 | h2 <;> rw [h2]
  · exact h
  · exact Authenticate_keys L c w h

theorem Execute_keys (L : GoLib) (c : Client) (w : World) (method : Str) (params : Value)
    (h : KeysAbsentOrFull c) : KeysAbsentOrFull (Execute L c w method params).2.1 := by
  have hen := ensureAuthenticated_keys L c w h
  rcases he : ensureAuthenticated L c w with ⟨r, c1, w1⟩
  rw [he] at hen
  cases r with
  | some err => simp only [Execute, he]; exact hen
  | none =>
    simp only [Execute, he]
    split
    · exact executeSecure_keys L c1 w1 _ hen
    · exact executePlain_keys L c1 w1 _ hen

theorem ExecuteDirect_keys (L : GoLib) (c : Client) (w : World) (payload : Payload)
    (h : KeysAbsentOrFull c) : KeysAbsentOrFull (ExecuteDirect L c w payload).2.1 := by
  have hen := ensureAuthenticated_keys L c w h
  rcases he : ensureAuthenticated L c w with ⟨r, c1, w1⟩
  rw [he] at hen
  cases r with
  | some err => simp only [ExecuteDirect, he]; exact hen
  | none =>
    simp only [ExecuteDirect, he]
    split
    · exact executeSecure_keys L c1 w1 _ hen
    · exact executePlain_keys L c1 w1 _ hen

/-- Counterexample to C7 as stated, in both directions. First session: `Execute` on a new
client, the camera offers secure mode, confirms the password and then answers phase 3 with
the rate-limit status; the keys are populated although no token is held. Second session: a
legacy login succeeds, then `Authenticate` is called again, the camera now offers secure mode
and answers phase 1 with the rate-limit status; `isSecure` is true and the legacy token is
held although no keys exist. -/
theorem C7_counterexample :
    (Reachable exampleLib
        (Execute exampleLib exampleClient
          ⟨[some (0xAB, 0xCD, 0x12, 0x34)],
            [.body detectSecureBody, .body phase1Body, .body rateLimitedBody], []⟩
          (str "getDeviceInfo") exampleParams).2.1 ∧
      (Execute exampleLib exampleClient
          ⟨[some (0xAB, 0xCD, 0x12, 0x34)],
            [.body detectSecureBody, .body phase1Body, .body rateLimitedBody], []⟩
          (str "getDeviceInfo") exampleParams).2.1.lsk.length = 16 ∧
      (Execute exampleLib exampleClient
          ⟨[some (0xAB, 0xCD, 0x12, 0x34)],
            [.body detectSecureBody, .body phase1Body, .body rateLimitedBody], []⟩
          (str "getDeviceInfo") exampleParams).2.1.ivb.length = 16 ∧
      (Execute exampleLib exampleClient
          ⟨[some (0xAB, 0xCD, 0x12, 0x34)],
            [.body detectSecureBody, .body phase1Body, .body rateLimitedBody], []⟩
          (str "getDeviceInfo") exampleParams).2.1.stok = []) ∧
    (Reachable exampleLib
        (Authenticate exampleLib
          (Execute exampleLib exampleClient
            ⟨[], [.body invalidTokenBody, .body loginOkBody, .body commandOkBody], []⟩
            (str "getDeviceInfo") exampleParams).2.1
          ⟨[some (0xAB, 0xCD, 0x12, 0x34)], [.body detectSecureBody, .body rateLimitedBody],
            []⟩).2.1 ∧
      (Authenticate exampleLib
          (Execute exampleLib exampleClient
            ⟨[], [.body invalidTokenBody, .body loginOkBody, .body commandOkBody], []⟩
            (str "getDeviceInfo") exampleParams).2.1
          ⟨[some (0xAB, 0xCD, 0x12, 0x34)], [.body detectSecureBody, .body rateLimitedBody],
            []⟩).2.1.isSecure = true ∧
      (Authenticate exampleLib
          (Execute exampleLib exampleClient
            ⟨[], [.body invalidTokenBody, .body loginOkBody, .body commandOkBody], []⟩
            (str "getDeviceInfo") exampleParams).2.1
          ⟨[some (0xAB, 0xCD, 0x12, 0x34)], [.body detectSecureBody, .body rateLimitedBody],
            []⟩).2.1.stok = str "abc123" ∧
      (Authenticate exampleLib
          (Execute exampleLib exampleClient
            ⟨[], [.body invalidTokenBody, .body loginOkBody, .body commandOkBody], []⟩
            (str "getDeviceInfo") exampleParams).2.1
          ⟨[some (0xAB, 0xCD, 0x12, 0x34)], [.body detectSecureBody, .body rateLimitedBody],
            []⟩).2.1.lsk = []) := by
  refine ⟨⟨?_, by decide!⟩, ⟨?_, by decide!⟩⟩
  · exact Reachable.execute _ _ _ _ (Reachable.newClient _ _ _)
  · exact Reachable.authenticate _ _ (Reachable.execute _ _ _ _ (Reachable.newClient _ _ _))

/-- Claim C7 (amended): in every client state reachable from `NewClient` by `Authenticate`,
`Execute` and `ExecuteDirect` calls under any device responses, `lsk` and `ivb` are either
both empty or both exactly 16 bytes long, and every `Authenticate` call that succeeds with
`isSecure` true leaves both populated with 16 bytes. -/
theorem C7_keys_invariant (L : GoLib) (c : Client) (h : Reachable L c) :
    KeysAbsentOrFull c ∧
      ∀ w : World, (Authenticate L c w).1 = none → (Authenticate L c w).2.1.isSecure = true →
        (Authenticate L c w).2.1.lsk.length = 16 ∧ (Authenticate L c w).2.1.ivb.length = 16 := by
  refine ⟨?_, fun w hok hsec => Authenticate_secure_keys L c w hok hsec⟩
  induction h with
  | newClient host username password => exact Or.inl ⟨rfl, rfl⟩
  | authenticate c w _ ih => exact Authenticate_keys L c w ih
  | execute c w method params _ ih => exact Execute_keys L c w method params ih
  | executeDirect c w payload _ ih => exact ExecuteDirect_keys L c w payload ih

/-- Instance of C7: the state left by a secure handshake whose phase 3 is refused. -/
theorem C7_keys_invariant_witness :
    KeysAbsentOrFull
      (Execute exampleLib exampleClient
        ⟨[some (0xAB, 0xCD, 0x12, 0x34)],
          [.body detectSecureBody, .body phase1Body, .body rateLimitedBody], []⟩
        (str "getDeviceInfo") exampleParams).2.1 :=
  (C7_keys_invariant exampleLib _
    (Reachable.execute _ _ _ _ (Reachable.newClient (str "192.168.1.100") (str "admin")
      (str "password")))).1

/-- The secure handshake of the example, run to the end. -/
theorem exampleSecureClient_reached :
    Authenticate exampleLib exampleClient
        ⟨[some (0xAB, 0xCD, 0x12, 0x34)],
          [.body detectSecureBody, .body phase1Body, .body loginOkBody], []⟩ =
      (none, exampleSecureClient,
        ⟨[], [],
          [newPost exampleClient (getBaseURL exampleClient)
              (renderLogin (detectRequest exampleClient)),
            newPost exampleClient (getBaseURL exampleClient)
              (renderLogin (phase1Request { exampleClient with cnonce := str "ABCD1234" })),
            newPost exampleClient (getBaseURL exampleClient)
              (renderLogin (phase3Request
                { exampleClient with cnonce := str "ABCD1234", nonce := str "server_nonce" }
                (str "5E884898DA28047151D0E56F8DC6292773603D0D6AABBDD62A11EF721D1542D8")))]⟩) := by
  decide!

/-! ## `request.go`: the sequence counter and the secure envelope -/

/-- Away from the largest `int`, Go's `seq++` is the integer successor. -/
theorem intAdd_one (s : Int) (h1 : -9223372036854775808 ≤ s) (h2 : s < 9223372036854775807) :
    intAdd s 1 = s + 1 := by
  unfold intAdd wrapInt
  omega

theorem World.send_sent (w : World) (req : Request) : (w.send req).2.sent = w.sent ++ [req] := by
  unfold World.send
  split <;> rfl

theorem lookup_setHeader_same (headers : List (String × Str)) (key : String) (value : Str) :
    getHeader (setHeader headers key value) key = some value := by
  induction headers with
  | nil => simp [getHeader, setHeader, List.lookup]
  | cons kv rest ih =>
    simp only [getHeader, setHeader] at ih ⊢
    by_cases h : kv.1 = key
    · rw [List.filter_cons_of_neg (by simpa using h)]
      exact ih
    · rw [List.filter_cons_of_pos (by simpa using h)]
      have hne : (key == kv.1) = false := by
        simpa using fun h2 => h h2.symm
      rw [List.cons_append]
      show List.lookup key ((kv.1, kv.2) :: _) = _
      rw [List.lookup_cons, hne]
      exact ih

theorem lookup_setHeader_other (headers : List (String × Str)) (key other : String)
    (value : Str) (h : key ≠ other) :
    getHeader (setHeader headers other value) key = getHeader headers key := by
  induction headers with
  | nil =>
    have hne : (key == other) = false := by simpa using h
    simp [getHeader, setHeader, List.lookup, hne]
  | cons kv rest ih =>
    simp only [getHeader, setHeader] at ih ⊢
    by_cases h2 : kv.1 = other
    · rw [List.filter_cons_of_neg (by simpa using h2), ih]
      have hne : (key == kv.1) = false := by
        rw [h2]; simpa using h
      show _ = List.lookup key ((kv.1, kv.2) :: rest)
      rw [List.lookup_cons, hne]
    · rw [List.filter_cons_of_pos (by simpa using h2), List.cons_append]
      show List.lookup key ((kv.1, kv.2) :: _) = List.lookup key ((kv.1, kv.2) :: rest)
      rw [List.lookup_cons, List.lookup_cons, ih]

theorem securePost_headers (c : Client) (secureJSON : Bytes) :
    getHeader (securePost c secureJSON).headers "Seq" = some (Itoa c.seq) ∧
      getHeader (securePost c secureJSON).headers "Tapo_tag" =
        some (calculateTag c secureJSON) ∧
      (securePost c secureJSON).body = secureJSON ∧
      (securePost c secureJSON).url = getRequestURL c := by
  refine ⟨?_, ?_, rfl, rfl⟩
  · simp only [securePost]
    rw [lookup_setHeader_other _ _ _ _ (by decide), lookup_setHeader_same]
  · simp only [securePost]
    rw [lookup_setHeader_same]

/-- What `executeSecure` adds to the requests sent: nothing when it returns before sending,
else the one request built by `securePost`. -/
theorem executeSecure_sent (L : GoLib) (c : Client) (w : World) (payload : Payload) :
    ((executeSecure L c w payload).2.1 = c ∧ (executeSecure L c w payload).2.2 = w ∧
        ∃ err, (executeSecure L c w payload).1 = .error err) ∨
      (∃ jsonData encrypted secureJSON,
        jsonMarshal L payload = .ok jsonData ∧
        Crypto.AESEncrypt jsonData c.lsk c.ivb = .ok encrypted ∧
        L.marshalSecure (secureEnvelope encrypted) = .ok secureJSON ∧
        L.newRequest (getRequestURL c) = .ok () ∧
        (executeSecure L c w payload).2.2.sent = w.sent ++ [securePost c secureJSON] ∧
        (executeSecure L c w payload).2.1.seq = intAdd c.seq 1) := by
  rcases executeSecure_cases L c w payload with h | ⟨j, e, s, reply, hm, he, hs, hn, hsend, hc⟩
  · exact Or.inl h
  · right
    refine ⟨j, e, s, hm, he, hs, hn, ?_, ?_⟩
    · have := World.send_sent w (securePost c s)
      rw [hsend] at this
      exact this
    · rcases hc with hc | hc <;> rw [hc]

theorem append_singleton_ne_self {α : Type} (l : List α) (a : α) : l ≠ l ++ [a] := by
  intro h
  have := congrArg List.length h
  simp at this

/-- A failing `Authenticate` leaves the sequence counter alone. -/
theorem Authenticate_error_seq (L : GoLib) (c : Client) (w : World)
    (h : (Authenticate L c w).1 ≠ none) : (Authenticate L c w).2.1.seq = c.seq := by
  rcases Authenticate_cases L c w with ⟨_, _, h2⟩ | ⟨w1, _, hA⟩ | ⟨w1, _, hA⟩
  · rw [h2]
  · rw [hA] at h ⊢
    rcases secureAuthenticate_cases L { c with isSecure := true } w1 with
      ⟨_, _, _, h2⟩ | ⟨_, _, _, _, _, _, _, _, h2⟩ | ⟨_, _, _, _, _, _, h1, _⟩
    · rw [h2]
    · rw [h2]
    · exact absurd h1 h
  · rw [hA]
    rcases legacyAuthenticate_cases L { c with isSecure := false } w1 with
      ⟨_, _, h2⟩ | ⟨_, _, h2⟩ <;> rw [h2]

/-- Counterexample to C8 as stated: `executeSecure` on a session that holds a token and has
`isSecure` set but no keys (the state left by a legacy login followed by a failed secure
re-authentication) fails to encrypt and returns with `seq` still 0, not 1. -/
theorem C8_counterexample :
    (executeSecure exampleLib { exampleClient with stok := str "abc123", isSecure := true }
        ⟨[], [.body commandOkBody], []⟩
        (.multipleRequest (multipleRequest (str "getDeviceInfo") exampleParams))).1 =
      .error (.wrap "failed to encrypt request" (.new "key must be 16 bytes for AES-128")) ∧
    (executeSecure exampleLib { exampleClient with stok := str "abc123", isSecure := true }
        ⟨[], [.body commandOkBody], []⟩
        (.multipleRequest (multipleRequest (str "getDeviceInfo") exampleParams))).2.1.seq = 0 ∧
    intAdd ({ exampleClient with stok := str "abc123", isSecure := true } : Client).seq 1 = 1 := by
  decide!

/-- Claim C8 (amended): `seq` changes in two ways only. An `executeSecure` call that sends its
request leaves `seq` at its previous value plus one (Go's `int` addition), whatever comes
back; a call that returns before sending (the payload or the envelope cannot be marshalled,
the encryption fails, the request cannot be built) sends nothing and leaves `seq` as it was.
A phase 3 that succeeds assigns the `start_seq` of the decoded response, whose status is 0;
a phase 3 that fails, a failing `secureAuthenticate`, a failing `Authenticate`,
`legacyAuthenticate` and `executePlain` leave `seq` as it was. -/
theorem C8_seq_changes (L : GoLib) (c : Client) (w : World) :
    (∀ payload : Payload,
      ((executeSecure L c w payload).2.2 = w ∧ (executeSecure L c w payload).2.1.seq = c.seq ∧
          ∃ err, (executeSecure L c w payload).1 = .error err) ∨
        (∃ req, (executeSecure L c w payload).2.2.sent = w.sent ++ [req] ∧
          (executeSecure L c w payload).2.1.seq = intAdd c.seq 1)) ∧
    (∀ (hashedPass : Str) (loginResp : LoginResponse),
      ((securePhase3 L c w hashedPass loginResp).1 = none →
        ∃ resp decoded, L.unmarshalLogin resp loginResp = .ok decoded ∧ decoded.ErrorCode = 0 ∧
          (securePhase3 L c w hashedPass loginResp).2.1.seq = decoded.Result.StartSeq) ∧
      ((securePhase3 L c w hashedPass loginResp).1 ≠ none →
        (securePhase3 L c w hashedPass loginResp).2.1.seq = c.seq)) ∧
    ((secureAuthenticate L c w).1 ≠ none → (secureAuthenticate L c w).2.1.seq = c.seq) ∧
    ((Authenticate L c w).1 ≠ none → (Authenticate L c w).2.1.seq = c.seq) ∧
    (legacyAuthenticate L c w).2.1.seq = c.seq ∧
    (∀ payload : Payload, (executePlain L c w payload).2.1.seq = c.seq) := by
  refine ⟨?_, ?_, ?_, ?_, ?_, ?_⟩
  · intro payload
    rcases executeSecure_sent L c w payload with ⟨h1, h2, h3⟩ | ⟨_, _, s, _, _, _, _, h1, h2⟩
    · exact Or.inl ⟨h2, by rw [h1], h3⟩
    · exact Or.inr ⟨_, h1, h2⟩
  · intro hashedPass loginResp
    rcases hraw : makeRawRequest L c w (phase3Request c hashedPass) with ⟨r, w1⟩
    cases r with
    | error e =>
      have hE : securePhase3 L c w hashedPass loginResp =
          (some (.wrap "phase 3 failed" e), c, w1) := by
        simp only [securePhase3, hraw]
      rw [hE]
      exact ⟨fun h => absurd h (by simp), fun _ => rfl⟩
    | ok resp =>
      cases hparse : L.unmarshalLogin resp loginResp with
      | error e =>
        have hE : securePhase3 L c w hashedPass loginResp =
            (some (.wrap "failed to parse phase 3 response" e), c, w1) := by
          simp only [securePhase3, hraw, hparse]
        rw [hE]
        exact ⟨fun h => absurd h (by simp), fun _ => rfl⟩
      | ok decoded =>
        by_cases hcode : decoded.ErrorCode = 0
        · have hE : securePhase3 L c w hashedPass loginResp =
              (none, { c with stok := decoded.Result.Stok, seq := decoded.Result.StartSeq },
                w1) := by
            simp only [securePhase3, hraw, hparse, hcode, ne_eq, not_true_eq_false, if_false]
          rw [hE]
          exact ⟨fun _ => ⟨resp, decoded, hparse, hcode, rfl⟩, fun h => absurd rfl h⟩
        · have hE : securePhase3 L c w hashedPass loginResp =
              (some (NewTapoError decoded.ErrorCode (ErrorMessage decoded.ErrorCode)), c,
                w1) := by
            simp only [securePhase3, hraw, hparse, ne_eq, hcode, not_false_eq_true, if_true]
          rw [hE]
          exact ⟨fun h => absurd h (by simp), fun _ => rfl⟩
  · intro h
    rcases secureAuthenticate_cases L c w with
      ⟨_, _, _, h2⟩ | ⟨_, _, _, _, _, _, _, _, h2⟩ | ⟨_, _, _, _, _, _, h1, _⟩
    · rw [h2]
    · rw [h2]
    · exact absurd h1 h
  · exact Authenticate_error_seq L c w
  · rcases legacyAuthenticate_cases L c w with ⟨_, _, h2⟩ | ⟨_, _, h2⟩ <;> rw [h2]
  · intro payload
    rcases executePlain_client L c w payload with h2 | h2 <;> rw [h2]

/-- Instance of C8: `executeSecure` on the example session after its secure handshake. -/
theorem C8_seq_changes_witness :
    ((executeSecure exampleLib exampleSecureClient ⟨[], [.body invalidTokenBody], []⟩
          (.value exampleParams)).2.2 = ⟨[], [.body invalidTokenBody], []⟩ ∧
        (executeSecure exampleLib exampleSecureClient ⟨[], [.body invalidTokenBody], []⟩
          (.value exampleParams)).2.1.seq = exampleSecureClient.seq ∧
        ∃ err, (executeSecure exampleLib exampleSecureClient ⟨[], [.body invalidTokenBody], []⟩
          (.value exampleParams)).1 = .error err) ∨
      (∃ req, (executeSecure exampleLib exampleSecureClient ⟨[], [.body invalidTokenBody], []⟩
          (.value exampleParams)).2.2.sent = ([] : List Request) ++ [req] ∧
        (executeSecure exampleLib exampleSecureClient ⟨[], [.body invalidTokenBody], []⟩
          (.value exampleParams)).2.1.seq = intAdd exampleSecureClient.seq 1) :=
  (C8_seq_changes exampleLib exampleSecureClient ⟨[], [.body invalidTokenBody], []⟩).1
    (.value exampleParams)

/-! ## Base64 -/

theorem base64Char_spec : ∀ n, n < 64 →
    base64Value (base64Char n) = some n ∧ base64Char n ≠ 61 ∧ base64Char n ≠ 10 ∧
      base64Char n ≠ 13 := by
  decide!

theorem ofNat_val_eq (a : Byte) (n : Nat) (h : n = a.val) : (Fin.ofNat n : Byte) = a := by
  apply Fin.ext
  show n % 256 = a.val
  rw [h]
  exact Nat.mod_eq_of_lt a.isLt

theorem base64DecodeQuanta_encode : ∀ data : Bytes,
    base64DecodeQuanta (base64Encode data) = some data
  | [] => rfl
  | [a] => by
    have h0 := base64Char_spec (a.val / 4) (by omega)
    have h1 := base64Char_spec (a.val % 4 * 16) (by omega)
    simp only [base64Encode, base64DecodeQuanta, h0.1, h1.1, and_self, if_true]
    rw [ofNat_val_eq a _ (by omega)]
  | [a, b] => by
    have h0 := base64Char_spec (a.val / 4) (by omega)
    have h1 := base64Char_spec (a.val % 4 * 16 + b.val / 16) (by omega)
    have h2 := base64Char_spec (b.val % 16 * 4) (by omega)
    simp only [base64Encode, base64DecodeQuanta, h0.1, h1.1, h2.1, h2.2.1, false_and, if_false,
      and_self, if_true]
    rw [ofNat_val_eq a _ (by omega), ofNat_val_eq b _ (by omega)]
  | a :: b :: c :: rest => by
    have h0 := base64Char_spec (a.val / 4) (by omega)
    have h1 := base64Char_spec (a.val % 4 * 16 + b.val / 16) (by omega)
    have h2 := base64Char_spec (b.val % 16 * 4 + c.val / 64) (by omega)
    have h3 := base64Char_spec (c.val % 64) (by omega)
    simp only [base64Encode, base64DecodeQuanta, h0.1, h1.1, h2.1, h3.1, h2.2.1, h3.2.1,
      false_and, if_false, base64DecodeQuanta_encode rest]
    rw [ofNat_val_eq a _ (by omega), ofNat_val_eq b _ (by omega), ofNat_val_eq c _ (by omega)]

theorem base64Encode_no_breaks : ∀ data : Bytes,
    ∀ ch ∈ base64Encode data, ch ≠ 10 ∧ ch ≠ 13
  | [] => by simp [base64Encode]
  | [a] => by
    have h0 := base64Char_spec (a.val / 4) (by omega)
    have h1 := base64Char_spec (a.val % 4 * 16) (by omega)
    intro ch hch
    simp only [base64Encode, List.mem_cons, List.mem_singleton, List.not_mem_nil, or_false]
      at hch
    rcases hch with rfl | rfl | rfl | rfl
    · exact h0.2.2
    · exact h1.2.2
    · decide
    · decide
  | [a, b] => by
    have h0 := base64Char_spec (a.val / 4) (by omega)
    have h1 := base64Char_spec (a.val % 4 * 16 + b.val / 16) (by omega)
    have h2 := base64Char_spec (b.val % 16 * 4) (by omega)
    intro ch hch
    simp only [base64Encode, List.mem_cons, List.mem_singleton, List.not_mem_nil, or_false]
      at hch
    rcases hch with rfl | rfl | rfl | rfl
    · exact h0.2.2
    · exact h1.2.2
    · exact h2.2.2
    · decide
  | a :: b :: c :: rest => by
    have h0 := base64Char_spec (a.val / 4) (by omega)
    have h1 := base64Char_spec (a.val % 4 * 16 + b.val / 16) (by omega)
    have h2 := base64Char_spec (b.val % 16 * 4 + c.val / 64) (by omega)
    have h3 := base64Char_spec (c.val % 64) (by omega)
    intro ch hch
    simp only [base64Encode, List.mem_cons] at hch
    rcases hch with rfl | rfl | rfl | rfl | hch
    · exact h0.2.2
    · exact h1.2.2
    · exact h2.2.2
    · exact h3.2.2
    · exact base64Encode_no_breaks rest ch hch

/-- The function `DecodeString` undoes `EncodeToString`. -/
theorem base64Decode_encode (data : Bytes) : base64Decode (base64Encode data) = .ok data := by
  have hf : (base64Encode data).filter (fun c => decide (c ≠ 10 ∧ c ≠ 13)) =
      base64Encode data := by
    rw [List.filter_eq_self]
    intro ch hch
    simpa using base64Encode_no_breaks data ch hch
  simp only [base64Decode, hf, base64DecodeQuanta_encode]

/-! ## `executeSecure`: headers and envelope -/

/-- The function `executeSecure` once the payload is marshalled and encrypted and the request is built:
exactly the request of `securePost` is sent and `seq` advances. -/
theorem executeSecure_of_built (L : GoLib) (c : Client) (w : World) (payload : Payload)
    (jsonData encrypted secureJSON : Bytes) (u : Unit)
    (hm : jsonMarshal L payload = .ok jsonData)
    (he : Crypto.AESEncrypt jsonData c.lsk c.ivb = .ok encrypted)
    (hs : L.marshalSecure (secureEnvelope encrypted) = .ok secureJSON)
    (hn : L.newRequest (getRequestURL c) = .ok u) :
    (executeSecure L c w payload).2.2.sent = w.sent ++ [securePost c secureJSON] ∧
      (executeSecure L c w payload).2.1.seq = intAdd c.seq 1 := by
  rcases executeSecure_sent L c w payload with ⟨_, _, err, h3⟩ | ⟨j, e, s, hm2, he2, hs2, _, h1, h2⟩
  · exfalso
    rcases hsend : w.send (securePost c secureJSON) with ⟨reply, w1⟩
    cases reply with
    | doError e =>
      have hE : executeSecure L c w payload =
          (.error (.wrap "request failed" e), { c with seq := intAdd c.seq 1 }, w1) := by
        simp only [executeSecure, hm, he, hs, hn, hsend]
      have hw := World.send_sent w (securePost c secureJSON)
      rw [hsend] at hw
      rename_i hc hwd
      rw [hE] at hwd
      simp only at hwd
      rw [hwd] at hw
      exact append_singleton_ne_self _ _ hw
    | readError e =>
      have hE : executeSecure L c w payload =
          (.error (.wrap "failed to read response" e), { c with seq := intAdd c.seq 1 },
            w1) := by
        simp only [executeSecure, hm, he, hs, hn, hsend]
      have hw := World.send_sent w (securePost c secureJSON)
      rw [hsend] at hw
      rename_i hc hwd
      rw [hE] at hwd
      simp only at hwd
      rw [hwd] at hw
      exact append_singleton_ne_self _ _ hw
    | body b =>
      have hE := executeSecure_body L c w w1 payload jsonData encrypted secureJSON b u
        hm he hs hn hsend
      have hw := World.send_sent w (securePost c secureJSON)
      rw [hsend] at hw
      rename_i hc hwd
      rw [hE, executeSecureResponse_world] at hwd
      rw [hwd] at hw
      exact append_singleton_ne_self _ _ hw
  · rw [hm] at hm2
    cases hm2
    rw [he] at he2
    cases he2
    rw [hs] at hs2
    cases hs2
    exact ⟨h1, h2⟩

/-- Claim C9: for every `executeSecure` call that sends a request, with `s` the value of `seq`
on entry: the `Seq` header is the decimal text of `s`, the `Tapo_tag` header is
`SHA256Hash(SHA256Hash(hashedPass + cnonce) + requestJSON + decimal(s))` for the request
body `requestJSON` being sent, and `seq` is `s + 1` (Go's `int` addition) from the moment the
request is posted. -/
theorem C9_secure_headers (L : GoLib) (c : Client) (w : World) (payload : Payload)
    (req : Request) (hsent : (executeSecure L c w payload).2.2.sent = w.sent ++ [req]) :
    getHeader req.headers "Seq" = some (Itoa c.seq) ∧
      getHeader req.headers "Tapo_tag" =
        some (Crypto.SHA256Hash
          (Crypto.SHA256Hash (c.hashedPass ++ c.cnonce) ++ req.body ++ Itoa c.seq)) ∧
      (executeSecure L c w payload).2.1.seq = intAdd c.seq 1 := by
  rcases executeSecure_sent L c w payload with ⟨_, h2, _⟩ | ⟨_, _, s, _, _, _, _, h1, hseq⟩
  · rw [h2] at hsent
    exact absurd hsent (append_singleton_ne_self _ _)
  · rw [h1] at hsent
    have hreq : req = securePost c s := by
      have := List.append_cancel_left hsent
      simpa using this.symm
    subst hreq
    obtain ⟨h3, h4, h5, _⟩ := securePost_headers c s
    refine ⟨h3, ?_, hseq⟩
    rw [h4, h5]
    rfl

/-- Instance of C9: the example session after its handshake (`seq` 100) sends
`exampleParams`; the request posted is the one with the envelope text `exampleSecureJSON`
(whose ciphertext agrees with OpenSSL's for the same key, iv and plaintext), it carries
`Seq: 100` and the tag computed over that text. -/
theorem C9_secure_headers_witness :
    getHeader (securePost exampleSecureClient exampleSecureJSON).headers "Seq" =
        some (Itoa exampleSecureClient.seq) ∧
      getHeader (securePost exampleSecureClient exampleSecureJSON).headers "Tapo_tag" =
        some (Crypto.SHA256Hash
          (Crypto.SHA256Hash (exampleSecureClient.hashedPass ++ exampleSecureClient.cnonce) ++
            (securePost exampleSecureClient exampleSecureJSON).body ++
            Itoa exampleSecureClient.seq)) ∧
      (executeSecure exampleLib exampleSecureClient ⟨[], [.body invalidTokenBody], []⟩
          (.value exampleParams)).2.1.seq = intAdd exampleSecureClient.seq 1 :=
  C9_secure_headers exampleLib exampleSecureClient ⟨[], [.body invalidTokenBody], []⟩
    (.value exampleParams) (securePost exampleSecureClient exampleSecureJSON) (by decide!)

/-- The headers of the example request, spelled out. -/
theorem exampleSecure_headers :
    getHeader (securePost exampleSecureClient exampleSecureJSON).headers "Seq" =
        some (str "100") ∧
      getHeader (securePost exampleSecureClient exampleSecureJSON).headers "Tapo_tag" =
        some (str "9F920678957D466C29033495BDC7073021C416AD87669F2C8DB51A969C3D5FBC") := by
  decide!

/-- Claim C10: for every payload that serialises to a JSON text `J` and every client with
16-byte `lsk` and `ivb`, `AESEncrypt(J, lsk, ivb)` succeeds with some `ct`; every request
`executeSecure` posts has as body the serialisation of
`{method: "securePassthrough", params: {request: b}}` with `b = base64(ct)`, and that request
is posted as soon as the envelope serialises and the request can be built; base64-decoding
`b` gives back `ct`, and `AESDecrypt(ct, lsk, ivb)` gives back exactly `J`. -/
theorem C10_secure_envelope (L : GoLib) (c : Client) (w : World) (payload : Payload)
    (J : Bytes) (hJ : jsonMarshal L payload = .ok J) (hl : c.lsk.length = 16)
    (hi : c.ivb.length = 16) :
    ∃ ct, Crypto.AESEncrypt J c.lsk c.ivb = .ok ct ∧
      (∀ req, (executeSecure L c w payload).2.2.sent = w.sent ++ [req] →
        L.marshalSecure
          { Method := str "securePassthrough", Params := { Request := base64Encode ct } } =
          .ok req.body) ∧
      (∀ body, L.marshalSecure
          { Method := str "securePassthrough", Params := { Request := base64Encode ct } } =
          .ok body →
        L.newRequest (getRequestURL c) = .ok () →
        (executeSecure L c w payload).2.2.sent = w.sent ++ [securePost c body] ∧
          (securePost c body).body = body) ∧
      base64Decode (base64Encode ct) = .ok ct ∧
      Crypto.AESDecrypt ct c.lsk c.ivb = .ok J := by
  obtain ⟨ct, henc, hdec⟩ := Crypto.AESDecrypt_AESEncrypt J c.lsk c.ivb hl hi
  refine ⟨ct, henc, ?_, ?_, base64Decode_encode ct, hdec⟩
  · intro req hsent
    rcases executeSecure_sent L c w payload with ⟨_, h2, _⟩ | ⟨j, e, s, hm, he, hs, _, h1, _⟩
    · rw [h2] at hsent
      exact absurd hsent (append_singleton_ne_self _ _)
    · rw [hJ] at hm
      cases hm
      rw [henc] at he
      cases he
      rw [h1] at hsent
      have hreq : req = securePost c s := by
        have := List.append_cancel_left hsent
        simpa using this.symm
      subst hreq
      exact hs
  · intro body hs hn
    exact ⟨(executeSecure_of_built L c w payload J ct body () hJ henc hs hn).1, rfl⟩

/-- Instance of C10: the example session encrypts `exampleParams` under its keys. -/
theorem C10_secure_envelope_witness :
    ∃ ct, Crypto.AESEncrypt (str "\x7b\"device_info\":\x7b\"name\":[\"basic_info\"]\x7d\x7d")
        exampleSecureClient.lsk exampleSecureClient.ivb = .ok ct ∧
      (∀ req, (executeSecure exampleLib exampleSecureClient ⟨[], [.body invalidTokenBody], []⟩
          (.value exampleParams)).2.2.sent = ([] : List Request) ++ [req] →
        exampleLib.marshalSecure
          { Method := str "securePassthrough", Params := { Request := base64Encode ct } } =
          .ok req.body) ∧
      (∀ body, exampleLib.marshalSecure
          { Method := str "securePassthrough", Params := { Request := base64Encode ct } } =
          .ok body →
        exampleLib.newRequest (getRequestURL exampleSecureClient) = .ok () →
        (executeSecure exampleLib exampleSecureClient ⟨[], [.body invalidTokenBody], []⟩
          (.value exampleParams)).2.2.sent =
            ([] : List Request) ++ [securePost exampleSecureClient body] ∧
          (securePost exampleSecureClient body).body = body) ∧
      base64Decode (base64Encode ct) = .ok ct ∧
      Crypto.AESDecrypt ct exampleSecureClient.lsk exampleSecureClient.ivb =
        .ok (str "\x7b\"device_info\":\x7b\"name\":[\"basic_info\"]\x7d\x7d") :=
  C10_secure_envelope exampleLib exampleSecureClient ⟨[], [.body invalidTokenBody], []⟩
    (.value exampleParams) _ rfl rfl rfl

/-! ## `aes.go`: the padding law -/

/-- Claim C20: for every byte sequence `data` of length `L`, `pkcs7Pad(data, 16)` is `data`
followed by `p` bytes each of value `p`, where `p = 16 - L mod 16`; so `1 <= p <= 16`, the
padded length is `L + (16 - L mod 16)`, a positive multiple of 16, and an input whose length
is a multiple of 16 (the empty input included) receives a full block of 16 bytes of value
16. -/
theorem C20_pkcs7Pad (data : Bytes) :
    Crypto.pkcs7Pad data 16 =
        data ++ List.replicate (16 - data.length % 16) (Fin.ofNat (16 - data.length % 16)) ∧
      (Fin.ofNat (16 - data.length % 16) : Byte).val = 16 - data.length % 16 ∧
      1 ≤ 16 - data.length % 16 ∧ 16 - data.length % 16 ≤ 16 ∧
      (Crypto.pkcs7Pad data 16).length = data.length + (16 - data.length % 16) ∧
      0 < (Crypto.pkcs7Pad data 16).length ∧ (Crypto.pkcs7Pad data 16).length % 16 = 0 ∧
      (data.length % 16 = 0 →
        Crypto.pkcs7Pad data 16 = data ++ List.replicate 16 (16 : Byte)) := by
  have hlen : (Crypto.pkcs7Pad data 16).length = data.length + (16 - data.length % 16) := by
    simp [Crypto.pkcs7Pad]
  refine ⟨rfl, ?_, by omega, by omega, hlen, by omega, by omega, ?_⟩
  · show (16 - data.length % 16) % 256 = 16 - data.length % 16
    omega
  · intro h
    simp only [Crypto.pkcs7Pad, h]
    rfl

/-- Instance of C20: the empty input is padded with a full block. -/
theorem C20_pkcs7Pad_witness :
    Crypto.pkcs7Pad [] 16 = [] ++ List.replicate 16 (16 : Byte) :=
  (C20_pkcs7Pad []).2.2.2.2.2.2.2 rfl

/-! ## `client.go`: the legacy login and phase 3 of the secure login -/

/-- Claim C19: `legacyAuthenticate` sends a login request whose params are exactly the
username, `password = MD5Hash(password)` and `hashed = true` (the other params are empty);
when the response is received and parsed, status 0 sets the session token to the returned
`stok` and `hashedPass` to `MD5Hash(password)` and leaves every other field (`lsk`, `ivb`,
`seq`, `cnonce`, `nonce` among them) unchanged, and a non-zero status `c` returns
`TapoError(c, ErrorMessage(c))` and changes no field. -/
theorem C19_legacyAuthenticate (L : GoLib) (c : Client) (w w1 : World) (resp : Bytes)
    (loginResp : LoginResponse)
    (hsend : makeRawRequest L c w (legacyRequest c (Crypto.MD5Hash c.Password)) = (.ok resp, w1))
    (hparse : L.unmarshalLogin resp {} = .ok loginResp) :
    legacyRequest c (Crypto.MD5Hash c.Password) =
        { Method := str "login",
          Params := { Username := c.Username, Password := Crypto.MD5Hash c.Password,
                      Hashed := true, Cnonce := [], EncryptType := [], DigestPasswd := [] } } ∧
      (∃ body, L.marshalLogin (legacyRequest c (Crypto.MD5Hash c.Password)) = .ok body ∧
        w1.sent = w.sent ++ [newPost c (getBaseURL c) body]) ∧
      (loginResp.ErrorCode = 0 →
        legacyAuthenticate L c w =
            (none, { c with stok := loginResp.Result.Stok,
                            hashedPass := Crypto.MD5Hash c.Password }, w1) ∧
          (legacyAuthenticate L c w).2.1.lsk = c.lsk ∧
          (legacyAuthenticate L c w).2.1.ivb = c.ivb ∧
          (legacyAuthenticate L c w).2.1.seq = c.seq ∧
          (legacyAuthenticate L c w).2.1.cnonce = c.cnonce ∧
          (legacyAuthenticate L c w).2.1.nonce = c.nonce) ∧
      (loginResp.ErrorCode ≠ 0 →
        legacyAuthenticate L c w =
          (some (.tapo loginResp.ErrorCode (ErrorMessage loginResp.ErrorCode)), c, w1)) := by
  refine ⟨rfl, makeRawRequest_sent L c w w1 _ resp hsend, ?_, ?_⟩
  · intro h0
    have hE : legacyAuthenticate L c w =
        (none, { c with stok := loginResp.Result.Stok,
                        hashedPass := Crypto.MD5Hash c.Password }, w1) := by
      simp only [legacyAuthenticate, hsend, hparse, h0, ne_eq, not_true_eq_false, if_false]
    rw [hE]
    exact ⟨rfl, rfl, rfl, rfl, rfl, rfl⟩
  · intro h0
    simp only [legacyAuthenticate, hsend, hparse, ne_eq, h0, not_false_eq_true, if_true,
      NewTapoError]

/-- Instance of C19: the example camera answers the legacy login with the token `abc123`. -/
theorem C19_legacyAuthenticate_witness :
    legacyAuthenticate exampleLib exampleClient
        { entropy := [], replies := [.body loginOkBody], sent := [] } =
      (none, { exampleClient with stok := str "abc123",
                                  hashedPass := Crypto.MD5Hash (str "password") },
        { entropy := [], replies := [],
          sent := [newPost exampleClient (getBaseURL exampleClient)
            (renderLogin (legacyRequest exampleClient (Crypto.MD5Hash (str "password"))))] }) :=
  ((C19_legacyAuthenticate exampleLib exampleClient
    { entropy := [], replies := [.body loginOkBody], sent := [] }
    { entropy := [], replies := [],
      sent := [newPost exampleClient (getBaseURL exampleClient)
        (renderLogin (legacyRequest exampleClient (Crypto.MD5Hash (str "password"))))] }
    loginOkBody
    { ErrorCode := 0,
      Result := { Stok := str "abc123", StartSeq := 100, UserGroup := str "root" } }
    (by decide!) (by decide!)).2.2.1 rfl).1

/-- Claim C17: in `secureAuthenticate`, once phase 1 has succeeded and the device is
validated with the hash `hashedPass`, the phase 3 request carries the same cnonce as the
phase 1 request, `encrypt_type` "3", the username and
`digest_passwd = SHA256Hash(hashedPass + cnonce + nonce) + cnonce + nonce`; when its response
is received and parsed, status 0 makes the session token the returned `stok` and `seq` the
returned `start_seq`, and a non-zero status `c` makes the call fail with
`TapoError(c, ErrorMessage(c))` with the token and `seq` as before the call. -/
theorem C17_secure_phase3 (L : GoLib) (c : Client) (w w0 w1 w3 : World) (cnonce hashedPass : Str)
    (resp resp3 : Bytes) (loginResp loginResp3 : LoginResponse) (data : LoginData)
    (hcn : Crypto.GenerateCnonce w = (cnonce, w0))
    (hraw : makeRawRequest L { c with cnonce := cnonce } w0
      (phase1Request { c with cnonce := cnonce }) = (.ok resp, w1))
    (hparse : L.unmarshalLogin resp {} = .ok loginResp)
    (hcode : loginResp.ErrorCode = 0) (hdata : loginResp.Result.Data = some data)
    (hval : (hashedPass = Crypto.SHA256Hash c.Password ∧
        validateDeviceConfirm { c with cnonce := cnonce, nonce := data.Nonce }
          (Crypto.SHA256Hash c.Password) data.DeviceConfirm = true) ∨
      (hashedPass = Crypto.MD5Hash c.Password ∧
        validateDeviceConfirm { c with cnonce := cnonce, nonce := data.Nonce }
          (Crypto.SHA256Hash c.Password) data.DeviceConfirm = false ∧
        validateDeviceConfirm { c with cnonce := cnonce, nonce := data.Nonce }
          (Crypto.MD5Hash c.Password) data.DeviceConfirm = true))
    (hraw3 : makeRawRequest L
      (generateEncryptionKeys
        { c with cnonce := cnonce, nonce := data.Nonce, hashedPass := hashedPass }) w1
      (phase3Request
        (generateEncryptionKeys
          { c with cnonce := cnonce, nonce := data.Nonce, hashedPass := hashedPass })
        hashedPass) = (.ok resp3, w3))
    (hparse3 : L.unmarshalLogin resp3 loginResp = .ok loginResp3) :
    phase3Request
        (generateEncryptionKeys
          { c with cnonce := cnonce, nonce := data.Nonce, hashedPass := hashedPass })
        hashedPass =
        { Method := str "login",
          Params := { Cnonce := cnonce, EncryptType := str "3", Username := c.Username,
                      DigestPasswd :=
                        Crypto.SHA256Hash (hashedPass ++ cnonce ++ data.Nonce) ++ cnonce ++
                          data.Nonce,
                      Hashed := false, Password := [] } } ∧
      (phase1Request { c with cnonce := cnonce }).Params.Cnonce = cnonce ∧
      (loginResp3.ErrorCode = 0 →
        secureAuthenticate L c w =
          (none,
            { generateEncryptionKeys
                { c with cnonce := cnonce, nonce := data.Nonce, hashedPass := hashedPass } with
              stok := loginResp3.Result.Stok, seq := loginResp3.Result.StartSeq }, w3)) ∧
      (loginResp3.ErrorCode ≠ 0 →
        secureAuthenticate L c w =
            (some (.tapo loginResp3.ErrorCode (ErrorMessage loginResp3.ErrorCode)),
              generateEncryptionKeys
                { c with cnonce := cnonce, nonce := data.Nonce, hashedPass := hashedPass },
              w3) ∧
          (secureAuthenticate L c w).2.1.stok = c.stok ∧
          (secureAuthenticate L c w).2.1.seq = c.seq) := by
  have hauth : secureAuthenticate L c w =
      securePhase3 L
        (generateEncryptionKeys
          { c with cnonce := cnonce, nonce := data.Nonce, hashedPass := hashedPass }) w1
        hashedPass loginResp := by
    have h2 : secureAuthenticate L c w =
        securePhase2 L { c with cnonce := cnonce, nonce := data.Nonce } w1 loginResp
          data.DeviceConfirm := by
      simp only [secureAuthenticate, hcn, hraw, hparse, hdata, hcode, ne_eq, not_true_eq_false,
        if_false]
    rw [h2]
    rcases hval with ⟨hp, hsha⟩ | ⟨hp, hsha, hmd5⟩
    · subst hp
      simp only [securePhase2, hsha, if_true]
    · subst hp
      simp only [securePhase2, hsha, hmd5, if_true, Bool.false_eq_true, if_false]
  refine ⟨rfl, rfl, ?_, ?_⟩
  · intro h0
    rw [hauth]
    simp only [securePhase3, hraw3, hparse3, h0, ne_eq, not_true_eq_false, if_false]
  · intro h0
    have hE : secureAuthenticate L c w =
        (some (.tapo loginResp3.ErrorCode (ErrorMessage loginResp3.ErrorCode)),
          generateEncryptionKeys
            { c with cnonce := cnonce, nonce := data.Nonce, hashedPass := hashedPass },
          w3) := by
      rw [hauth]
      simp only [securePhase3, hraw3, hparse3, ne_eq, h0, not_false_eq_true, if_true,
        NewTapoError]
    rw [hE]
    exact ⟨rfl, rfl, rfl⟩
/-- Instance of C17: the example camera completes the secure login with the token `abc123`
and the sequence number 100. -/
theorem C17_secure_phase3_witness :
    (secureAuthenticate exampleLib exampleClient
        { entropy := [some (0xAB, 0xCD, 0x12, 0x34)],
          replies := [.body phase1Body, .body loginOkBody], sent := [] }).1 = none ∧
      (secureAuthenticate exampleLib exampleClient
        { entropy := [some (0xAB, 0xCD, 0x12, 0x34)],
          replies := [.body phase1Body, .body loginOkBody], sent := [] }).2.1.stok =
        str "abc123" ∧
      (secureAuthenticate exampleLib exampleClient
        { entropy := [some (0xAB, 0xCD, 0x12, 0x34)],
          replies := [.body phase1Body, .body loginOkBody], sent := [] }).2.1.seq = 100 := by
  have h := (C17_secure_phase3 exampleLib exampleClient
    { entropy := [some (0xAB, 0xCD, 0x12, 0x34)],
      replies := [.body phase1Body, .body loginOkBody], sent := [] }
    { entropy := [], replies := [.body phase1Body, .body loginOkBody], sent := [] }
    { entropy := [], replies := [.body loginOkBody],
      sent := [newPost exampleClient (getBaseURL exampleClient)
        (renderLogin (phase1Request { exampleClient with cnonce := str "ABCD1234" }))] }
    { entropy := [], replies := [],
      sent := [newPost exampleClient (getBaseURL exampleClient)
          (renderLogin (phase1Request { exampleClient with cnonce := str "ABCD1234" })),
        newPost exampleClient (getBaseURL exampleClient)
          (renderLogin (phase3Request
            { exampleClient with cnonce := str "ABCD1234", nonce := str "server_nonce" }
            (Crypto.SHA256Hash (str "password"))))] }
    (str "ABCD1234") (Crypto.SHA256Hash (str "password")) phase1Body loginOkBody
    { ErrorCode := 0,
      Result := { Data := some { Nonce := str "server_nonce", DeviceConfirm := exampleConfirm } } }
    { ErrorCode := 0,
      Result := { Data := some { Nonce := str "server_nonce", DeviceConfirm := exampleConfirm },
                  Stok := str "abc123", StartSeq := 100, UserGroup := str "root" } }
    { Nonce := str "server_nonce", DeviceConfirm := exampleConfirm }
    (by decide!) (by decide!) (by decide!) rfl rfl (Or.inl ⟨rfl, by decide!⟩) (by decide!)
    (by decide!)).2.2.1 rfl
  rw [h]
  exact ⟨rfl, rfl, rfl⟩

/-! ## `request.go`: the response of a secure dispatch -/

/-- The function `AESDecrypt` rejects a ciphertext whose length is not a multiple of 16. -/
theorem Crypto.AESDecrypt_length_error (ciphertext key iv : Bytes)
    (h : ciphertext.length % 16 ≠ 0) : ∃ err, Crypto.AESDecrypt ciphertext key iv = .error err := by
  unfold Crypto.AESDecrypt
  split
  · exact ⟨_, rfl⟩
  · split
    · exact ⟨_, rfl⟩
    · rw [if_pos (by simpa [Crypto.blockSize] using h)]
      exact ⟨_, rfl⟩

/-- The function `AESDecrypt` rejects a ciphertext whose decryption carries an invalid padding. -/
theorem Crypto.AESDecrypt_padding_error (ciphertext key iv : Bytes) (block : List Bytes)
    (err : Error) (hb : Crypto.newCipher key = .ok block)
    (h : Crypto.pkcs7Unpad (Crypto.cbcDecrypt block (ciphertext.length / 16) iv ciphertext) =
      .error err) :
    ∃ err, Crypto.AESDecrypt ciphertext key iv = .error err := by
  unfold Crypto.AESDecrypt
  split
  · exact ⟨_, rfl⟩
  · split
    · exact ⟨_, rfl⟩
    · split
      · exact ⟨_, rfl⟩
      · simp only [hb, Crypto.blockSize, h]
        exact ⟨_, rfl⟩

/-- A successful `AESEncrypt` was given a key and an iv of 16 bytes, and `AESDecrypt` recovers
its plaintext. -/
theorem Crypto.AESDecrypt_of_AESEncrypt (pt key iv ct : Bytes)
    (h : Crypto.AESEncrypt pt key iv = .ok ct) : Crypto.AESDecrypt ct key iv = .ok pt := by
  by_cases hk : key.length = 16
  · by_cases hiv : iv.length = 16
    · obtain ⟨ct1, h1, h2⟩ := Crypto.AESDecrypt_AESEncrypt pt key iv hk hiv
      rw [h1] at h
      cases h
      exact h2
    · simp [Crypto.AESEncrypt, hk, hiv] at h
  · simp [Crypto.AESEncrypt, hk] at h

/-- The response handling of `executeSecure` fails when the inner response does not
decrypt. -/
theorem executeSecureResponse_decrypt_error (L : GoLib) (c : Client) (w : World) (body : Bytes)
    (secureResp : SecureResponse) (ct : Bytes)
    (hparse : L.unmarshalSecure body = .ok secureResp) (hcode : secureResp.ErrorCode = 0)
    (hdec : base64Decode secureResp.Result.Response = .ok ct)
    (h : ∃ err, Crypto.AESDecrypt ct c.lsk c.ivb = .error err) :
    ∃ err, (executeSecureResponse L c w body).1 = .error err := by
  obtain ⟨err, h⟩ := h
  simp only [executeSecureResponse, hparse, hcode, ne_eq, not_true_eq_false, if_false, hdec, h]
  exact ⟨_, rfl⟩

/-- Claim C11: in `executeSecure`, once the request is sent and a response with outer status
0 is read and parsed: when `result.response` is `base64(AESEncrypt(R, lsk, ivb))` for a text
`R` that parses as a response with `error_code` 0 and result `r`, the call returns `r` and no
error; when the response field is not valid base64, or its decoded length is not a multiple
of 16, or the decrypted padding is invalid, or the decrypted bytes do not parse, the call
returns an error and no result. -/
theorem C11_executeSecure_response (L : GoLib) (c : Client) (w w1 : World) (payload : Payload)
    (jsonData encrypted secureJSON body : Bytes) (secureResp : SecureResponse)
    (hm : jsonMarshal L payload = .ok jsonData)
    (he : Crypto.AESEncrypt jsonData c.lsk c.ivb = .ok encrypted)
    (hs : L.marshalSecure (secureEnvelope encrypted) = .ok secureJSON)
    (hn : L.newRequest (getRequestURL c) = .ok ())
    (hsend : w.send (securePost c secureJSON) = (.body body, w1))
    (hparse : L.unmarshalSecure body = .ok secureResp) (hcode : secureResp.ErrorCode = 0) :
    (∀ (R ct : Bytes) (apiResp : APIResponse),
        Crypto.AESEncrypt R c.lsk c.ivb = .ok ct →
        secureResp.Result.Response = base64Encode ct →
        L.unmarshalAPI R = .ok apiResp → apiResp.ErrorCode = 0 →
        executeSecure L c w payload =
          (.ok apiResp.Result, { c with seq := intAdd c.seq 1 }, w1)) ∧
      ((∃ err, base64Decode secureResp.Result.Response = .error err) →
        ∃ err, (executeSecure L c w payload).1 = .error err) ∧
      (∀ ct, base64Decode secureResp.Result.Response = .ok ct → ct.length % 16 ≠ 0 →
        ∃ err, (executeSecure L c w payload).1 = .error err) ∧
      (∀ ct block err, base64Decode secureResp.Result.Response = .ok ct →
        Crypto.newCipher c.lsk = .ok block →
        Crypto.pkcs7Unpad (Crypto.cbcDecrypt block (ct.length / 16) c.ivb ct) = .error err →
        ∃ err, (executeSecure L c w payload).1 = .error err) ∧
      (∀ ct decrypted, base64Decode secureResp.Result.Response = .ok ct →
        Crypto.AESDecrypt ct c.lsk c.ivb = .ok decrypted →
        (∃ err, L.unmarshalAPI decrypted = .error err) →
        ∃ err, (executeSecure L c w payload).1 = .error err) := by
  rw [executeSecure_body L c w w1 payload jsonData encrypted secureJSON body () hm he hs hn hsend]
  refine ⟨?_, ?_, ?_, ?_, ?_⟩
  · intro R ct apiResp henc hresp hapi hzero
    have hdec : Crypto.AESDecrypt ct c.lsk c.ivb = .ok R :=
      Crypto.AESDecrypt_of_AESEncrypt R c.lsk c.ivb ct henc
    simp only [executeSecureResponse, hparse, hcode, ne_eq, not_true_eq_false, if_false, hresp,
      base64Decode_encode, hdec, hapi, hzero]
  · rintro ⟨err, h⟩
    simp only [executeSecureResponse, hparse, hcode, ne_eq, not_true_eq_false, if_false, h]
    exact ⟨_, rfl⟩
  · intro ct hdec hlen
    exact executeSecureResponse_decrypt_error L _ w1 body secureResp ct hparse hcode hdec
      (Crypto.AESDecrypt_length_error ct _ _ hlen)
  · intro ct block err hdec hb hpad
    exact executeSecureResponse_decrypt_error L _ w1 body secureResp ct hparse hcode hdec
      (Crypto.AESDecrypt_padding_error ct _ _ block err hb hpad)
  · rintro ct decrypted hdec haes ⟨err, h⟩
    simp only [executeSecureResponse, hparse, hcode, ne_eq, not_true_eq_false, if_false, hdec,
      haes, h]
    exact ⟨_, rfl⟩

/-- Instance of C11: the example session reads the encrypted answer `{"error_code":0,"result":{}}`
to a `getDeviceInfo` request. -/
theorem C11_executeSecure_response_witness :
    executeSecure exampleLib exampleSecureClient ⟨[], [.body secureOkBody], []⟩
        (.value exampleParams) =
      (.ok (some []), { exampleSecureClient with seq := 101 },
        ⟨[], [], [securePost exampleSecureClient exampleSecureJSON]⟩) :=
  (C11_executeSecure_response exampleLib exampleSecureClient ⟨[], [.body secureOkBody], []⟩
    ⟨[], [], [securePost exampleSecureClient exampleSecureJSON]⟩ (.value exampleParams)
    (str "\x7b\"device_info\":\x7b\"name\":[\"basic_info\"]\x7d\x7d") _ exampleSecureJSON
    secureOkBody
    { ErrorCode := 0,
      Result := { Response := str "8aLNJ82fD7NETzqL1ZJqteZXt+Gbl+9o/Cs8fhC0Q+w=" } }
    rfl rfl (by decide!) rfl (by decide!) (by decide!) rfl).1
    commandOkBody _ { ErrorCode := 0, Result := some [] } rfl (by decide!) (by decide!) rfl

/-! ## `request.go`: statuses reported by the device -/

/-- The function `executePlain` once the request has been sent and a response body parsed. -/
theorem executePlain_body (L : GoLib) (c : Client) (w w1 : World) (payload : Payload)
    (jsonData body : Bytes) (u : Unit) (apiResp : APIResponse)
    (hm : jsonMarshal L payload = .ok jsonData)
    (hn : L.newRequest (getRequestURL c) = .ok u)
    (hsend : w.send (newPost c (getRequestURL c) jsonData) = (.body body, w1))
    (hparse : L.unmarshalAPI body = .ok apiResp) :
    executePlain L c w payload =
      if apiResp.ErrorCode ≠ 0 then
        if apiResp.ErrorCode = ErrorCodeInvalidToken then
          (.error (.tapo apiResp.ErrorCode "session expired - please re-authenticate"),
            { c with stok := [] }, w1)
        else (.error (.tapo apiResp.ErrorCode (ErrorMessage apiResp.ErrorCode)), c, w1)
      else (.ok apiResp.Result, c, w1) := by
  simp only [executePlain, hm, hn, hsend, hparse, NewTapoError]

/-- What `executePlain` adds to the requests sent: nothing when it returns before sending,
else the one request carrying the serialised payload. -/
theorem executePlain_sent (L : GoLib) (c : Client) (w : World) (payload : Payload) :
    ((executePlain L c w payload).2.1 = c ∧ (executePlain L c w payload).2.2 = w ∧
        ∃ err, (executePlain L c w payload).1 = .error err) ∨
      (∃ jsonData, jsonMarshal L payload = .ok jsonData ∧
        L.newRequest (getRequestURL c) = .ok () ∧
        (executePlain L c w payload).2.2.sent =
          w.sent ++ [newPost c (getRequestURL c) jsonData]) := by
  cases hm : jsonMarshal L payload with
  | error err =>
    left
    have hE : executePlain L c w payload =
        (.error (.wrap "failed to marshal request" err), c, w) := by
      simp only [executePlain, hm]
    rw [hE]
    exact ⟨rfl, rfl, _, rfl⟩
  | ok jsonData =>
    cases hn : L.newRequest (getRequestURL c) with
    | error err =>
      left
      have hE : executePlain L c w payload =
          (.error (.wrap "failed to create request" err), c, w) := by
        simp only [executePlain, hm, hn]
      rw [hE]
      exact ⟨rfl, rfl, _, rfl⟩
    | ok u =>
      right
      refine ⟨jsonData, rfl, rfl, ?_⟩
      have hs := World.send_sent w (newPost c (getRequestURL c) jsonData)
      rcases hsend : w.send (newPost c (getRequestURL c) jsonData) with ⟨reply, w1⟩
      rw [hsend] at hs
      simp only at hs
      cases reply with
      | doError err => simp only [executePlain, hm, hn, hsend]; exact hs
      | readError err => simp only [executePlain, hm, hn, hsend]; exact hs
      | body body =>
        simp only [executePlain, hm, hn, hsend]
        repeat' split
        all_goals exact hs

/-- The guard of `Execute` and `ExecuteDirect` does nothing for a client holding a token. -/
theorem ensureAuthenticated_of_token (L : GoLib) (c : Client) (w : World) (h : c.stok ≠ []) :
    ensureAuthenticated L c w = (none, c, w) := by
  simp [ensureAuthenticated, IsAuthenticated, h]

/-- The guard of `Execute` and `ExecuteDirect` runs `Authenticate` for a client without a
token, and wraps its error. -/
theorem ensureAuthenticated_no_token (L : GoLib) (c : Client) (w : World) (h : c.stok = []) :
    (ensureAuthenticated L c w).2 = (Authenticate L c w).2 ∧
      ((Authenticate L c w).1 = none → (ensureAuthenticated L c w).1 = none) ∧
      (∀ err, (Authenticate L c w).1 = some err →
        (ensureAuthenticated L c w).1 = some (.wrap "authentication failed" err)) := by
  rcases ha : Authenticate L c w with ⟨r, c1, w1⟩
  cases r with
  | none => simp [ensureAuthenticated, IsAuthenticated, h, ha]
  | some err => simp [ensureAuthenticated, IsAuthenticated, h, ha]

/-- Claim C12: for `executePlain` and `executeSecure` alike, when the response that is read
and parsed has the non-zero outer `error_code` `code`: exactly one request was sent by the
call; if `code` is the invalid-token status -40401, the call returns a `TapoError` of code
-40401 and the session token is empty, so that `IsAuthenticated()` is false and the guard of
the next `Execute` runs `Authenticate`; for any other `code` the call returns a `TapoError`
of code `code` and the session token is unchanged. -/
theorem C12_outer_status (L : GoLib) (c : Client) (w w1 : World) (payload : Payload)
    (body : Bytes) (code : Int) (hcode : code ≠ 0) :
    (∀ (jsonData : Bytes) (apiResp : APIResponse),
        jsonMarshal L payload = .ok jsonData →
        L.newRequest (getRequestURL c) = .ok () →
        w.send (newPost c (getRequestURL c) jsonData) = (.body body, w1) →
        L.unmarshalAPI body = .ok apiResp → apiResp.ErrorCode = code →
        w1.sent = w.sent ++ [newPost c (getRequestURL c) jsonData] ∧
          (code = -40401 →
            executePlain L c w payload =
                (.error (.tapo (-40401) "session expired - please re-authenticate"),
                  { c with stok := [] }, w1) ∧
              IsAuthenticated (executePlain L c w payload).2.1 = false ∧
              ∀ w2, (ensureAuthenticated L (executePlain L c w payload).2.1 w2).2 =
                (Authenticate L (executePlain L c w payload).2.1 w2).2) ∧
          (code ≠ -40401 →
            executePlain L c w payload = (.error (.tapo code (ErrorMessage code)), c, w1) ∧
              (executePlain L c w payload).2.1.stok = c.stok)) ∧
      (∀ (jsonData encrypted secureJSON : Bytes) (secureResp : SecureResponse),
        jsonMarshal L payload = .ok jsonData →
        Crypto.AESEncrypt jsonData c.lsk c.ivb = .ok encrypted →
        L.marshalSecure (secureEnvelope encrypted) = .ok secureJSON →
        L.newRequest (getRequestURL c) = .ok () →
        w.send (securePost c secureJSON) = (.body body, w1) →
        L.unmarshalSecure body = .ok secureResp → secureResp.ErrorCode = code →
        w1.sent = w.sent ++ [securePost c secureJSON] ∧
          (code = -40401 →
            executeSecure L c w payload =
                (.error (.tapo (-40401) "session expired - please re-authenticate"),
                  { c with seq := intAdd c.seq 1, stok := [] }, w1) ∧
              IsAuthenticated (executeSecure L c w payload).2.1 = false ∧
              ∀ w2, (ensureAuthenticated L (executeSecure L c w payload).2.1 w2).2 =
                (Authenticate L (executeSecure L c w payload).2.1 w2).2) ∧
          (code ≠ -40401 →
            executeSecure L c w payload =
                (.error (.tapo code (ErrorMessage code)), { c with seq := intAdd c.seq 1 },
                  w1) ∧
              (executeSecure L c w payload).2.1.stok = c.stok)) := by
  constructor
  · intro jsonData apiResp hm hn hsend hparse hc
    have hsent : w1.sent = w.sent ++ [newPost c (getRequestURL c) jsonData] := by
      have := World.send_sent w (newPost c (getRequestURL c) jsonData)
      rw [hsend] at this
      exact this
    have hbody := executePlain_body L c w w1 payload jsonData body () apiResp hm hn hsend hparse
    rw [hc] at hbody
    refine ⟨hsent, ?_, ?_⟩
    · intro h
      subst h
      have hE : executePlain L c w payload =
          (.error (.tapo (-40401) "session expired - please re-authenticate"),
            { c with stok := [] }, w1) := by
        rw [hbody]
        rfl
      rw [hE]
      exact ⟨rfl, rfl, fun w2 => (ensureAuthenticated_no_token L _ w2 rfl).1⟩
    · intro h
      have hE : executePlain L c w payload =
          (.error (.tapo code (ErrorMessage code)), c, w1) := by
        rw [hbody, if_pos hcode, if_neg (by simpa [ErrorCodeInvalidToken] using h)]
      rw [hE]
      exact ⟨rfl, rfl⟩
  · intro jsonData encrypted secureJSON secureResp hm he hs hn hsend hparse hc
    have hsent : w1.sent = w.sent ++ [securePost c secureJSON] := by
      have := World.send_sent w (securePost c secureJSON)
      rw [hsend] at this
      exact this
    have hbody :=
      executeSecure_body L c w w1 payload jsonData encrypted secureJSON body () hm he hs hn hsend
    refine ⟨hsent, ?_, ?_⟩
    · intro h
      subst h
      have hE : executeSecure L c w payload =
          (.error (.tapo (-40401) "session expired - please re-authenticate"),
            { c with seq := intAdd c.seq 1, stok := [] }, w1) := by
        rw [hbody]
        simp only [executeSecureResponse, hparse, hc, NewTapoError]
        rfl
      rw [hE]
      exact ⟨rfl, rfl, fun w2 => (ensureAuthenticated_no_token L _ w2 rfl).1⟩
    · intro h
      have hE : executeSecure L c w payload =
          (.error (.tapo code (ErrorMessage code)), { c with seq := intAdd c.seq 1 }, w1) := by
        rw [hbody]
        simp only [executeSecureResponse, hparse, hc, NewTapoError, ne_eq, hcode,
          not_false_eq_true, if_true]
        rw [if_neg (by simpa [ErrorCodeInvalidToken] using h)]
      rw [hE]
      exact ⟨rfl, rfl⟩

/-- Instance of C12: the example camera answers a plain command with the invalid-token
status, and a secure command with the rate-limit status. -/
theorem C12_outer_status_witness :
    executePlain exampleLib { exampleClient with stok := str "abc123" }
        ⟨[], [.body invalidTokenBody], []⟩ (.value exampleParams) =
      (.error (.tapo (-40401) "session expired - please re-authenticate"),
        { exampleClient with stok := [] },
        ⟨[], [], [newPost { exampleClient with stok := str "abc123" }
          (getRequestURL { exampleClient with stok := str "abc123" })
          (str "\x7b\"device_info\":\x7b\"name\":[\"basic_info\"]\x7d\x7d")]⟩) :=
  (((C12_outer_status exampleLib { exampleClient with stok := str "abc123" }
    ⟨[], [.body invalidTokenBody], []⟩
    ⟨[], [], [newPost { exampleClient with stok := str "abc123" }
      (getRequestURL { exampleClient with stok := str "abc123" })
      (str "\x7b\"device_info\":\x7b\"name\":[\"basic_info\"]\x7d\x7d")]⟩
    (.value exampleParams) invalidTokenBody (-40401) (by decide)).1
    (str "\x7b\"device_info\":\x7b\"name\":[\"basic_info\"]\x7d\x7d") { ErrorCode := -40401 }
    rfl rfl (by decide!) (by decide!) rfl).2.1 rfl).1

/-- Claim C13 (the code at the failing input): the example session, holding the token
`abc123`, sends a `getDeviceInfo` request and reads a response with outer status 0 whose
decrypted inner response is `{"error_code":-40401}`. `executeSecure` returns the `TapoError`
of code -40401 with the taxonomy message, and the session token is still `abc123`, so
`IsAuthenticated()` stays true; the same status in the outer response clears the token. -/
theorem C13_inner_invalid_token :
    executeSecure exampleLib exampleSecureClient ⟨[], [.body secureInnerExpiredBody], []⟩
        (.value exampleParams) =
      (.error (.tapo (-40401) "Invalid or expired token"),
        { exampleSecureClient with seq := 101 },
        ⟨[], [], [securePost exampleSecureClient exampleSecureJSON]⟩) ∧
      (executeSecure exampleLib exampleSecureClient ⟨[], [.body secureInnerExpiredBody], []⟩
        (.value exampleParams)).2.1.stok = str "abc123" ∧
      IsAuthenticated
        (executeSecure exampleLib exampleSecureClient ⟨[], [.body secureInnerExpiredBody], []⟩
          (.value exampleParams)).2.1 = true ∧
      (executeSecure exampleLib exampleSecureClient ⟨[], [.body invalidTokenBody], []⟩
        (.value exampleParams)).2.1.stok = [] := by
  decide!

/-! ## Errors carrying a status of the device -/

/-- A non-zero status in the phase 1 response fails `secureAuthenticate` with that code and
the message "failed to get server nonce", whether or not the response has a data object. -/
theorem secureAuthenticate_phase1_status (L : GoLib) (c : Client) (w w0 w1 : World)
    (cnonce : Str) (resp : Bytes) (loginResp : LoginResponse)
    (hcn : Crypto.GenerateCnonce w = (cnonce, w0))
    (hraw : makeRawRequest L { c with cnonce := cnonce } w0
      (phase1Request { c with cnonce := cnonce }) = (.ok resp, w1))
    (hparse : L.unmarshalLogin resp {} = .ok loginResp) (hcode : loginResp.ErrorCode ≠ 0) :
    secureAuthenticate L c w =
      (some (.tapo loginResp.ErrorCode "failed to get server nonce"),
        { c with cnonce := cnonce }, w1) := by
  cases hdata : loginResp.Result.Data with
  | none => simp only [secureAuthenticate, hcn, hraw, hparse, hdata, NewTapoError]
  | some data =>
    simp only [secureAuthenticate, hcn, hraw, hparse, hdata, NewTapoError, ne_eq, hcode,
      not_false_eq_true, if_true]

/-- A phase 1 response without a data object fails `secureAuthenticate` with the status of
the response, zero included, and the message "failed to get server nonce". -/
theorem secureAuthenticate_phase1_no_data (L : GoLib) (c : Client) (w w0 w1 : World)
    (cnonce : Str) (resp : Bytes) (loginResp : LoginResponse)
    (hcn : Crypto.GenerateCnonce w = (cnonce, w0))
    (hraw : makeRawRequest L { c with cnonce := cnonce } w0
      (phase1Request { c with cnonce := cnonce }) = (.ok resp, w1))
    (hparse : L.unmarshalLogin resp {} = .ok loginResp)
    (hdata : loginResp.Result.Data = none) :
    secureAuthenticate L c w =
      (some (.tapo loginResp.ErrorCode "failed to get server nonce"),
        { c with cnonce := cnonce }, w1) := by
  simp only [secureAuthenticate, hcn, hraw, hparse, hdata, NewTapoError]

/-- A successful phase 1 whose `device_confirm` is validated hands over to phase 3, on the
client holding both nonces, the validated hash and the keys. -/
theorem secureAuthenticate_phase3 (L : GoLib) (c : Client) (w w0 w1 : World)
    (cnonce hashedPass : Str) (resp : Bytes) (loginResp : LoginResponse) (data : LoginData)
    (hcn : Crypto.GenerateCnonce w = (cnonce, w0))
    (hraw : makeRawRequest L { c with cnonce := cnonce } w0
      (phase1Request { c with cnonce := cnonce }) = (.ok resp, w1))
    (hparse : L.unmarshalLogin resp {} = .ok loginResp)
    (hcode : loginResp.ErrorCode = 0) (hdata : loginResp.Result.Data = some data)
    (hval : (hashedPass = Crypto.SHA256Hash c.Password ∧
        validateDeviceConfirm { c with cnonce := cnonce, nonce := data.Nonce }
          (Crypto.SHA256Hash c.Password) data.DeviceConfirm = true) ∨
      (hashedPass = Crypto.MD5Hash c.Password ∧
        validateDeviceConfirm { c with cnonce := cnonce, nonce := data.Nonce }
          (Crypto.SHA256Hash c.Password) data.DeviceConfirm = false ∧
        validateDeviceConfirm { c with cnonce := cnonce, nonce := data.Nonce }
          (Crypto.MD5Hash c.Password) data.DeviceConfirm = true)) :
    secureAuthenticate L c w =
      securePhase3 L
        (generateEncryptionKeys
          { c with cnonce := cnonce, nonce := data.Nonce, hashedPass := hashedPass }) w1
        hashedPass loginResp := by
  have h2 : secureAuthenticate L c w =
      securePhase2 L { c with cnonce := cnonce, nonce := data.Nonce } w1 loginResp
        data.DeviceConfirm := by
    simp only [secureAuthenticate, hcn, hraw, hparse, hdata, hcode, ne_eq, not_true_eq_false,
      if_false]
  rw [h2]
  rcases hval with ⟨hp, hsha⟩ | ⟨hp, hsha, hmd5⟩
  · subst hp
    simp only [securePhase2, hsha, if_true]
  · subst hp
    simp only [securePhase2, hsha, hmd5, if_true, Bool.false_eq_true, if_false]

/-- A non-zero status in the phase 3 response fails the login with that code and its
taxonomy message, and changes nothing. -/
theorem securePhase3_status (L : GoLib) (c : Client) (w w1 : World) (hashedPass : Str)
    (resp : Bytes) (loginResp0 loginResp : LoginResponse)
    (hraw : makeRawRequest L c w (phase3Request c hashedPass) = (.ok resp, w1))
    (hparse : L.unmarshalLogin resp loginResp0 = .ok loginResp)
    (hcode : loginResp.ErrorCode ≠ 0) :
    securePhase3 L c w hashedPass loginResp0 =
      (some (.tapo loginResp.ErrorCode (ErrorMessage loginResp.ErrorCode)), c, w1) := by
  simp only [securePhase3, hraw, hparse, ne_eq, hcode, not_false_eq_true, if_true, NewTapoError]

/-- A non-zero status in the legacy login response fails the login with that code and its
taxonomy message, and changes nothing. -/
theorem legacyAuthenticate_status (L : GoLib) (c : Client) (w w1 : World) (resp : Bytes)
    (loginResp : LoginResponse)
    (hraw : makeRawRequest L c w (legacyRequest c (Crypto.MD5Hash c.Password)) = (.ok resp, w1))
    (hparse : L.unmarshalLogin resp {} = .ok loginResp) (hcode : loginResp.ErrorCode ≠ 0) :
    legacyAuthenticate L c w =
      (some (.tapo loginResp.ErrorCode (ErrorMessage loginResp.ErrorCode)), c, w1) := by
  simp only [legacyAuthenticate, hraw, hparse, ne_eq, hcode, not_false_eq_true, if_true,
    NewTapoError]

/-- The function `Authenticate` once the detection has answered. -/
theorem Authenticate_of_detect (L : GoLib) (c : Client) (w w1 : World) (isSecure : Bool)
    (h : detectConnectionType L c w = (.ok isSecure, w1)) :
    Authenticate L c w =
      if isSecure then secureAuthenticate L { c with isSecure := isSecure } w1
      else legacyAuthenticate L { c with isSecure := isSecure } w1 := by
  simp only [Authenticate, h]

/-- A non-zero status in the decrypted inner response fails `executeSecure` with that code
and its taxonomy message; the client is changed in `seq` only. -/
theorem executeSecure_inner_status (L : GoLib) (c : Client) (w w1 : World) (payload : Payload)
    (jsonData encrypted secureJSON body ct decrypted : Bytes) (secureResp : SecureResponse)
    (apiResp : APIResponse)
    (hm : jsonMarshal L payload = .ok jsonData)
    (he : Crypto.AESEncrypt jsonData c.lsk c.ivb = .ok encrypted)
    (hs : L.marshalSecure (secureEnvelope encrypted) = .ok secureJSON)
    (hn : L.newRequest (getRequestURL c) = .ok ())
    (hsend : w.send (securePost c secureJSON) = (.body body, w1))
    (hparse : L.unmarshalSecure body = .ok secureResp) (hcode : secureResp.ErrorCode = 0)
    (hdec : base64Decode secureResp.Result.Response = .ok ct)
    (haes : Crypto.AESDecrypt ct c.lsk c.ivb = .ok decrypted)
    (hapi : L.unmarshalAPI decrypted = .ok apiResp) (hinner : apiResp.ErrorCode ≠ 0) :
    executeSecure L c w payload =
      (.error (.tapo apiResp.ErrorCode (ErrorMessage apiResp.ErrorCode)),
        { c with seq := intAdd c.seq 1 }, w1) := by
  rw [executeSecure_body L c w w1 payload jsonData encrypted secureJSON body () hm he hs hn hsend]
  simp only [executeSecureResponse, hparse, hcode, ne_eq, not_true_eq_false, if_false, hdec,
    haes, hapi, hinner, not_false_eq_true, if_true, NewTapoError]

/-- A non-zero status in the outer response fails `executeSecure` with that code; the
message is the taxonomy message unless the status is the invalid-token one. -/
theorem executeSecure_outer_status (L : GoLib) (c : Client) (w w1 : World) (payload : Payload)
    (jsonData encrypted secureJSON body : Bytes) (secureResp : SecureResponse)
    (hm : jsonMarshal L payload = .ok jsonData)
    (he : Crypto.AESEncrypt jsonData c.lsk c.ivb = .ok encrypted)
    (hs : L.marshalSecure (secureEnvelope encrypted) = .ok secureJSON)
    (hn : L.newRequest (getRequestURL c) = .ok ())
    (hsend : w.send (securePost c secureJSON) = (.body body, w1))
    (hparse : L.unmarshalSecure body = .ok secureResp) (hcode : secureResp.ErrorCode ≠ 0) :
    (executeSecure L c w payload).1 =
      .error (.tapo secureResp.ErrorCode
        (if secureResp.ErrorCode = -40401 then "session expired - please re-authenticate"
         else ErrorMessage secureResp.ErrorCode)) := by
  rw [executeSecure_body L c w w1 payload jsonData encrypted secureJSON body () hm he hs hn hsend]
  simp only [executeSecureResponse, hparse, ne_eq, hcode, not_false_eq_true, if_true,
    NewTapoError, ErrorCodeInvalidToken]
  split <;> rfl

/-- A non-zero status in the response fails `executePlain` with that code; the message is
the taxonomy message unless the status is the invalid-token one. -/
theorem executePlain_status (L : GoLib) (c : Client) (w w1 : World) (payload : Payload)
    (jsonData body : Bytes) (apiResp : APIResponse)
    (hm : jsonMarshal L payload = .ok jsonData)
    (hn : L.newRequest (getRequestURL c) = .ok ())
    (hsend : w.send (newPost c (getRequestURL c) jsonData) = (.body body, w1))
    (hparse : L.unmarshalAPI body = .ok apiResp) (hcode : apiResp.ErrorCode ≠ 0) :
    (executePlain L c w payload).1 =
      .error (.tapo apiResp.ErrorCode
        (if apiResp.ErrorCode = -40401 then "session expired - please re-authenticate"
         else ErrorMessage apiResp.ErrorCode)) := by
  rw [executePlain_body L c w w1 payload jsonData body () apiResp hm hn hsend hparse,
    if_pos hcode]
  simp only [ErrorCodeInvalidToken]
  split <;> rfl

/-- The function `ExecuteDirect` past its guard is the dispatch of the payload. -/
theorem ExecuteDirect_of_guard (L : GoLib) (c c1 : Client) (w w1 : World) (payload : Payload)
    (h : ensureAuthenticated L c w = (none, c1, w1)) :
    ExecuteDirect L c w payload =
      if c1.isSecure then executeSecure L c1 w1 payload else executePlain L c1 w1 payload := by
  simp only [ExecuteDirect, h]

/-- The function `ExecuteDirect` returns the error of its guard. -/
theorem ExecuteDirect_guard_error (L : GoLib) (c c1 : Client) (w w1 : World)
    (payload : Payload) (err : Error) (h : ensureAuthenticated L c w = (some err, c1, w1)) :
    ExecuteDirect L c w payload = (.error err, c1, w1) := by
  simp only [ExecuteDirect, h]

/-- The function `Execute` is `ExecuteDirect` on the batch envelope of the one request. -/
theorem Execute_eq_ExecuteDirect (L : GoLib) (c : Client) (w : World) (method : Str)
    (params : Value) :
    Execute L c w method params =
      ExecuteDirect L c w (.multipleRequest (multipleRequest method params)) := rfl

/-- Claim C14 (counterexample): the error `ExecuteDirect` returns for the outer status -40401
carries the message "session expired - please re-authenticate", which is not
`ErrorMessage(-40401)`; the error `Authenticate` returns for a phase 1 status -40404 carries
"failed to get server nonce", which is not `ErrorMessage(-40404)`; and the error `Execute`
returns when the login inside it is refused with -40404 is the `TapoError` wrapped under
"authentication failed", not a `TapoError`. -/
theorem C14_counterexample :
    (ExecuteDirect exampleLib { exampleClient with stok := str "abc123" }
        ⟨[], [.body invalidTokenBody], []⟩ (.value exampleParams)).1 =
      .error (.tapo (-40401) "session expired - please re-authenticate") ∧
    "session expired - please re-authenticate" ≠ ErrorMessage (-40401) ∧
    (Authenticate exampleLib exampleClient
        ⟨[some (0xAB, 0xCD, 0x12, 0x34)], [.body detectSecureBody, .body rateLimitedBody],
          []⟩).1 =
      some (.tapo (-40404) "failed to get server nonce") ∧
    "failed to get server nonce" ≠ ErrorMessage (-40404) ∧
    (Execute exampleLib exampleClient ⟨[], [.body invalidTokenBody, .body rateLimitedBody], []⟩
        (str "getDeviceInfo") exampleParams).1 =
      .error (.wrap "authentication failed"
        (.tapo (-40404) "Rate limited - temporary suspension")) := by
  decide!

/-- Claim C14 (amended): every error returned because the device reported a non-zero status
`code` carries a `TapoError` of that code. From `Authenticate` it is the `TapoError` itself,
with the taxonomy message `ErrorMessage(code)` for the legacy login and for phase 3, and
with "failed to get server nonce" for phase 1. From `ExecuteDirect` (and from `Execute`,
which is `ExecuteDirect` on the batch envelope) it is the `TapoError` itself for a dispatch
response, with `ErrorMessage(code)` except for the outer status -40401, whose message is
"session expired - please re-authenticate"; an error of the `Authenticate` run by the guard
is returned wrapped under "authentication failed". `NewTapoError(code, msg)` keeps `code`
and `msg`, and `Error()` returns `msg`. -/
theorem C14_status_errors (L : GoLib) (code : Int) (hcode : code ≠ 0) :
    (∀ msg, NewTapoError code msg = .tapo code msg ∧ (NewTapoError code msg).Error = msg) ∧
    (∀ (c : Client) (w w0 w1 : World) (resp : Bytes) (loginResp : LoginResponse),
      detectConnectionType L c w = (.ok false, w0) →
      makeRawRequest L { c with isSecure := false } w0
        (legacyRequest { c with isSecure := false } (Crypto.MD5Hash c.Password)) =
          (.ok resp, w1) →
      L.unmarshalLogin resp {} = .ok loginResp → loginResp.ErrorCode = code →
      (Authenticate L c w).1 = some (.tapo code (ErrorMessage code))) ∧
    (∀ (c : Client) (w w0 w0a w1 : World) (cnonce : Str) (resp : Bytes)
        (loginResp : LoginResponse),
      detectConnectionType L c w = (.ok true, w0) →
      Crypto.GenerateCnonce w0 = (cnonce, w0a) →
      makeRawRequest L { c with isSecure := true, cnonce := cnonce } w0a
        (phase1Request { c with isSecure := true, cnonce := cnonce }) = (.ok resp, w1) →
      L.unmarshalLogin resp {} = .ok loginResp → loginResp.ErrorCode = code →
      (Authenticate L c w).1 = some (.tapo code "failed to get server nonce")) ∧
    (∀ (c c3 : Client) (w w0 w1 w3 : World) (hashedPass : Str) (resp3 : Bytes)
        (loginResp loginResp3 : LoginResponse),
      detectConnectionType L c w = (.ok true, w0) →
      secureAuthenticate L { c with isSecure := true } w0 =
        securePhase3 L c3 w1 hashedPass loginResp →
      makeRawRequest L c3 w1 (phase3Request c3 hashedPass) = (.ok resp3, w3) →
      L.unmarshalLogin resp3 loginResp = .ok loginResp3 → loginResp3.ErrorCode = code →
      (Authenticate L c w).1 = some (.tapo code (ErrorMessage code))) ∧
    (∀ (c : Client) (w : World) (payload : Payload) (err : Error),
      c.stok = [] → (Authenticate L c w).1 = some err →
      (ExecuteDirect L c w payload).1 = .error (.wrap "authentication failed" err)) ∧
    (∀ (c c1 : Client) (w w1 w2 : World) (payload : Payload) (jsonData body : Bytes)
        (apiResp : APIResponse),
      ensureAuthenticated L c w = (none, c1, w1) → c1.isSecure = false →
      jsonMarshal L payload = .ok jsonData → L.newRequest (getRequestURL c1) = .ok () →
      w1.send (newPost c1 (getRequestURL c1) jsonData) = (.body body, w2) →
      L.unmarshalAPI body = .ok apiResp → apiResp.ErrorCode = code →
      (ExecuteDirect L c w payload).1 =
        .error (.tapo code
          (if code = -40401 then "session expired - please re-authenticate"
           else ErrorMessage code))) ∧
    (∀ (c c1 : Client) (w w1 w2 : World) (payload : Payload)
        (jsonData encrypted secureJSON body : Bytes) (secureResp : SecureResponse),
      ensureAuthenticated L c w = (none, c1, w1) → c1.isSecure = true →
      jsonMarshal L payload = .ok jsonData →
      Crypto.AESEncrypt jsonData c1.lsk c1.ivb = .ok encrypted →
      L.marshalSecure (secureEnvelope encrypted) = .ok secureJSON →
      L.newRequest (getRequestURL c1) = .ok () →
      w1.send (securePost c1 secureJSON) = (.body body, w2) →
      L.unmarshalSecure body = .ok secureResp →
      (secureResp.ErrorCode = code →
        (ExecuteDirect L c w payload).1 =
          .error (.tapo code
            (if code = -40401 then "session expired - please re-authenticate"
             else ErrorMessage code))) ∧
      (∀ (ct decrypted : Bytes) (apiResp : APIResponse),
        secureResp.ErrorCode = 0 →
        base64Decode secureResp.Result.Response = .ok ct →
        Crypto.AESDecrypt ct c1.lsk c1.ivb = .ok decrypted →
        L.unmarshalAPI decrypted = .ok apiResp → apiResp.ErrorCode = code →
        (ExecuteDirect L c w payload).1 = .error (.tapo code (ErrorMessage code)))) ∧
    (∀ (c : Client) (w : World) (method : Str) (params : Value),
      Execute L c w method params =
        ExecuteDirect L c w (.multipleRequest (multipleRequest method params))) := by
  refine ⟨fun msg => ⟨rfl, rfl⟩, ?_, ?_, ?_, ?_, ?_, ?_, fun c w method params => rfl⟩
  · intro c w w0 w1 resp loginResp hdet hraw hparse hc
    rw [Authenticate_of_detect L c w w0 false hdet]
    simp only [Bool.false_eq_true, if_false]
    rw [legacyAuthenticate_status L _ w0 w1 resp loginResp hraw hparse (by rw [hc]; exact hcode),
      hc]
  · intro c w w0 w0a w1 cnonce resp loginResp hdet hcn hraw hparse hc
    rw [Authenticate_of_detect L c w w0 true hdet]
    simp only [if_true]
    rw [secureAuthenticate_phase1_status L { c with isSecure := true } w0 w0a w1 cnonce resp loginResp hcn hraw hparse
      (by rw [hc]; exact hcode), hc]
  · intro c c3 w w0 w1 w3 hashedPass resp3 loginResp loginResp3 hdet hsec hraw hparse hc
    rw [Authenticate_of_detect L c w w0 true hdet]
    simp only [if_true]
    rw [hsec, securePhase3_status L c3 w1 w3 hashedPass resp3 loginResp loginResp3 hraw hparse
      (by rw [hc]; exact hcode), hc]
  · intro c w payload err hstok herr
    have hg := (ensureAuthenticated_no_token L c w hstok).2.2 err herr
    rcases hen : ensureAuthenticated L c w with ⟨r, c1, w1⟩
    rw [hen] at hg
    simp only at hg
    subst hg
    rw [ExecuteDirect_guard_error L c c1 w w1 payload _ hen]
  · intro c c1 w w1 w2 payload jsonData body apiResp hen hsec hm hn hsend hparse hc
    rw [ExecuteDirect_of_guard L c c1 w w1 payload hen, hsec]
    simp only [Bool.false_eq_true, if_false]
    rw [executePlain_status L c1 w1 w2 payload jsonData body apiResp hm hn hsend hparse
      (by rw [hc]; exact hcode), hc]
  · intro c c1 w w1 w2 payload jsonData encrypted secureJSON body secureResp hen hsec hm he hs
      hn hsend hparse
    rw [ExecuteDirect_of_guard L c c1 w w1 payload hen, hsec]
    simp only [if_true]
    constructor
    · intro hc
      rw [executeSecure_outer_status L c1 w1 w2 payload jsonData encrypted secureJSON body
        secureResp hm he hs hn hsend hparse (by rw [hc]; exact hcode), hc]
    · intro ct decrypted apiResp h0 hdec haes hapi hc
      rw [executeSecure_inner_status L c1 w1 w2 payload jsonData encrypted secureJSON body ct
        decrypted secureResp apiResp hm he hs hn hsend hparse h0 hdec haes hapi
        (by rw [hc]; exact hcode), hc]

/-- Instance of C14: the rate-limit status -40404 in a plain dispatch response and in the
legacy login response of the example camera. -/
theorem C14_status_errors_witness :
    (ExecuteDirect exampleLib { exampleClient with stok := str "abc123" }
        ⟨[], [.body rateLimitedBody], []⟩ (.value exampleParams)).1 =
      .error (.tapo (-40404)
        (if (-40404 : Int) = -40401 then "session expired - please re-authenticate"
         else ErrorMessage (-40404))) :=
  (C14_status_errors exampleLib (-40404) (by decide)).2.2.2.2.2.1
    { exampleClient with stok := str "abc123" } { exampleClient with stok := str "abc123" }
    ⟨[], [.body rateLimitedBody], []⟩ ⟨[], [.body rateLimitedBody], []⟩
    ⟨[], [], [newPost { exampleClient with stok := str "abc123" }
      (getRequestURL { exampleClient with stok := str "abc123" })
      (str "\x7b\"device_info\":\x7b\"name\":[\"basic_info\"]\x7d\x7d")]⟩
    (.value exampleParams) (str "\x7b\"device_info\":\x7b\"name\":[\"basic_info\"]\x7d\x7d")
    rateLimitedBody { ErrorCode := -40404 } (by decide!) rfl rfl rfl (by decide!) (by decide!)
    rfl

/-! ## The requests of a login all go to the base URL -/

theorem SentTo.refl (url : Str) (w : World) : SentTo url w w := ⟨[], by simp, by simp⟩

theorem SentTo.of_sent_eq (url : Str) (w w1 : World) (h : w1.sent = w.sent) : SentTo url w w1 :=
  ⟨[], by simp [h], by simp⟩

theorem SentTo.trans (url : Str) (w w1 w2 : World) (h1 : SentTo url w w1)
    (h2 : SentTo url w1 w2) : SentTo url w w2 := by
  obtain ⟨r1, e1, a1⟩ := h1
  obtain ⟨r2, e2, a2⟩ := h2
  refine ⟨r1 ++ r2, by rw [e2, e1, List.append_assoc], ?_⟩
  intro r hr
  rcases List.mem_append.mp hr with h | h
  · exact a1 r h
  · exact a2 r h

theorem makeRawRequest_sentTo (L : GoLib) (c : Client) (w : World) (req : LoginRequest) :
    SentTo (getBaseURL c) w (makeRawRequest L c w req).2 := by
  cases hm : L.marshalLogin req with
  | error err =>
    simp only [makeRawRequest, hm]
    exact SentTo.refl _ _
  | ok jsonData =>
    cases hn : L.newRequest (getBaseURL c) with
    | error err =>
      simp only [makeRawRequest, hm, hn]
      exact SentTo.refl _ _
    | ok u =>
      have hs := World.send_sent w (newPost c (getBaseURL c) jsonData)
      have h : SentTo (getBaseURL c) w (w.send (newPost c (getBaseURL c) jsonData)).2 :=
        ⟨[newPost c (getBaseURL c) jsonData], hs, by simp [newPost]⟩
      rcases hsend : w.send (newPost c (getBaseURL c) jsonData) with ⟨reply, w1⟩
      rw [hsend] at h
      cases reply <;> simp only [makeRawRequest, hm, hn, hsend] <;> exact h

theorem detectConnectionType_sentTo (L : GoLib) (c : Client) (w : World) :
    SentTo (getBaseURL c) w (detectConnectionType L c w).2 := by
  have h := makeRawRequest_sentTo L c w (detectRequest c)
  unfold detectConnectionType
  rcases hr : makeRawRequest L c w (detectRequest c) with ⟨r, w1⟩
  rw [hr] at h
  cases r with
  | error err => exact h
  | ok resp =>
    simp only
    repeat' split
    all_goals exact h

theorem securePhase3_sentTo (L : GoLib) (c : Client) (w : World) (hashedPass : Str)
    (loginResp : LoginResponse) :
    SentTo (getBaseURL c) w (securePhase3 L c w hashedPass loginResp).2.2 := by
  have h := makeRawRequest_sentTo L c w (phase3Request c hashedPass)
  unfold securePhase3
  rcases hr : makeRawRequest L c w (phase3Request c hashedPass) with ⟨r, w1⟩
  rw [hr] at h
  cases r with
  | error err => exact h
  | ok resp =>
    simp only
    repeat' split
    all_goals exact h

theorem securePhase2_sentTo (L : GoLib) (c : Client) (w : World) (loginResp : LoginResponse)
    (deviceConfirm : Str) :
    SentTo (getBaseURL c) w (securePhase2 L c w loginResp deviceConfirm).2.2 := by
  rcases securePhase2_cases L c w loginResp deviceConfirm with ⟨_, _⟩ | ⟨hp, h⟩
  · simp only [securePhase2]
    split
    · exact securePhase3_sentTo L _ w _ loginResp
    · split
      · exact securePhase3_sentTo L _ w _ loginResp
      · exact SentTo.refl _ _
  · rw [h]
    exact securePhase3_sentTo L _ w _ loginResp

theorem secureAuthenticate_sentTo (L : GoLib) (c : Client) (w : World) :
    SentTo (getBaseURL c) w (secureAuthenticate L c w).2.2 := by
  rcases hcn : Crypto.GenerateCnonce w with ⟨cnonce, w0⟩
  have h0 : SentTo (getBaseURL c) w w0 := by
    apply SentTo.of_sent_eq
    have := GenerateCnonce_sent w
    rw [hcn] at this
    exact this
  have h1 := makeRawRequest_sentTo L { c with cnonce := cnonce } w0
    (phase1Request { c with cnonce := cnonce })
  rcases hraw : makeRawRequest L { c with cnonce := cnonce } w0
    (phase1Request { c with cnonce := cnonce }) with ⟨r, w1⟩
  rw [hraw] at h1
  have h01 : SentTo (getBaseURL c) w w1 := SentTo.trans _ w w0 w1 h0 h1
  cases r with
  | error err =>
    simp only [secureAuthenticate, hcn, hraw]
    exact h01
  | ok resp =>
    cases hparse : L.unmarshalLogin resp {} with
    | error err =>
      simp only [secureAuthenticate, hcn, hraw, hparse]
      exact h01
    | ok loginResp =>
      cases hdata : loginResp.Result.Data with
      | none =>
        simp only [secureAuthenticate, hcn, hraw, hparse, hdata]
        exact h01
      | some data =>
        simp only [secureAuthenticate, hcn, hraw, hparse, hdata]
        split
        · exact h01
        · exact SentTo.trans _ w w1 _ h01
            (securePhase2_sentTo L { c with cnonce := cnonce, nonce := data.Nonce } w1 loginResp
              data.DeviceConfirm)

theorem legacyAuthenticate_sentTo (L : GoLib) (c : Client) (w : World) :
    SentTo (getBaseURL c) w (legacyAuthenticate L c w).2.2 := by
  have h := makeRawRequest_sentTo L c w (legacyRequest c (Crypto.MD5Hash c.Password))
  simp only [legacyAuthenticate]
  rcases hr : makeRawRequest L c w (legacyRequest c (Crypto.MD5Hash c.Password)) with ⟨r, w1⟩
  rw [hr] at h
  cases r with
  | error err => exact h
  | ok resp =>
    simp only
    repeat' split
    all_goals exact h

/-- Every request `Authenticate` sends goes to the base URL. -/
theorem Authenticate_sentTo (L : GoLib) (c : Client) (w : World) :
    SentTo (getBaseURL c) w (Authenticate L c w).2.2 := by
  have h := detectConnectionType_sentTo L c w
  rcases hd : detectConnectionType L c w with ⟨r, w1⟩
  rw [hd] at h
  cases r with
  | error err =>
    simp only [Authenticate, hd]
    exact h
  | ok isSecure =>
    rw [Authenticate_of_detect L c w w1 isSecure hd]
    split
    · exact SentTo.trans _ w w1 _ h (secureAuthenticate_sentTo L { c with isSecure := isSecure } w1)
    · exact SentTo.trans _ w w1 _ h (legacyAuthenticate_sentTo L { c with isSecure := isSecure } w1)

/-- The URL of a command is never the base URL. -/
theorem getRequestURL_ne_getBaseURL (c c1 : Client) (hHost : c1.Host = c.Host) :
    getRequestURL c1 ≠ getBaseURL c := by
  intro h
  have h1 := congrArg List.length h
  have h2 : (str "/stok=").length = 6 := rfl
  simp only [getRequestURL, getBaseURL, hHost, List.length_append, h2] at h1
  omega

/-! ## `request.go`: the guard of `Execute` and `ExecuteDirect` -/

/-- With outer status 0 the response handling of `executeSecure` leaves the client alone. -/
theorem executeSecureResponse_status_zero (L : GoLib) (c : Client) (w : World) (body : Bytes)
    (secureResp : SecureResponse) (hparse : L.unmarshalSecure body = .ok secureResp)
    (hcode : secureResp.ErrorCode = 0) : (executeSecureResponse L c w body).2.1 = c := by
  simp only [executeSecureResponse, hparse, hcode, ne_eq, not_true_eq_false, if_false]
  repeat' split
  all_goals rfl

/-- Counterexample to C15 as stated. A legacy login followed by an `Authenticate` whose
secure handshake is refused in phase 1 leaves a session that holds the token `abc123`, has
`isSecure` set and has no keys; `Execute` on it fails to encrypt and sends no request at
all. Likewise `ExecuteDirect` on a legacy session with a payload that `json.Marshal`
rejects sends no request. -/
theorem C15_counterexample :
    (Authenticate exampleLib
        (Execute exampleLib exampleClient
          ⟨[], [.body invalidTokenBody, .body loginOkBody, .body commandOkBody], []⟩
          (str "getDeviceInfo") exampleParams).2.1
        ⟨[some (0xAB, 0xCD, 0x12, 0x34)], [.body detectSecureBody, .body rateLimitedBody],
          []⟩).2.1 =
      { exampleClient with stok := str "abc123", isSecure := true, cnonce := str "ABCD1234",
                           hashedPass := Crypto.MD5Hash (str "password") } ∧
    IsAuthenticated
      { exampleClient with stok := str "abc123", isSecure := true, cnonce := str "ABCD1234",
                           hashedPass := Crypto.MD5Hash (str "password") } = true ∧
    Execute exampleLib
        { exampleClient with stok := str "abc123", isSecure := true, cnonce := str "ABCD1234",
                             hashedPass := Crypto.MD5Hash (str "password") }
        ⟨[], [.body commandOkBody], []⟩ (str "getDeviceInfo") exampleParams =
      (.error (.wrap "failed to encrypt request" (.new "key must be 16 bytes for AES-128")),
        { exampleClient with stok := str "abc123", isSecure := true, cnonce := str "ABCD1234",
                             hashedPass := Crypto.MD5Hash (str "password") },
        ⟨[], [.body commandOkBody], []⟩) ∧
    ExecuteDirect exampleLib { exampleClient with stok := str "abc123" }
        ⟨[], [.body commandOkBody], []⟩
        (.value (.json (.error (.new "json: unsupported type: chan int")))) =
      (.error (.wrap "failed to marshal request" (.new "json: unsupported type: chan int")),
        { exampleClient with stok := str "abc123" }, ⟨[], [.body commandOkBody], []⟩) :=
  ⟨by decide!, by decide!, by decide!, by decide!⟩

/-- The function `executePlain` once the payload is marshalled and the request is built:
exactly the request carrying the serialised payload is sent. -/
theorem executePlain_of_built (L : GoLib) (c : Client) (w : World) (payload : Payload)
    (jsonData : Bytes) (u : Unit) (hm : jsonMarshal L payload = .ok jsonData)
    (hn : L.newRequest (getRequestURL c) = .ok u) :
    (executePlain L c w payload).2.2.sent =
      w.sent ++ [newPost c (getRequestURL c) jsonData] := by
  have hs := World.send_sent w (newPost c (getRequestURL c) jsonData)
  rcases hsend : w.send (newPost c (getRequestURL c) jsonData) with ⟨reply, w1⟩
  rw [hsend] at hs
  simp only at hs
  cases reply with
  | doError err => simp only [executePlain, hm, hn, hsend]; exact hs
  | readError err => simp only [executePlain, hm, hn, hsend]; exact hs
  | body body =>
    simp only [executePlain, hm, hn, hsend]
    repeat' split
    all_goals exact hs

/-- Claim C15 (amended): `ExecuteDirect`, and `Execute`, which is `ExecuteDirect` on the
batch envelope, run `Authenticate` if and only if the session token is empty on entry. If
that `Authenticate` fails, the call returns its error wrapped under "authentication failed",
every request it has sent went to the base URL, which is the URL of no command, and `seq` is
unchanged. If the token is non-empty on entry, no login request is sent and at most one
command request is dispatched: exactly one once the payload is serialised (and, in secure
mode, encrypted and wrapped) and the request built, none when the call returns before that;
`IsAuthenticated()` stays true when the device answers with status 0. -/
theorem C15_guard (L : GoLib) (c : Client) (w : World) (payload : Payload) :
    (c.stok = [] →
      (ensureAuthenticated L c w).2 = (Authenticate L c w).2 ∧
      ∀ err, (Authenticate L c w).1 = some err →
        ExecuteDirect L c w payload =
            (.error (.wrap "authentication failed" err), (Authenticate L c w).2.1,
              (Authenticate L c w).2.2) ∧
          SentTo (getBaseURL c) w (ExecuteDirect L c w payload).2.2 ∧
          (∀ c1 : Client, c1.Host = c.Host → getRequestURL c1 ≠ getBaseURL c) ∧
          (ExecuteDirect L c w payload).2.1.seq = c.seq) ∧
    (c.stok ≠ [] →
      ensureAuthenticated L c w = (none, c, w) ∧
      ExecuteDirect L c w payload =
        (if c.isSecure then executeSecure L c w payload else executePlain L c w payload) ∧
      (((ExecuteDirect L c w payload).2.2 = w ∧
          ∃ err, (ExecuteDirect L c w payload).1 = .error err) ∨
        ∃ req, (ExecuteDirect L c w payload).2.2.sent = w.sent ++ [req] ∧
          req.url = getRequestURL c) ∧
      (∀ jsonData, c.isSecure = false → jsonMarshal L payload = .ok jsonData →
        L.newRequest (getRequestURL c) = .ok () →
        (ExecuteDirect L c w payload).2.2.sent =
          w.sent ++ [newPost c (getRequestURL c) jsonData]) ∧
      (∀ jsonData encrypted secureJSON, c.isSecure = true →
        jsonMarshal L payload = .ok jsonData →
        Crypto.AESEncrypt jsonData c.lsk c.ivb = .ok encrypted →
        L.marshalSecure (secureEnvelope encrypted) = .ok secureJSON →
        L.newRequest (getRequestURL c) = .ok () →
        (ExecuteDirect L c w payload).2.2.sent = w.sent ++ [securePost c secureJSON]) ∧
      (∀ (jsonData body : Bytes) (w1 : World) (apiResp : APIResponse), c.isSecure = false →
        jsonMarshal L payload = .ok jsonData → L.newRequest (getRequestURL c) = .ok () →
        w.send (newPost c (getRequestURL c) jsonData) = (.body body, w1) →
        L.unmarshalAPI body = .ok apiResp → apiResp.ErrorCode = 0 →
        ExecuteDirect L c w payload = (.ok apiResp.Result, c, w1) ∧
          IsAuthenticated (ExecuteDirect L c w payload).2.1 = true) ∧
      (∀ (jsonData encrypted secureJSON body : Bytes) (w1 : World)
          (secureResp : SecureResponse), c.isSecure = true →
        jsonMarshal L payload = .ok jsonData →
        Crypto.AESEncrypt jsonData c.lsk c.ivb = .ok encrypted →
        L.marshalSecure (secureEnvelope encrypted) = .ok secureJSON →
        L.newRequest (getRequestURL c) = .ok () →
        w.send (securePost c secureJSON) = (.body body, w1) →
        L.unmarshalSecure body = .ok secureResp → secureResp.ErrorCode = 0 →
        IsAuthenticated (ExecuteDirect L c w payload).2.1 = true)) ∧
    (∀ method params,
      Execute L c w method params =
        ExecuteDirect L c w (.multipleRequest (multipleRequest method params))) := by
  refine ⟨?_, ?_, fun method params => rfl⟩
  · intro hstok
    obtain ⟨h2, _, hwrap⟩ := ensureAuthenticated_no_token L c w hstok
    refine ⟨h2, ?_⟩
    intro err herr
    have hg := hwrap err herr
    rcases hen : ensureAuthenticated L c w with ⟨r, c1, w1⟩
    rw [hen] at hg h2
    simp only at hg
    subst hg
    have hE : ExecuteDirect L c w payload =
        (.error (.wrap "authentication failed" err), (Authenticate L c w).2.1,
          (Authenticate L c w).2.2) := by
      rw [ExecuteDirect_guard_error L c c1 w w1 payload _ hen, ← h2]
    rw [hE]
    refine ⟨rfl, Authenticate_sentTo L c w, fun c1 h => getRequestURL_ne_getBaseURL c c1 h, ?_⟩
    exact Authenticate_error_seq L c w (by rw [herr]; simp)
  · intro hstok
    have hen := ensureAuthenticated_of_token L c w hstok
    have hE := ExecuteDirect_of_guard L c c w w payload hen
    have hauth : IsAuthenticated c = true := by simp [IsAuthenticated, hstok]
    refine ⟨hen, hE, ?_, ?_, ?_, ?_, ?_⟩
    · rw [hE]
      cases hsec : c.isSecure with
      | true =>
        simp only [if_true]
        rcases executeSecure_sent L c w payload with ⟨_, h2, h3⟩ | ⟨_, _, J, _, _, _, _, h, _⟩
        · exact Or.inl ⟨h2, h3⟩
        · exact Or.inr ⟨securePost c J, h, rfl⟩
      | false =>
        simp only [Bool.false_eq_true, if_false]
        rcases executePlain_sent L c w payload with ⟨_, h2, h3⟩ | ⟨J, _, _, h⟩
        · exact Or.inl ⟨h2, h3⟩
        · exact Or.inr ⟨newPost c (getRequestURL c) J, h, rfl⟩
    · intro jsonData hsec hm hn
      rw [hE, hsec]
      simp only [Bool.false_eq_true, if_false]
      exact executePlain_of_built L c w payload jsonData () hm hn
    · intro jsonData encrypted secureJSON hsec hm he hs hn
      rw [hE, hsec]
      simp only [if_true]
      exact (executeSecure_of_built L c w payload jsonData encrypted secureJSON () hm he hs hn).1
    · intro jsonData body w1 apiResp hsec hm hn hsend hparse h0
      have hP : ExecuteDirect L c w payload = (.ok apiResp.Result, c, w1) := by
        rw [hE, hsec]
        simp only [Bool.false_eq_true, if_false]
        rw [executePlain_body L c w w1 payload jsonData body () apiResp hm hn hsend hparse,
          if_neg (by simp [h0])]
      rw [hP]
      exact ⟨rfl, hauth⟩
    · intro jsonData encrypted secureJSON body w1 secureResp hsec hm he hs hn hsend hparse h0
      rw [hE, hsec]
      simp only [if_true]
      rw [executeSecure_body L c w w1 payload jsonData encrypted secureJSON body () hm he hs hn
        hsend, executeSecureResponse_status_zero L _ w1 body secureResp hparse h0]
      exact hauth

/-- Instance of C15: on a legacy session holding the token `abc123` the example camera
answers the command with status 0; the one request went out and the session stays
authenticated. -/
theorem C15_guard_witness :
    ExecuteDirect exampleLib { exampleClient with stok := str "abc123" }
        ⟨[], [.body commandOkBody], []⟩ (.value exampleParams) =
      (.ok (some []), { exampleClient with stok := str "abc123" },
        ⟨[], [], [newPost { exampleClient with stok := str "abc123" }
          (getRequestURL { exampleClient with stok := str "abc123" })
          (str "\x7b\"device_info\":\x7b\"name\":[\"basic_info\"]\x7d\x7d")]⟩) ∧
      IsAuthenticated
        (ExecuteDirect exampleLib { exampleClient with stok := str "abc123" }
          ⟨[], [.body commandOkBody], []⟩ (.value exampleParams)).2.1 = true :=
  ((C15_guard exampleLib { exampleClient with stok := str "abc123" }
    ⟨[], [.body commandOkBody], []⟩ (.value exampleParams)).2.1 (by decide!)).2.2.2.2.2.1
    (str "\x7b\"device_info\":\x7b\"name\":[\"basic_info\"]\x7d\x7d") commandOkBody
    ⟨[], [], [newPost { exampleClient with stok := str "abc123" }
      (getRequestURL { exampleClient with stok := str "abc123" })
      (str "\x7b\"device_info\":\x7b\"name\":[\"basic_info\"]\x7d\x7d")]⟩
    { ErrorCode := 0, Result := some [] } rfl rfl rfl (by decide!) (by decide!) rfl

/-! ## `request.go`: `Execute` and `ExecuteDirect` -/

/-- Claim C16: for every method, params, client state and device behaviour,
`Execute(method, params)` gives the same result or error, the same final client state and
the same world (requests sent, replies consumed) as `ExecuteDirect` applied to the batch
envelope `{method: "multipleRequest", params: {requests: [{method, params}]}}` with exactly
that one request; and the one request `ExecuteDirect` sends past its guard carries the
payload as `json.Marshal` serialises it: as the body in plain mode, and in secure mode as
the plaintext of the ciphertext in the `securePassthrough` envelope. -/
theorem C16_Execute_refines (L : GoLib) (c : Client) (w : World) (method : Str)
    (params : Value) :
    Execute L c w method params =
        ExecuteDirect L c w (.multipleRequest (batchEnvelope method params)) ∧
      (batchEnvelope method params).Method = str "multipleRequest" ∧
      (batchEnvelope method params).Params.Requests = [{ Method := method, Params := params }] ∧
      ∀ (payload : Payload) (c1 : Client) (w1 : World) (req : Request),
        ensureAuthenticated L c w = (none, c1, w1) →
        (ExecuteDirect L c w payload).2.2.sent = w1.sent ++ [req] →
        (c1.isSecure = false → jsonMarshal L payload = .ok req.body) ∧
        (c1.isSecure = true →
          ∃ jsonData encrypted, jsonMarshal L payload = .ok jsonData ∧
            Crypto.AESEncrypt jsonData c1.lsk c1.ivb = .ok encrypted ∧
            L.marshalSecure (secureEnvelope encrypted) = .ok req.body ∧
            Crypto.AESDecrypt encrypted c1.lsk c1.ivb = .ok jsonData) := by
  refine ⟨rfl, rfl, rfl, ?_⟩
  intro payload c1 w1 req hen hsent
  rw [ExecuteDirect_of_guard L c c1 w w1 payload hen] at hsent
  constructor
  · intro hsec
    rw [hsec] at hsent
    simp only [Bool.false_eq_true, if_false] at hsent
    rcases executePlain_sent L c1 w1 payload with ⟨_, h2, _⟩ | ⟨J, hJ, _, h⟩
    · rw [h2] at hsent
      exact absurd hsent (append_singleton_ne_self _ _)
    · rw [h] at hsent
      have hreq : req = newPost c1 (getRequestURL c1) J := by
        have := List.append_cancel_left hsent
        simpa using this.symm
      subst hreq
      exact hJ
  · intro hsec
    rw [hsec] at hsent
    simp only [if_true] at hsent
    rcases executeSecure_sent L c1 w1 payload with ⟨_, h2, _⟩ | ⟨j, e, s, hm, he, hs, _, h1, _⟩
    · rw [h2] at hsent
      exact absurd hsent (append_singleton_ne_self _ _)
    · rw [h1] at hsent
      have hreq : req = securePost c1 s := by
        have := List.append_cancel_left hsent
        simpa using this.symm
      subst hreq
      exact ⟨j, e, hm, he, hs, Crypto.AESDecrypt_of_AESEncrypt j c1.lsk c1.ivb e he⟩

/-- Instance of C16: the body of the request `ExecuteDirect` sends on a legacy session is
the serialised payload. -/
theorem C16_Execute_refines_witness :
    jsonMarshal exampleLib (.value exampleParams) =
      .ok (newPost { exampleClient with stok := str "abc123" }
        (getRequestURL { exampleClient with stok := str "abc123" })
        (str "\x7b\"device_info\":\x7b\"name\":[\"basic_info\"]\x7d\x7d")).body :=
  ((C16_Execute_refines exampleLib { exampleClient with stok := str "abc123" }
    ⟨[], [.body commandOkBody], []⟩ (str "getDeviceInfo") exampleParams).2.2.2
    (.value exampleParams) { exampleClient with stok := str "abc123" }
    ⟨[], [.body commandOkBody], []⟩
    (newPost { exampleClient with stok := str "abc123" }
      (getRequestURL { exampleClient with stok := str "abc123" })
      (str "\x7b\"device_info\":\x7b\"name\":[\"basic_info\"]\x7d\x7d"))
    (by decide!) (by decide!)).1 rfl

/-! ## `client.go`: a phase 1 response without a server nonce -/

/-- Claim C18 (the code at the failing input): the example camera answers phase 1 with
status 0 and a data object that has a `device_confirm` but no nonce,
`{"error_code":0,"result":{"data":{"device_confirm":"452B...E3ABABCD1234"}}}`, where the
`device_confirm` is the one for an empty server nonce. `secureAuthenticate` does not abort:
it keeps the empty nonce, derives both keys, sends the phase 3 request and stores the token
and the sequence number of the answer. -/
theorem C18_phase1_without_nonce :
    (secureAuthenticate exampleLib { exampleClient with isSecure := true }
        ⟨[some (0xAB, 0xCD, 0x12, 0x34)], [.body phase1NoNonceBody, .body loginOkBody], []⟩).1 =
      none ∧
    (secureAuthenticate exampleLib { exampleClient with isSecure := true }
        ⟨[some (0xAB, 0xCD, 0x12, 0x34)], [.body phase1NoNonceBody, .body loginOkBody], []⟩).2.1 =
      { exampleClient with
        isSecure := true, cnonce := str "ABCD1234", nonce := [],
        hashedPass := Crypto.SHA256Hash (str "password"),
        lsk := [165, 31, 163, 243, 141, 122, 105, 146, 24, 48, 132, 253, 254, 214, 230, 220],
        ivb := [51, 33, 99, 197, 124, 47, 72, 19, 10, 252, 15, 38, 95, 92, 249, 157],
        stok := str "abc123", seq := 100 } ∧
    (secureAuthenticate exampleLib { exampleClient with isSecure := true }
        ⟨[some (0xAB, 0xCD, 0x12, 0x34)], [.body phase1NoNonceBody, .body loginOkBody], []⟩).2.2 =
      ⟨[], [],
        [newPost exampleClient (getBaseURL exampleClient)
          (renderLogin (phase1Request { exampleClient with cnonce := str "ABCD1234" })),
         newPost exampleClient (getBaseURL exampleClient)
          (renderLogin (phase3Request { exampleClient with cnonce := str "ABCD1234" }
            (Crypto.SHA256Hash (str "password"))))]⟩ ∧
    (secureAuthenticate exampleLib { exampleClient with isSecure := true }
        ⟨[some (0xAB, 0xCD, 0x12, 0x34)], [.body phase1NoDataBody, .body loginOkBody], []⟩).1 =
      some (.tapo 0 "failed to get server nonce") :=
  ⟨by decide!, by decide!, by decide!, by decide!⟩

/-! ## `aes.go`: the length checks -/

/-- Claim C21: `AESEncrypt` returns an error if and only if `len(key) != 16` or
`len(iv) != 16`; `AESDecrypt` returns an error whenever `len(key) != 16`, `len(iv) != 16` or
`len(ciphertext)` is not a multiple of 16; a call that returns an error returns no output
bytes. -/
theorem C21_length_checks (plaintext ciphertext key iv : Bytes) :
    ((∃ err, Crypto.AESEncrypt plaintext key iv = .error err) ↔
        (key.length ≠ 16 ∨ iv.length ≠ 16)) ∧
      (key.length ≠ 16 → Crypto.AESEncrypt plaintext key iv =
        .error (.new "key must be 16 bytes for AES-128")) ∧
      (key.length = 16 → iv.length ≠ 16 → Crypto.AESEncrypt plaintext key iv =
        .error (.new "iv must be 16 bytes")) ∧
      ((key.length ≠ 16 ∨ iv.length ≠ 16 ∨ ciphertext.length % 16 ≠ 0) →
        ∃ err, Crypto.AESDecrypt ciphertext key iv = .error err) ∧
      ((key.length ≠ 16 ∨ iv.length ≠ 16) →
        ∀ out, Crypto.AESEncrypt plaintext key iv ≠ .ok out) ∧
      ((key.length ≠ 16 ∨ iv.length ≠ 16 ∨ ciphertext.length % 16 ≠ 0) →
        ∀ out, Crypto.AESDecrypt ciphertext key iv ≠ .ok out) := by
  have hdec : (key.length ≠ 16 ∨ iv.length ≠ 16 ∨ ciphertext.length % 16 ≠ 0) →
      ∃ err, Crypto.AESDecrypt ciphertext key iv = .error err := by
    intro h
    by_cases hk : key.length = 16
    · by_cases hi : iv.length = 16
      · rcases h with h | h | h
        · exact absurd hk h
        · exact absurd hi h
        · exact Crypto.AESDecrypt_length_error ciphertext key iv h
      · exact ⟨.new "iv must be 16 bytes", by simp [Crypto.AESDecrypt, hk, hi]⟩
    · exact ⟨.new "key must be 16 bytes for AES-128", by simp [Crypto.AESDecrypt, hk]⟩
  have hk1 : key.length ≠ 16 → Crypto.AESEncrypt plaintext key iv =
      .error (.new "key must be 16 bytes for AES-128") := by
    intro hk
    simp [Crypto.AESEncrypt, hk]
  have hi1 : key.length = 16 → iv.length ≠ 16 → Crypto.AESEncrypt plaintext key iv =
      .error (.new "iv must be 16 bytes") := by
    intro hk hi
    simp [Crypto.AESEncrypt, hk, hi]
  have henc : (∃ err, Crypto.AESEncrypt plaintext key iv = .error err) ↔
      (key.length ≠ 16 ∨ iv.length ≠ 16) := by
    constructor
    · rintro ⟨err, h⟩
      by_contra hne
      push_neg at hne
      obtain ⟨ct, h1, _⟩ := Crypto.AESDecrypt_AESEncrypt plaintext key iv hne.1 hne.2
      rw [h1] at h
      cases h
    · intro h
      by_cases hk : key.length = 16
      · rcases h with h | h
        · exact absurd hk h
        · exact ⟨_, hi1 hk h⟩
      · exact ⟨_, hk1 hk⟩
  refine ⟨henc, hk1, hi1, hdec, ?_, ?_⟩
  · intro h out hout
    obtain ⟨err, he⟩ := henc.mpr h
    rw [he] at hout
    cases hout
  · intro h out hout
    obtain ⟨err, he⟩ := hdec h
    rw [he] at hout
    cases hout

/-- Instance of C21: the inputs of `TestAESEncryptInvalidKeyLength` and of
`TestAESDecryptInvalidCiphertext`. -/
theorem C21_length_checks_witness :
    Crypto.AESEncrypt (str "test") (str "short") (str "abcdefghijklmnop") =
        .error (.new "key must be 16 bytes for AES-128") ∧
      ∃ err, Crypto.AESDecrypt (str "not a multiple") (str "short") (str "abcdefghijklmnop") =
        .error err :=
  ⟨(C21_length_checks (str "test") (str "not a multiple") (str "short")
      (str "abcdefghijklmnop")).2.1 (by decide),
    (C21_length_checks (str "test") (str "not a multiple") (str "short")
      (str "abcdefghijklmnop")).2.2.2.1 (Or.inl (by decide))⟩

/-! ## `models.go`: the error taxonomy -/

/-- Claim C24: `ErrorMessage` is a total function on integers given by a closed table of
seven codes, every other code giving "Unknown error"; the seven codes are pairwise
distinct. -/
theorem C24_ErrorMessage (code : Int) :
    ErrorMessage 0 = "Success" ∧
      ErrorMessage (-40401) = "Invalid or expired token" ∧
      ErrorMessage (-40404) = "Rate limited - temporary suspension" ∧
      ErrorMessage (-40411) = "Invalid authentication data" ∧
      ErrorMessage (-40413) = "Login required" ∧
      ErrorMessage (-64303) = "Cruise in progress - stop cruise first" ∧
      ErrorMessage (-1) = "General error" ∧
      (code ∉ [0, -40401, -40404, -40411, -40413, -64303, -1] →
        ErrorMessage code = "Unknown error") ∧
      [ErrorCodeSuccess, ErrorCodeInvalidToken, ErrorCodeRateLimited, ErrorCodeInvalidAuth,
          ErrorCodeLoginRequired, ErrorCodeCruiseInProgress, ErrorCodeGeneral] =
        [0, -40401, -40404, -40411, -40413, -64303, -1] ∧
      [ErrorCodeSuccess, ErrorCodeInvalidToken, ErrorCodeRateLimited, ErrorCodeInvalidAuth,
        ErrorCodeLoginRequired, ErrorCodeCruiseInProgress, ErrorCodeGeneral].Nodup := by
  refine ⟨by decide, by decide, by decide, by decide, by decide, by decide, by decide, ?_,
    rfl, by decide⟩
  intro h
  simp only [List.mem_cons, List.mem_singleton, List.mem_nil_iff, not_or, or_false] at h
  obtain ⟨h0, h1, h2, h3, h4, h5, h6⟩ := h
  simp only [ErrorMessage, ErrorCodeSuccess, ErrorCodeInvalidToken, ErrorCodeRateLimited,
    ErrorCodeInvalidAuth, ErrorCodeLoginRequired, ErrorCodeCruiseInProgress, ErrorCodeGeneral,
    h0, h1, h2, h3, h4, h5, h6, if_false]

/-- Instance of C24: a code outside the table. -/
theorem C24_ErrorMessage_witness : ErrorMessage (-99999) = "Unknown error" :=
  (C24_ErrorMessage (-99999)).2.2.2.2.2.2.2.1 (by decide)

/-! ## `aes.go`: removing the padding -/

/-- The check of the padding bytes in `pkcs7Unpad`, index by index. -/
theorem Crypto.pkcs7Unpad_loop (data : Bytes) (p : Nat) (hp : p < 256) :
    (List.range' (data.length - p) p).all
        (fun i => data.getD i 0 == (Fin.ofNat p : Byte)) = true ↔
      ∀ i, data.length - p ≤ i → i < data.length - p + p → (data.getD i 0).val = p := by
  have hval : ((Fin.ofNat p : Byte)).val = p := by
    show p % 256 = p
    omega
  rw [List.all_eq_true]
  constructor
  · intro h i h1 h2
    have := h i (List.mem_range'_1.mpr ⟨h1, h2⟩)
    rw [beq_iff_eq] at this
    rw [this, hval]
  · intro h i hi
    rw [List.mem_range'_1] at hi
    rw [beq_iff_eq]
    apply Fin.ext
    rw [hval]
    exact h i hi.1 hi.2

/-- When `pkcs7Unpad` succeeds and what it returns: the input is non-empty, its last byte
`p` is at least 1 and at most the length of the input, and the last `p` bytes all have the
value `p`; the result is the input without them. -/
theorem Crypto.pkcs7Unpad_ok_iff (data out : Bytes) :
    Crypto.pkcs7Unpad data = .ok out ↔
      data ≠ [] ∧ 1 ≤ (data.getD (data.length - 1) 0).val ∧
        (data.getD (data.length - 1) 0).val ≤ data.length ∧
        (∀ i, data.length - (data.getD (data.length - 1) 0).val ≤ i → i < data.length →
          (data.getD i 0).val = (data.getD (data.length - 1) 0).val) ∧
        out = data.take (data.length - (data.getD (data.length - 1) 0).val) := by
  have hloop := Crypto.pkcs7Unpad_loop data (data.getD (data.length - 1) 0).val
    (data.getD (data.length - 1) 0).isLt
  simp only [Crypto.pkcs7Unpad]
  generalize (data.getD (data.length - 1) 0).val = p at hloop ⊢
  by_cases hlen : data.length = 0
  · have hnil : data = [] := List.length_eq_zero.mp hlen
    simp [hnil]
  · have hne : data ≠ [] := fun h => hlen (by rw [h]; rfl)
    by_cases hp : p > data.length ∨ p = 0
    · simp only [hlen, if_false, hp, if_true]
      constructor
      · intro h
        cases h
      · rintro ⟨_, h1, h2, _⟩
        omega
    · have hp1 : 1 ≤ p := by omega
      have hp2 : p ≤ data.length := by omega
      have hsum : data.length - p + p = data.length := by omega
      rw [hsum] at hloop
      by_cases hall : (List.range' (data.length - p) p).all
          (fun i => data.getD i 0 == (Fin.ofNat p : Byte)) = true
      · simp only [hlen, if_false, hp, hall, if_true]
        constructor
        · intro h
          cases h
          exact ⟨hne, hp1, hp2, hloop.mp hall, rfl⟩
        · rintro ⟨_, _, _, _, h⟩
          rw [h]
      · simp only [hlen, if_false, hp, hall]
        constructor
        · intro h
          cases h
        · rintro ⟨_, _, _, h, _⟩
          exact absurd (hloop.mpr h) hall

/-- The three errors of `pkcs7Unpad`. -/
theorem Crypto.pkcs7Unpad_error (data : Bytes) (err : Error)
    (h : Crypto.pkcs7Unpad data = .error err) :
    err = .new "data is empty" ∨ err = .new "invalid padding" ∨
      err = .new "invalid padding bytes" := by
  unfold Crypto.pkcs7Unpad at h
  split at h
  · cases h
    exact Or.inl rfl
  · simp only at h
    split at h
    · cases h
      exact Or.inr (Or.inl rfl)
    · split at h
      · cases h
      · cases h
        exact Or.inr (Or.inr rfl)

/-- Counterexample to C22 as stated: 32 bytes of value 17 are accepted by `pkcs7Unpad`,
which returns the first 15 of them, although the trailing byte 17 lies outside `[1,16]`;
and `AESDecrypt` succeeds on the two-block ciphertext that decrypts to these 32 bytes. -/
theorem C22_counterexample :
    Crypto.pkcs7Unpad (List.replicate 32 (17 : Byte)) = .ok (List.replicate 15 (17 : Byte)) ∧
      ¬ ((17 : Byte).val ≤ 16) ∧
      Crypto.AESDecrypt
          (Crypto.cbcEncrypt (AES.keyExpansion (str "1234567890123456")) 2
            (str "abcdefghijklmnop") (List.replicate 32 (17 : Byte)))
          (str "1234567890123456") (str "abcdefghijklmnop") =
        .ok (List.replicate 15 (17 : Byte)) :=
  ⟨by decide!, by decide, by decide!⟩

/-- Claim C22 (amended): for every byte sequence `data`, `pkcs7Unpad(data)` succeeds if and
only if `data` is non-empty, its trailing byte value `p` lies in `[1, len(data)]`, and the
last `p` bytes of `data` all equal `p`; on success it returns `data` without its last `p`
bytes, and on any violation it returns one of the errors "data is empty", "invalid padding"
and "invalid padding bytes", so that `AESDecrypt` fails whenever the decrypted data violates
this. -/
theorem C22_pkcs7Unpad (data : Bytes) :
    ((∃ out, Crypto.pkcs7Unpad data = .ok out) ↔
        (data ≠ [] ∧ 1 ≤ (data.getD (data.length - 1) 0).val ∧
          (data.getD (data.length - 1) 0).val ≤ data.length ∧
          ∀ i, data.length - (data.getD (data.length - 1) 0).val ≤ i → i < data.length →
            (data.getD i 0).val = (data.getD (data.length - 1) 0).val)) ∧
      (∀ out, Crypto.pkcs7Unpad data = .ok out →
        out = data.take (data.length - (data.getD (data.length - 1) 0).val)) ∧
      (∀ err, Crypto.pkcs7Unpad data = .error err →
        err = .new "data is empty" ∨ err = .new "invalid padding" ∨
          err = .new "invalid padding bytes") ∧
      (∀ (ciphertext key iv : Bytes) (block : List Bytes) (err : Error),
        Crypto.newCipher key = .ok block →
        data = Crypto.cbcDecrypt block (ciphertext.length / 16) iv ciphertext →
        Crypto.pkcs7Unpad data = .error err →
        ∃ err, Crypto.AESDecrypt ciphertext key iv = .error err) := by
  refine ⟨?_, ?_, Crypto.pkcs7Unpad_error data, ?_⟩
  · constructor
    · rintro ⟨out, h⟩
      obtain ⟨h1, h2, h3, h4, _⟩ := (Crypto.pkcs7Unpad_ok_iff data out).mp h
      exact ⟨h1, h2, h3, h4⟩
    · rintro ⟨h1, h2, h3, h4⟩
      exact ⟨_, (Crypto.pkcs7Unpad_ok_iff data _).mpr ⟨h1, h2, h3, h4, rfl⟩⟩
  · intro out h
    exact ((Crypto.pkcs7Unpad_ok_iff data out).mp h).2.2.2.2
  · intro ciphertext key iv block err hb hd h
    subst hd
    exact Crypto.AESDecrypt_padding_error ciphertext key iv block err hb h

/-- Instance of C22: the padded block of the text `test` is unpadded to `test`. -/
theorem C22_pkcs7Unpad_witness :
    str "test" ++ List.replicate 12 (12 : Byte) =
      (str "test" ++ List.replicate 12 (12 : Byte)).take
        ((str "test" ++ List.replicate 12 (12 : Byte)).length -
          ((str "test" ++ List.replicate 12 (12 : Byte)).getD
            ((str "test" ++ List.replicate 12 (12 : Byte)).length - 1) 0).val) ++
        List.replicate 12 (12 : Byte) ∧
      str "test" =
        (str "test" ++ List.replicate 12 (12 : Byte)).take
          ((str "test" ++ List.replicate 12 (12 : Byte)).length -
            ((str "test" ++ List.replicate 12 (12 : Byte)).getD
              ((str "test" ++ List.replicate 12 (12 : Byte)).length - 1) 0).val) :=
  ⟨by decide,
    (C22_pkcs7Unpad (str "test" ++ List.replicate 12 (12 : Byte))).2.1 (str "test")
      (by decide!)⟩

/-! ## `aes.go`: `pkcs7Unpad` under the bounds checks of Go -/

theorem indexByte_of_lt (data : Bytes) (k : Nat) (h : k < data.length) :
    indexByte data (k : Int) = .value (data.getD k 0) := by
  have h1 : (0 : Int) ≤ (k : Int) ∧ (k : Int) < (data.length : Int) := ⟨by omega, by omega⟩
  simp only [indexByte, h1, and_self, if_true, Int.toNat_ofNat]
  rw [List.get?_eq_get h]
  simp [List.getD_eq_getElem, h]

theorem byteOfInt_natCast (p : Nat) : byteOfInt (p : Int) = (Fin.ofNat p : Byte) := by
  apply Fin.ext
  show ((p : Int) % 256).toNat % 256 = p % 256
  omega

/-- The checked loop of `pkcs7Unpad` over the last `k` bytes: with more than `k` units of
fuel it runs to its result without a panic, and the result is that of the test of all the
bytes. -/
theorem Crypto.pkcs7UnpadLoop_eq (data : Bytes) (padding : Int) :
    ∀ (k j fuel : Nat), j + k = data.length → k < fuel →
      Crypto.pkcs7UnpadLoop data padding fuel (j : Int) =
        .value (if (List.range' j k).all (fun i => data.getD i 0 == byteOfInt padding) = true
          then none else some (.new "invalid padding bytes"))
  | 0, j, fuel, hj, hf => by
    obtain ⟨f, rfl⟩ : ∃ f, fuel = f + 1 := ⟨fuel - 1, by omega⟩
    have hlt : ¬ ((j : Int) < (data.length : Int)) := by omega
    simp [Crypto.pkcs7UnpadLoop, hlt]
  | k + 1, j, fuel, hj, hf => by
    obtain ⟨f, rfl⟩ : ∃ f, fuel = f + 1 := ⟨fuel - 1, by omega⟩
    have hlt : (j : Int) < (data.length : Int) := by omega
    have ih := Crypto.pkcs7UnpadLoop_eq data padding k (j + 1) f (by omega) (by omega)
    have hcast : ((j : Int) + 1) = ((j + 1 : Nat) : Int) := by omega
    rw [Crypto.pkcs7UnpadLoop, if_pos hlt, indexByte_of_lt data j (by omega)]
    simp only [Outcome.bind]
    rw [hcast, ih, List.range'_succ, List.all_cons]
    by_cases hb : data.getD j 0 = byteOfInt padding
    · simp only [ne_eq, hb, not_true_eq_false, if_false, beq_self_eq_true, Bool.true_and]
    · have hbeq : (data.getD j 0 == byteOfInt padding) = false := beq_eq_false_iff_ne.mpr hb
      simp only [ne_eq, hb, not_false_eq_true, if_true, hbeq, Bool.false_and,
        Bool.false_eq_true, if_false]

/-- The run of `pkcs7Unpad` with every index and slice expression checked never panics and
never runs out of fuel: it returns what `pkcs7Unpad` returns. -/
theorem Crypto.pkcs7UnpadRun_eq (data : Bytes) :
    Crypto.pkcs7UnpadRun data = .value (Crypto.pkcs7Unpad data) := by
  by_cases hlen : data.length = 0
  · simp [Crypto.pkcs7UnpadRun, Crypto.pkcs7Unpad, hlen]
  · have hidx : ((data.length : Int) - 1) = ((data.length - 1 : Nat) : Int) := by omega
    have hlast := indexByte_of_lt data (data.length - 1) (by omega)
    have hbyte : byteOfInt ((data.getD (data.length - 1) 0).val : Int) =
        (Fin.ofNat (data.getD (data.length - 1) 0).val : Byte) :=
      byteOfInt_natCast _
    simp only [Crypto.pkcs7UnpadRun, Crypto.pkcs7Unpad, hlen, if_false, hidx, hlast,
      Outcome.bind]
    generalize (data.getD (data.length - 1) 0).val = p at hbyte ⊢
    by_cases hp : p > data.length ∨ p = 0
    · have hp2 : (p : Int) > (data.length : Int) ∨ (p : Int) = 0 := by omega
      simp only [hp, hp2, if_true]
    · have hp2 : ¬ ((p : Int) > (data.length : Int) ∨ (p : Int) = 0) := by omega
      have hstart : ((data.length : Int) - (p : Int)) = ((data.length - p : Nat) : Int) := by
        omega
      have hloop := Crypto.pkcs7UnpadLoop_eq data (p : Int) p (data.length - p)
        (data.length + 1) (by omega) (by omega)
      have hslice : sliceTo data ((data.length - p : Nat) : Int) =
          .value (data.take (data.length - p)) := by
        have : (0 : Int) ≤ ((data.length - p : Nat) : Int) ∧
            ((data.length - p : Nat) : Int) ≤ (data.length : Int) := ⟨by omega, by omega⟩
        simp only [sliceTo, this, and_self, if_true, Int.toNat_ofNat]
      simp only [hp, hp2, if_false, hstart, hloop, Outcome.bind, hbyte]
      by_cases hall : (List.range' (data.length - p) p).all
          (fun i => data.getD i 0 == (Fin.ofNat p : Byte)) = true
      · simp only [hall, if_true, hslice, Outcome.bind]
      · simp only [hall, Bool.false_eq_true, if_false]

/-- Claim C23: `pkcs7Unpad` returns an error for the empty input, for every input whose last
byte is 0, and for every input whose last byte value exceeds the length of the input; and it
never indexes outside the input: run with the bounds checks of Go on every index and slice
expression, it never panics but returns what `pkcs7Unpad` returns, and whenever its
verification loop runs, the loop starts at the non-negative index `len(data) - p` and runs
to its end without a panic, while the same loop started at a negative index panics. -/
theorem C23_pkcs7Unpad_errors (data : Bytes) :
    Crypto.pkcs7Unpad [] = .error (.new "data is empty") ∧
      (data ≠ [] → (data.getD (data.length - 1) 0).val = 0 →
        Crypto.pkcs7Unpad data = .error (.new "invalid padding")) ∧
      (data ≠ [] → data.length < (data.getD (data.length - 1) 0).val →
        Crypto.pkcs7Unpad data = .error (.new "invalid padding")) ∧
      Crypto.pkcs7UnpadRun data = .value (Crypto.pkcs7Unpad data) ∧
      (data ≠ [] →
        ¬ ((data.getD (data.length - 1) 0).val > data.length ∨
          (data.getD (data.length - 1) 0).val = 0) →
        Crypto.pkcs7UnpadRun data =
            (Crypto.pkcs7UnpadLoop data ((data.getD (data.length - 1) 0).val : Int)
                (data.length + 1)
                ((data.length : Int) - ((data.getD (data.length - 1) 0).val : Int))).bind
              (fun r =>
                match r with
                | some err => .value (.error err)
                | none =>
                  (sliceTo data
                    ((data.length : Int) - ((data.getD (data.length - 1) 0).val : Int))).bind
                    fun out => .value (.ok out)) ∧
          (0 : Int) ≤ (data.length : Int) - ((data.getD (data.length - 1) 0).val : Int) ∧
          ∃ r, Crypto.pkcs7UnpadLoop data ((data.getD (data.length - 1) 0).val : Int)
              (data.length + 1)
              ((data.length : Int) - ((data.getD (data.length - 1) 0).val : Int)) =
            .value r) ∧
      (∀ (padding : Int) (fuel : Nat) (i : Int), i < 0 →
        Crypto.pkcs7UnpadLoop data padding (fuel + 1) i = .panic "index out of range") := by
  refine ⟨rfl, ?_, ?_, Crypto.pkcs7UnpadRun_eq data, ?_, ?_⟩
  · intro hne h0
    have hlen : data.length ≠ 0 := fun h => hne (List.length_eq_zero.mp h)
    simp only [Crypto.pkcs7Unpad, hlen, if_false, h0, or_true, if_true]
  · intro hne hgt
    have hlen : data.length ≠ 0 := fun h => hne (List.length_eq_zero.mp h)
    simp only [Crypto.pkcs7Unpad, hlen, if_false, gt_iff_lt, hgt, true_or, if_true]
  · intro hne hp
    have hlen : data.length ≠ 0 := fun h => hne (List.length_eq_zero.mp h)
    have hidx : ((data.length : Int) - 1) = ((data.length - 1 : Nat) : Int) := by omega
    have hlast := indexByte_of_lt data (data.length - 1) (by omega)
    have hp2 : ¬ (((data.getD (data.length - 1) 0).val : Int) > (data.length : Int) ∨
        ((data.getD (data.length - 1) 0).val : Int) = 0) := by omega
    refine ⟨?_, by omega, ?_⟩
    · simp only [Crypto.pkcs7UnpadRun, hlen, if_false, hidx, hlast, Outcome.bind, hp2]
    · have hstart : ((data.length : Int) - ((data.getD (data.length - 1) 0).val : Int)) =
          ((data.length - (data.getD (data.length - 1) 0).val : Nat) : Int) := by omega
      rw [hstart]
      exact ⟨_, Crypto.pkcs7UnpadLoop_eq data _ (data.getD (data.length - 1) 0).val
        (data.length - (data.getD (data.length - 1) 0).val) (data.length + 1) (by omega)
        (by omega)⟩
  · intro padding fuel i hi
    have h1 : i < (data.length : Int) := by omega
    have h2 : ¬ (0 ≤ i ∧ i < (data.length : Int)) := by omega
    have hidx : indexByte data i = .panic "index out of range" := by
      simp only [indexByte, h2, if_false]
    rw [Crypto.pkcs7UnpadLoop, if_pos h1, hidx]
    rfl

/-- Instance of C23: the inputs of `TestPKCS7UnpadInvalidPadding`, and the padded block of
the text `test`, on which the verification loop runs over the last 12 bytes. -/
theorem C23_pkcs7Unpad_errors_witness :
    Crypto.pkcs7Unpad [0] = .error (.new "invalid padding") ∧
      Crypto.pkcs7Unpad [20] = .error (.new "invalid padding") ∧
      Crypto.pkcs7UnpadRun (str "test" ++ List.replicate 12 (12 : Byte)) =
        .value (.ok (str "test")) ∧
      ∃ r, Crypto.pkcs7UnpadLoop (str "test" ++ List.replicate 12 (12 : Byte))
          (((str "test" ++ List.replicate 12 (12 : Byte)).getD
            ((str "test" ++ List.replicate 12 (12 : Byte)).length - 1) 0).val : Int)
          ((str "test" ++ List.replicate 12 (12 : Byte)).length + 1)
          (((str "test" ++ List.replicate 12 (12 : Byte)).length : Int) -
            (((str "test" ++ List.replicate 12 (12 : Byte)).getD
              ((str "test" ++ List.replicate 12 (12 : Byte)).length - 1) 0).val : Int)) =
        .value r :=
  ⟨(C23_pkcs7Unpad_errors [0]).2.1 (by decide) (by decide),
    (C23_pkcs7Unpad_errors [20]).2.2.1 (by decide) (by decide),
    (C23_pkcs7Unpad_errors (str "test" ++ List.replicate 12 (12 : Byte))).2.2.2.1.trans
      (congrArg Outcome.value (by decide!)),
    ((C23_pkcs7Unpad_errors (str "test" ++ List.replicate 12 (12 : Byte))).2.2.2.2.1
      (by decide) (by decide)).2.2⟩

/-! ## `hash.go`: the digests in hexadecimal -/

theorem MD5.sum_length (data : Bytes) : (MD5.sum data).length = 16 := rfl

/-- One byte in upper-case hexadecimal: two characters out of `0-9A-F` from which the byte
is recovered. -/
theorem Crypto.toUpper_hex_byte : ∀ b : Byte,
    (Crypto.toUpper (Crypto.hexEncodeToString [b])).length = 2 ∧
      (Crypto.toUpper (Crypto.hexEncodeToString [b])).all isUpperHex = true ∧
      hexValue ((Crypto.toUpper (Crypto.hexEncodeToString [b])).getD 0 0) * 16 +
        hexValue ((Crypto.toUpper (Crypto.hexEncodeToString [b])).getD 1 0) = b.val := by
  decide!

theorem Crypto.toUpper_hex_cons (b : Byte) (rest : Bytes) :
    Crypto.toUpper (Crypto.hexEncodeToString (b :: rest)) =
      Crypto.toUpper (Crypto.hexEncodeToString [b]) ++
        Crypto.toUpper (Crypto.hexEncodeToString rest) := by
  simp [Crypto.toUpper, Crypto.hexEncodeToString]

/-- The upper-case hexadecimal text of `n` bytes has `2 * n` characters, all of them out of
`0-9A-F`. -/
theorem Crypto.toUpper_hex (data : Bytes) :
    (Crypto.toUpper (Crypto.hexEncodeToString data)).length = 2 * data.length ∧
      (Crypto.toUpper (Crypto.hexEncodeToString data)).all isUpperHex = true := by
  induction data with
  | nil => exact ⟨rfl, rfl⟩
  | cons b rest ih =>
    obtain ⟨h1, h2, _⟩ := Crypto.toUpper_hex_byte b
    rw [Crypto.toUpper_hex_cons, List.length_append, List.all_append, h1, h2, ih.1, ih.2]
    simp only [List.length_cons, Bool.and_self, and_true]
    omega

/-- The upper-case hexadecimal text determines the bytes. -/
theorem Crypto.toUpper_hex_injective : ∀ a b : Bytes, a.length = b.length →
    Crypto.toUpper (Crypto.hexEncodeToString a) = Crypto.toUpper (Crypto.hexEncodeToString b) →
    a = b
  | [], [], _, _ => rfl
  | [], _ :: _, h, _ => by simp at h
  | _ :: _, [], h, _ => by simp at h
  | x :: xs, y :: ys, hlen, h => by
    rw [Crypto.toUpper_hex_cons x xs, Crypto.toUpper_hex_cons y ys] at h
    have hx := Crypto.toUpper_hex_byte x
    have hy := Crypto.toUpper_hex_byte y
    have hl : (Crypto.toUpper (Crypto.hexEncodeToString [x])).length =
        (Crypto.toUpper (Crypto.hexEncodeToString [y])).length := by rw [hx.1, hy.1]
    obtain ⟨h1, h2⟩ := List.append_inj h hl
    have hxy : x = y := by
      apply Fin.ext
      rw [← hx.2.2, ← hy.2.2, h1]
    rw [hxy, Crypto.toUpper_hex_injective xs ys (by simpa using hlen) h2]

/-- Claim C25: for every input string `s`, `MD5Hash(s)` is the upper-case hexadecimal text of
the 16-byte MD5 digest of `s` and has exactly 32 characters out of `0-9A-F`; `SHA256Hash(s)`
is the upper-case hexadecimal text of `SHA256HashBytes(s)` and has exactly 64 characters out
of `0-9A-F`; `SHA256HashBytes(s)` has exactly 32 bytes; and the digests of `"password"` and
of the empty string are the ones of the unit tests. -/
theorem C25_hashes (s : Str) :
    Crypto.MD5Hash s = Crypto.toUpper (Crypto.hexEncodeToString (MD5.sum s)) ∧
      (MD5.sum s).length = 16 ∧
      (Crypto.MD5Hash s).length = 32 ∧
      (Crypto.MD5Hash s).all isUpperHex = true ∧
      Crypto.SHA256Hash s =
        Crypto.toUpper (Crypto.hexEncodeToString (Crypto.SHA256HashBytes s)) ∧
      (Crypto.SHA256Hash s).length = 64 ∧
      (Crypto.SHA256Hash s).all isUpperHex = true ∧
      (Crypto.SHA256HashBytes s).length = 32 ∧
      Crypto.MD5Hash (str "password") = str "5F4DCC3B5AA765D61D8327DEB882CF99" ∧
      Crypto.MD5Hash (str "") = str "D41D8CD98F00B204E9800998ECF8427E" ∧
      Crypto.SHA256Hash (str "") =
        str "E3B0C44298FC1C149AFBF4C8996FB92427AE41E4649B934CA495991B7852B855" := by
  have hm := Crypto.toUpper_hex (MD5.sum s)
  have hs := Crypto.toUpper_hex (SHA256.sum256 s)
  rw [MD5.sum_length] at hm
  rw [SHA256.sum256_length] at hs
  exact ⟨rfl, rfl, hm.1, hm.2, rfl, hs.1, hs.2, rfl, by decide!, by decide!, by decide!⟩

/-! ## `hash.go`: the client nonce -/

/-- For every 4 bytes delivered by the entropy source `GenerateCnonce` returns their
upper-case hexadecimal text, 8 characters out of `0-9A-F`, and distinct draws give distinct
nonces. -/
theorem Crypto.GenerateCnonce_draws (w w2 : World) :
    (Crypto.GenerateCnonce w).1.length = 8 ∧
      (Crypto.GenerateCnonce w).1.all isUpperHex = true ∧
      (∀ b0 b1 b2 b3, w.randRead.1 = some (b0, b1, b2, b3) →
        (Crypto.GenerateCnonce w).1 =
          Crypto.toUpper (Crypto.hexEncodeToString [b0, b1, b2, b3])) ∧
      (∀ b c, w.randRead.1 = some b → w2.randRead.1 = some c → b ≠ c →
        (Crypto.GenerateCnonce w).1 ≠ (Crypto.GenerateCnonce w2).1) := by
  have hsome : ∀ (v : World) b0 b1 b2 b3, v.randRead.1 = some (b0, b1, b2, b3) →
      (Crypto.GenerateCnonce v).1 =
        Crypto.toUpper (Crypto.hexEncodeToString [b0, b1, b2, b3]) := by
    intro v b0 b1 b2 b3 h
    rcases hr : v.randRead with ⟨r, v1⟩
    rw [hr] at h
    simp only at h
    subst h
    simp only [Crypto.GenerateCnonce, hr]
  have hnone : ∀ v : World, v.randRead.1 = none →
      (Crypto.GenerateCnonce v).1 = str "ABCD1234" := by
    intro v h
    rcases hr : v.randRead with ⟨r, v1⟩
    rw [hr] at h
    simp only at h
    subst h
    simp only [Crypto.GenerateCnonce, hr]
  have hshape : (Crypto.GenerateCnonce w).1.length = 8 ∧
      (Crypto.GenerateCnonce w).1.all isUpperHex = true := by
    cases hr : w.randRead.1 with
    | none =>
      rw [hnone w hr]
      exact ⟨rfl, by decide⟩
    | some b =>
      obtain ⟨b0, b1, b2, b3⟩ := b
      rw [hsome w b0 b1 b2 b3 hr]
      exact Crypto.toUpper_hex [b0, b1, b2, b3]
  refine ⟨hshape.1, hshape.2, hsome w, ?_⟩
  rintro ⟨b0, b1, b2, b3⟩ ⟨c0, c1, c2, c3⟩ hb hc hne heq
  rw [hsome w b0 b1 b2 b3 hb, hsome w2 c0 c1 c2 c3 hc] at heq
  have := Crypto.toUpper_hex_injective [b0, b1, b2, b3] [c0, c1, c2, c3] rfl heq
  simp only [List.cons.injEq, and_true] at this
  obtain ⟨h0, h1, h2, h3⟩ := this
  exact hne (by rw [h0, h1, h2, h3])

/-- With the `rand.Read` of Go 1.24 and later, `GenerateCnonce` returns exactly when the
entropy source delivers: then it returns what `GenerateCnonce` gives for the draw, and
otherwise the program is aborted. -/
theorem Crypto.GenerateCnonceRun_cases (w : World) :
    (w.randRead.1 ≠ none → Crypto.GenerateCnonceRun w = .value (Crypto.GenerateCnonce w)) ∧
      (w.randRead.1 = none →
        Crypto.GenerateCnonceRun w = .fatal "crypto/rand: failed to read random data") := by
  rcases hr : w.randRead with ⟨r, w1⟩
  cases r with
  | none =>
    refine ⟨fun h => absurd rfl h, fun _ => ?_⟩
    simp only [Crypto.GenerateCnonceRun, World.randReadRun, hr, Outcome.bind]
  | some b =>
    obtain ⟨b0, b1, b2, b3⟩ := b
    refine ⟨fun _ => ?_, fun h => by cases h⟩
    simp only [Crypto.GenerateCnonceRun, World.randReadRun, hr, Outcome.bind,
      Crypto.GenerateCnonce]

/-- Claim C26 (the code at the failing input): with the `rand.Read` of Go 1.24 and later, a
failing entropy source does not make `GenerateCnonce` return the fallback `"ABCD1234"`: the
program is aborted by the fatal error of `rand.Read`, whose error result is always nil, so
that the branch `err != nil` is dead. For a delivered draw, `DE AD BE EF`, the result is
its upper-case hexadecimal text. -/
theorem C26_GenerateCnonce_entropy_failure :
    Crypto.GenerateCnonceRun ⟨[none], [], []⟩ =
        .fatal "crypto/rand: failed to read random data" ∧
      Crypto.GenerateCnonceRun ⟨[none], [], []⟩ ≠ .value (str "ABCD1234", ⟨[], [], []⟩) ∧
      Crypto.GenerateCnonceRun ⟨[], [], []⟩ =
        .fatal "crypto/rand: failed to read random data" ∧
      Crypto.GenerateCnonceRun ⟨[some (0xDE, 0xAD, 0xBE, 0xEF)], [], []⟩ =
        .value (str "DEADBEEF", ⟨[], [], []⟩) := by
  decide

/-! ## `client.go`: the session token and the two URLs -/

/-- Claim C27: for every client state, `IsAuthenticated()` is true if and only if
`GetSessionToken()` is non-empty, and `GetSessionToken()` is the stored token (both only
read the client: they return their answer and nothing else); a client built by
`NewClient(host, username, password)` is unauthenticated with an empty token, the given host,
username and password and a timeout of 10 seconds (in nanoseconds, the unit of
`time.Duration`), and all its other fields are zero. -/
theorem C27_session_token (c : Client) (host username password : Str) :
    (IsAuthenticated c = true ↔ GetSessionToken c ≠ []) ∧
      GetSessionToken c = c.stok ∧
      IsAuthenticated (NewClient host username password) = false ∧
      GetSessionToken (NewClient host username password) = [] ∧
      (NewClient host username password).Host = host ∧
      (NewClient host username password).Username = username ∧
      (NewClient host username password).Password = password ∧
      (NewClient host username password).Timeout = 10 * 1000000000 ∧
      NewClient host username password =
        { Host := host, Username := username, Password := password, stok := [], seq := 0,
          lsk := [], ivb := [], cnonce := [], nonce := [], hashedPass := [], isSecure := false,
          Timeout := 10000000000 } := by
  refine ⟨?_, rfl, rfl, rfl, rfl, rfl, rfl, rfl, rfl⟩
  simp [IsAuthenticated, GetSessionToken]

/-- Instance of C27: the client of `TestClient_IsAuthenticated` with the token
`test_token`. -/
theorem C27_session_token_witness :
    IsAuthenticated { exampleClient with stok := str "test_token" } = true :=
  (C27_session_token { exampleClient with stok := str "test_token" } [] [] []).1.mpr
    (by decide)

/-- Claim C28: for every host `h` and token `t`, `getBaseURL()` is `"https://" + h + ":443"`
and `getRequestURL()` is `"https://" + h + ":443/stok=" + t + "/ds"`; the request
`makeRawRequest` sends is addressed to the base URL, and the request `executePlain` or
`executeSecure` sends to the request URL built from the token held when it is dispatched
(in `ExecuteDirect`, the token held after the guard). -/
theorem C28_urls (L : GoLib) (c : Client) (w : World) :
    getBaseURL c = str "https://" ++ c.Host ++ str ":443" ∧
      getRequestURL c = str "https://" ++ c.Host ++ str ":443/stok=" ++ c.stok ++ str "/ds" ∧
      (∀ (payload : LoginRequest) (req : Request),
        (makeRawRequest L c w payload).2.sent = w.sent ++ [req] → req.url = getBaseURL c) ∧
      (∀ (payload : Payload) (req : Request),
        (executePlain L c w payload).2.2.sent = w.sent ++ [req] →
        req.url = getRequestURL c) ∧
      (∀ (payload : Payload) (req : Request),
        (executeSecure L c w payload).2.2.sent = w.sent ++ [req] →
        req.url = getRequestURL c) ∧
      (∀ (payload : Payload) (c1 : Client) (w1 : World) (req : Request),
        ensureAuthenticated L c w = (none, c1, w1) →
        (ExecuteDirect L c w payload).2.2.sent = w1.sent ++ [req] →
        req.url = str "https://" ++ c1.Host ++ str ":443/stok=" ++ c1.stok ++ str "/ds") := by
  have hreq : ∀ c : Client,
      getRequestURL c = str "https://" ++ c.Host ++ str ":443/stok=" ++ c.stok ++ str "/ds" := by
    intro c
    have h : str ":443/stok=" = str ":443" ++ str "/stok=" := by decide
    simp only [getRequestURL, getBaseURL, h, List.append_assoc]
  have hplain : ∀ (c : Client) (w : World) (payload : Payload) (req : Request),
      (executePlain L c w payload).2.2.sent = w.sent ++ [req] → req.url = getRequestURL c := by
    intro c w payload req hsent
    rcases executePlain_sent L c w payload with ⟨_, h2, _⟩ | ⟨J, _, _, h⟩
    · rw [h2] at hsent
      exact absurd hsent (append_singleton_ne_self _ _)
    · rw [h] at hsent
      have hr : req = newPost c (getRequestURL c) J := by
        have := List.append_cancel_left hsent
        simpa using this.symm
      rw [hr]
      rfl
  have hsecure : ∀ (c : Client) (w : World) (payload : Payload) (req : Request),
      (executeSecure L c w payload).2.2.sent = w.sent ++ [req] → req.url = getRequestURL c := by
    intro c w payload req hsent
    rcases executeSecure_sent L c w payload with ⟨_, h2, _⟩ | ⟨_, _, s, _, _, _, _, h, _⟩
    · rw [h2] at hsent
      exact absurd hsent (append_singleton_ne_self _ _)
    · rw [h] at hsent
      have hr : req = securePost c s := by
        have := List.append_cancel_left hsent
        simpa using this.symm
      rw [hr]
      rfl
  refine ⟨rfl, hreq c, ?_, hplain c w, hsecure c w, ?_⟩
  · intro payload req hsent
    obtain ⟨reqs, h1, h2⟩ := makeRawRequest_sentTo L c w payload
    rw [hsent] at h1
    have hr : reqs = [req] := (List.append_cancel_left h1).symm
    exact h2 req (by rw [hr]; exact List.mem_singleton.mpr rfl)
  · intro payload c1 w1 req hen hsent
    rw [ExecuteDirect_of_guard L c c1 w w1 payload hen] at hsent
    rw [← hreq c1]
    cases hsec : c1.isSecure with
    | true =>
      rw [hsec] at hsent
      exact hsecure c1 w1 payload req hsent
    | false =>
      rw [hsec] at hsent
      exact hplain c1 w1 payload req hsent

/-- Instance of C28: the URLs of `TestClient_getBaseURL` and `TestClient_getRequestURL`, and
the URL of the command of a legacy session. -/
theorem C28_urls_witness :
    getBaseURL exampleClient = str "https://192.168.1.100:443" ∧
      getRequestURL { exampleClient with stok := str "abc123" } =
        str "https://192.168.1.100:443/stok=abc123/ds" ∧
      (newPost { exampleClient with stok := str "abc123" }
        (getRequestURL { exampleClient with stok := str "abc123" })
        (str "\x7b\"device_info\":\x7b\"name\":[\"basic_info\"]\x7d\x7d")).url =
        getRequestURL { exampleClient with stok := str "abc123" } :=
  ⟨by decide, by decide,
    (C28_urls exampleLib { exampleClient with stok := str "abc123" }
      ⟨[], [.body commandOkBody], []⟩).2.2.2.1 (.value exampleParams) _ (by decide!)⟩

/-! ## `ptz.go`: the direction of a step -/

/-- The three bytes of `formatDirection` for the directions 0 to 359. -/
theorem formatDirection_digits : ∀ n : Fin 360,
    formatDirection (n.val : Int) =
        [Fin.ofNat (48 + n.val / 100), Fin.ofNat (48 + n.val / 10 % 10),
          Fin.ofNat (48 + n.val % 10)] := by
  decide!

/-- The function `PTZHandler.Step` on an accepted direction: the client is created and the
payload with `formatDirection` dispatched; the answer is 200 or 500. -/
theorem PTZHandler.Step_accepted (L : GoLib) (marshalString : Str → Bytes) (w : World)
    (cameraIP username password : Str) (d : Int) (h : ¬ (d < 0 ∨ d > 359)) :
    (PTZHandler.Step L marshalString w cameraIP username password (.ok { Direction := d })).2 =
        (some (ExecuteDirect L (NewClient cameraIP username password) w
            (.value (stepPayload marshalString (formatDirection d)))).2.1,
          (ExecuteDirect L (NewClient cameraIP username password) w
            (.value (stepPayload marshalString (formatDirection d)))).2.2) ∧
      ((∃ result, (PTZHandler.Step L marshalString w cameraIP username password
          (.ok { Direction := d })).1 = .success result) ∨
        ∃ message, (PTZHandler.Step L marshalString w cameraIP username password
          (.ok { Direction := d })).1 = .failure 500 "execution_failed" message) := by
  rcases hE : ExecuteDirect L (NewClient cameraIP username password) w
    (.value (stepPayload marshalString (formatDirection d))) with ⟨r, c1, w1⟩
  cases r with
  | error err =>
    have hS : PTZHandler.Step L marshalString w cameraIP username password
        (.ok { Direction := d }) =
        (.failure 500 "execution_failed" err.Error, some c1, w1) := by
      simp only [PTZHandler.Step, h, if_false, hE]
    rw [hS]
    exact ⟨rfl, Or.inr ⟨_, rfl⟩⟩
  | ok result =>
    have hS : PTZHandler.Step L marshalString w cameraIP username password
        (.ok { Direction := d }) = (.success result, some c1, w1) := by
      simp only [PTZHandler.Step, h, if_false, hE]
    rw [hS]
    exact ⟨rfl, Or.inl ⟨_, rfl⟩⟩

/-- Claim C29: the PTZ `Step` handler rejects a request whose body parses to the direction
`d` with HTTP 400 and the error "invalid_direction", creating no camera client and sending
nothing, if and only if `d < 0` or `d > 359`; for every accepted `d` the direction in the
payload handed to `ExecuteDirect` is `formatDirection(d)`, which is exactly three ASCII
decimal digits whose decimal value is `d` (zero-padded, `90` giving `"090"`). -/
theorem C29_Step_direction (L : GoLib) (marshalString : Str → Bytes) (w : World)
    (cameraIP username password : Str) (d : Int) :
    ((PTZHandler.Step L marshalString w cameraIP username password
          (.ok { Direction := d })).1 =
        .failure 400 "invalid_direction" "Direction must be between 0 and 359" ↔
        (d < 0 ∨ d > 359)) ∧
      ((d < 0 ∨ d > 359) →
        PTZHandler.Step L marshalString w cameraIP username password (.ok { Direction := d }) =
          (.failure 400 "invalid_direction" "Direction must be between 0 and 359", none, w)) ∧
      (0 ≤ d → d ≤ 359 →
        (PTZHandler.Step L marshalString w cameraIP username password
            (.ok { Direction := d })).2 =
          (some (ExecuteDirect L (NewClient cameraIP username password) w
              (.value (stepPayload marshalString (formatDirection d)))).2.1,
            (ExecuteDirect L (NewClient cameraIP username password) w
              (.value (stepPayload marshalString (formatDirection d)))).2.2) ∧
        ∃ a b c : Nat, a ≤ 9 ∧ b ≤ 9 ∧ c ≤ 9 ∧
          formatDirection d =
            [(Fin.ofNat (48 + a) : Byte), (Fin.ofNat (48 + b) : Byte),
              (Fin.ofNat (48 + c) : Byte)] ∧
          d = 100 * (a : Int) + 10 * (b : Int) + (c : Int)) ∧
      formatDirection 90 = str "090" := by
  have hrej : (d < 0 ∨ d > 359) →
      PTZHandler.Step L marshalString w cameraIP username password (.ok { Direction := d }) =
        (.failure 400 "invalid_direction" "Direction must be between 0 and 359", none, w) := by
    intro h
    simp only [PTZHandler.Step, h, if_true]
  refine ⟨⟨?_, fun h => by rw [hrej h]⟩, hrej, ?_, by decide⟩
  · intro h
    by_contra hd
    rcases (PTZHandler.Step_accepted L marshalString w cameraIP username password d hd).2 with
      ⟨r, hr⟩ | ⟨m, hm⟩
    · rw [hr] at h
      cases h
    · rw [hm] at h
      cases h
  · intro h0 h359
    refine ⟨(PTZHandler.Step_accepted L marshalString w cameraIP username password d
      (by omega)).1, ?_⟩
    have hn : d.toNat < 360 := by omega
    have hd : ((d.toNat : Nat) : Int) = d := Int.toNat_of_nonneg h0
    have hf := formatDirection_digits ⟨d.toNat, hn⟩
    simp only [hd] at hf
    refine ⟨d.toNat / 100, d.toNat / 10 % 10, d.toNat % 10, by omega, by omega, by omega, hf,
      ?_⟩
    omega

/-- Instance of C29: the direction 400 of `TestPTZHandler_Step_InvalidDirection` is rejected,
and the direction 90 is sent as `090`. -/
theorem C29_Step_direction_witness :
    PTZHandler.Step exampleLib jsonQuote ⟨[], [], []⟩ (str "192.168.1.100") (str "test_user")
        (str "test_pass") (.ok { Direction := 400 }) =
      (.failure 400 "invalid_direction" "Direction must be between 0 and 359", none,
        ⟨[], [], []⟩) ∧
      ∃ a b c : Nat, a ≤ 9 ∧ b ≤ 9 ∧ c ≤ 9 ∧
        formatDirection 90 =
          [(Fin.ofNat (48 + a) : Byte), (Fin.ofNat (48 + b) : Byte),
            (Fin.ofNat (48 + c) : Byte)] ∧
        (90 : Int) = 100 * (a : Int) + 10 * (b : Int) + (c : Int) :=
  ⟨(C29_Step_direction exampleLib jsonQuote ⟨[], [], []⟩ (str "192.168.1.100")
      (str "test_user") (str "test_pass") 400).2.1 (Or.inr (by decide)),
    ((C29_Step_direction exampleLib jsonQuote ⟨[], [], []⟩ (str "192.168.1.100")
      (str "test_user") (str "test_pass") 90).2.2.1 (by decide) (by decide)).2⟩

/-! ## `detection.go`: the sensitivity forwarded to the camera -/

/-- Claim C30 (the code at the failing inputs): `formatNumber(50)` is `"050"`, not the
decimal representation `"50"` that `strconv.Itoa(50)` gives, and `formatNumber(1000)` is
`":00"`, which is no decimal number at all. Both values are forwarded:
`SetMotionDetection` with the sensitivity 50 sends the params
`{"motion_detection":{"motion_det":{"digital_sensitivity":"050","enabled":"on"}}}`, and
`SetPersonDetection` with the sensitivity 1000 sends
`{"people_detection":{"detection":{"enabled":"on","sensitivity":":00"}}}`. -/
theorem C30_formatNumber_padding :
    formatNumber 50 = str "050" ∧ Itoa 50 = str "50" ∧
      formatNumber 1000 = str ":00" ∧ Itoa 1000 = str "1000" ∧
      (DetectionHandler.SetMotionDetection exampleLib jsonQuote
          ⟨[], [.body invalidTokenBody, .body loginOkBody, .body commandOkBody], []⟩
          (str "192.168.1.100") (str "admin") (str "password")
          (.ok { Enabled := true, Sensitivity := 50 })).2.2.sent.getLast?.map Request.body =
        some (str "\x7b\"method\":\"multipleRequest\",\"params\":\x7b\"requests\":[\x7b\"method\":\"setDetectionConfig\",\"params\":\x7b\"motion_detection\":\x7b\"motion_det\":\x7b\"digital_sensitivity\":\"050\",\"enabled\":\"on\"\x7d\x7d\x7d\x7d]\x7d\x7d") ∧
      (DetectionHandler.SetPersonDetection exampleLib jsonQuote
          ⟨[], [.body invalidTokenBody, .body loginOkBody, .body commandOkBody], []⟩
          (str "192.168.1.100") (str "admin") (str "password")
          (.ok { Enabled := true, Sensitivity := 1000 })).2.2.sent.getLast?.map Request.body =
        some (str "\x7b\"method\":\"multipleRequest\",\"params\":\x7b\"requests\":[\x7b\"method\":\"setPersonDetectionConfig\",\"params\":\x7b\"people_detection\":\x7b\"detection\":\x7b\"enabled\":\"on\",\"sensitivity\":\":00\"\x7d\x7d\x7d\x7d]\x7d\x7d") :=
  ⟨by decide, by decide, by decide, by decide, by decide!, by decide!⟩

end Tapo
